import Mathlib

/-! gost-panel: configuration synthesis engine

A shallow embedding of `internal/gost/generator.go` (the configuration
generator) and of the records of `internal/model/model.go` it reads.

* Go `map[string]interface{}` documents are association lists `Obj` of
  `Val` trees; assignment `m[k] = v` is `setKey`, lookup is `getKey`.
* A nil map or nil slice returned by a generator is `none` / `Val.null`.
* `uint` identifiers are `Nat`; `int` / `int64` fields are `Int`
  (no arithmetic that could overflow is performed on them by the generator).
* `encoding/json` is not part of the repository: the generator is embedded
  over an arbitrary decoder `Unmarshal`, each field giving the decoded value
  exactly when `json.Unmarshal` returns a nil error.
-/

namespace GostPanel

/-! ## Documents -/

/-- The values stored in a generated document (`interface{}` in the source);
`float m e` is the `float64` value `m * 2 ^ e` of a decoded JSON number. -/
inductive Val where
  | null : Val
  | str : String → Val
  | int : Int → Val
  | bool : Bool → Val
  | float : Int → Int → Val
  | list : List Val → Val
  | obj : List (String × Val) → Val
  deriving Repr

/-- A Go `map[string]interface{}` (also used for `map[string]string`). -/
abbrev Obj := List (String × Val)

/-- Map lookup `m[k]`: the value and whether the key is present. -/
def getKey : Obj → String → Option Val
  | [], _ => none
  | (k', v) :: rest, k => if k' = k then some v else getKey rest k

/-- Map assignment `m[k] = v`: replaces the binding of `k` or adds one. -/
def setKey : Obj → String → Val → Obj
  | [], k, v => [(k, v)]
  | (k', v') :: rest, k, v =>
    if k' = k then (k, v) :: rest else (k', v') :: setKey rest k v

/-- Whether the map has the key at all (`_, ok := m[k]`). -/
def hasKey (m : Obj) (k : String) : Bool := (getKey m k).isSome

/-- The field `k` of a value that is a map; nothing for any other value. -/
def Val.field : Val → String → Option Val
  | Val.obj m, k => getKey m k
  | _, _ => none

/-- The elements of a value that is a slice; a nil slice has none. -/
def Val.elems : Val → List Val
  | Val.list xs => xs
  | _ => []

/-- A slice of strings (`[]string`). -/
def strList (xs : List String) : Val := Val.list (xs.map Val.str)

/-! ## Records (`internal/model/model.go`), restricted to the fields the generator reads -/

structure Node where
  ID : Nat
  Name : String
  Host : String
  Port : Int
  APIPort : Int
  APIUser : String
  APIPass : String
  ProxyUser : String
  ProxyPass : String
  Protocol : String
  Transport : String
  TransportOpts : String
  SSMethod : String
  SSPassword : String
  TrojanPassword : String
  VMessUUID : String
  VMessAlterID : Int
  TLSEnabled : Bool
  TLSCertFile : String
  TLSKeyFile : String
  TLSSNI : String
  WSPath : String
  WSHost : String
  SpeedLimit : Int
  ConnRateLimit : Int
  DNSServer : String
  deriving Repr, DecidableEq

structure Tunnel where
  ID : Nat
  EntryPort : Int
  Protocol : String
  ExitNode : Option Node
  TargetAddr : String
  SpeedLimit : Int
  deriving Repr, DecidableEq

structure Bypass where
  Whitelist : Bool
  Matchers : String
  deriving Repr, DecidableEq

structure Admission where
  Whitelist : Bool
  Matchers : String
  deriving Repr, DecidableEq

structure HostMapping where
  Mappings : String
  deriving Repr, DecidableEq

structure Ingress where
  Rules : String
  deriving Repr, DecidableEq

/-- The local type `hostEntry` of `generateHostsConfigs`. -/
structure hostEntry where
  Hostname : String
  IP : String
  Prefer : String
  deriving Repr, DecidableEq

/-- The local type `ingressRule` of `generateIngressConfigs`. -/
structure ingressRule where
  Hostname : String
  Endpoint : String
  deriving Repr, DecidableEq

/-- The calls of `json.Unmarshal` made by the generator, one field per target
type. Each gives `some v` exactly when the call returns a nil error, `v` being
the decoded value; `object` gives `none` also when the decoded map is nil. -/
structure Unmarshal where
  strings : String → Option (List String)
  hostEntries : String → Option (List hostEntry)
  ingressRules : String → Option (List ingressRule)
  object : String → Option Obj

/-! ## Number formatting (`fmt.Sprintf`) -/

/-- The number of low bits dropped when a non-negative integer is converted to
`float64` (53 significant bits); `fuel` bounds the search. -/
def float64Shift : Nat → Nat → Nat
  | 0, _ => 0
  | fuel + 1, n => if n < 2 ^ 53 then 0 else 1 + float64Shift fuel (n / 2)

/-- The conversion `float64(n)` of a non-negative 64-bit integer: `n` rounded
to 53 significant bits, ties to even. The result is the exact value of the
float. -/
def float64OfNat (n : Nat) : Nat :=
  let sh := float64Shift 64 n
  let q := n / 2 ^ sh
  let r := n % 2 ^ sh
  if 2 * r > 2 ^ sh ∨ (2 * r = 2 ^ sh ∧ q % 2 = 1) then (q + 1) * 2 ^ sh else q * 2 ^ sh

/-- Two decimal digits, zero padded. -/
def pad2 (d : Nat) : String :=
  if d < 10 then "0" ++ toString d else toString d

/-- The number of hundredths `fmt.Sprintf("%.2f", x)` prints for the float
`x = m / 2 ^ k`: the exact value of `x` rounded to two decimals, ties to even, as
`strconv.FormatFloat(x, 'f', 2, 64)` does. -/
def hundredths (m k : Nat) : Nat :=
  let q := (m * 100) / 2 ^ k
  let r := (m * 100) % 2 ^ k
  if 2 * r > 2 ^ k ∨ (2 * r = 2 ^ k ∧ q % 2 = 1) then q + 1 else q

/-- The text `fmt.Sprintf("%.2f", x)` for the float `x = m / 2 ^ k` (division of
a float by a power of two is exact): the integer part, a point and two decimals. -/
def sprintf2f (m k : Nat) : String :=
  let h := hundredths m k
  toString (h / 100) ++ "." ++ pad2 (h % 100)

/-- The limit text computed inline by `generateLimiters` (lines 470-477) and by
`GenerateTunnelEntryConfig` (lines 796-803) for an `int64` speed limit. -/
def formatLimit (speedLimit : Int) : String :=
  let limit := toString speedLimit ++ "B"
  if speedLimit ≥ 1024 * 1024 * 1024 then
    sprintf2f (float64OfNat speedLimit.toNat) 30 ++ "GB"
  else if speedLimit ≥ 1024 * 1024 then
    sprintf2f (float64OfNat speedLimit.toNat) 20 ++ "MB"
  else if speedLimit ≥ 1024 then
    sprintf2f (float64OfNat speedLimit.toNat) 10 ++ "KB"
  else limit

/-! ## `generator.go` -/

/-- generateAPIConfig. -/
def generateAPIConfig (node : Node) : Obj :=
  let api : Obj := [("addr", Val.str (":" ++ toString node.APIPort))]
  if node.APIUser ≠ "" then
    setKey api "auth"
      (Val.obj [("username", Val.str node.APIUser), ("password", Val.str node.APIPass)])
  else api

/-- generateObservers. -/
def generateObservers (node : Node) : Val :=
  Val.list [Val.obj
    [("name", Val.str "stats-observer"),
     ("plugin", Val.obj
        [("type", Val.str "http"),
         ("addr", Val.str ("http://127.0.0.1:" ++ toString node.APIPort
            ++ "/observers/stats-observer"))])]]

/-- generateHandler: the `switch node.Protocol`, then the resolver reference. -/
def generateHandler (node : Node) : Obj :=
  let handler : Obj := []
  let handler :=
    if node.Protocol = "http" then
      let handler := setKey handler "type" (Val.str "http")
      if node.ProxyUser ≠ "" then setKey handler "auther" (Val.str "main-auth") else handler
    else if node.Protocol = "socks5" ∨ node.Protocol = "" then
      let handler := setKey handler "type" (Val.str "socks5")
      let handler :=
        if node.ProxyUser ≠ "" then setKey handler "auther" (Val.str "main-auth") else handler
      setKey handler "metadata"
        (Val.obj [("bind", Val.bool true), ("udp", Val.bool true),
                  ("udpBufferSize", Val.int 4096)])
    else if node.Protocol = "ss" then
      let handler := setKey handler "type" (Val.str "ss")
      setKey handler "auth"
        (Val.obj [("username", Val.str node.SSMethod), ("password", Val.str node.SSPassword)])
    else if node.Protocol = "trojan" then
      let handler := setKey handler "type" (Val.str "trojan")
      setKey handler "auth" (Val.obj [("password", Val.str node.TrojanPassword)])
    else if node.Protocol = "vmess" then
      let handler := setKey handler "type" (Val.str "vmess")
      let handler := setKey handler "auth" (Val.obj [("username", Val.str node.VMessUUID)])
      setKey handler "metadata" (Val.obj [("alterID", Val.int node.VMessAlterID)])
    else if node.Protocol = "relay" then setKey handler "type" (Val.str "relay")
    else if node.Protocol = "tcp" then setKey handler "type" (Val.str "tcp")
    else if node.Protocol = "udp" then setKey handler "type" (Val.str "udp")
    else if node.Protocol = "sni" then setKey handler "type" (Val.str "sni")
    else if node.Protocol = "dns" then setKey handler "type" (Val.str "dns")
    else if node.Protocol = "sshd" then
      let handler := setKey handler "type" (Val.str "sshd")
      if node.ProxyUser ≠ "" then setKey handler "auther" (Val.str "main-auth") else handler
    else if node.Protocol = "redirect" then setKey handler "type" (Val.str "redirect")
    else if node.Protocol = "tun" then
      let handler := setKey handler "type" (Val.str "tun")
      setKey handler "metadata" (Val.obj [("net", Val.str "198.18.0.0/15")])
    else handler
  if node.DNSServer ≠ "" then setKey handler "resolver" (Val.str "custom-resolver")
  else handler

/-- The case labels of the `switch node.Protocol` of generateHandler. -/
def handledProtocols : List String :=
  ["http", "socks5", "", "ss", "trojan", "vmess", "relay", "tcp", "udp", "sni", "dns",
   "sshd", "redirect", "tun"]

/-- parseTransportOpts: nil for an empty text, for a decode error and for a nil map. -/
def parseTransportOpts (u : Unmarshal) (node : Node) : Option Obj :=
  if node.TransportOpts = "" then none else u.object node.TransportOpts

/-- generateTLSConfig. -/
def generateTLSConfig (node : Node) : Obj :=
  let tls : Obj := []
  let tls := if node.TLSCertFile ≠ "" then setKey tls "certFile" (Val.str node.TLSCertFile) else tls
  let tls := if node.TLSKeyFile ≠ "" then setKey tls "keyFile" (Val.str node.TLSKeyFile) else tls
  let tls := if node.TLSSNI ≠ "" then setKey tls "serverName" (Val.str node.TLSSNI) else tls
  tls

/-- The WebSocket metadata block repeated in the `ws`, `wss`, `mws` and `mwss`
cases of `generateListener`. -/
def wsMetadata (node : Node) (listener : Obj) : Obj :=
  if node.WSPath ≠ "" ∨ node.WSHost ≠ "" then
    let metadata : Obj := []
    let metadata := if node.WSPath ≠ "" then setKey metadata "path" (Val.str node.WSPath) else metadata
    let metadata := if node.WSHost ≠ "" then setKey metadata "host" (Val.str node.WSHost) else metadata
    setKey listener "metadata" (Val.obj metadata)
  else listener

/-- The built-in KCP table of `generateListener`. -/
def kcpDefaults : Obj :=
  [("mtu", Val.int 1350), ("sndwnd", Val.int 1024), ("rcvwnd", Val.int 1024),
   ("datashard", Val.int 10), ("parityshard", Val.int 3), ("nodelay", Val.int 1),
   ("interval", Val.int 20), ("resend", Val.int 2), ("nc", Val.int 1),
   ("smuxver", Val.int 1), ("smuxbuf", Val.int 4194304), ("streambuf", Val.int 2097152),
   ("keepalive", Val.int 10), ("snmpperiod", Val.int 60), ("tcp", Val.bool false)]

/-- The KCP table after `for k, v := range kcp { kcpConfig[k] = v }`. -/
def kcpConfig (u : Unmarshal) (node : Node) : Obj :=
  match parseTransportOpts u node with
  | some opts =>
    match getKey opts "kcp" with
    | some (Val.obj kcp) => kcp.foldl (fun acc kv => setKey acc kv.1 kv.2) kcpDefaults
    | _ => kcpDefaults
  | none => kcpDefaults

/-- A listener with a type and the TLS sub-document of the node. -/
def tlsListener (node : Node) (ty : String) : Obj :=
  setKey (setKey [] "type" (Val.str ty)) "tls" (Val.obj (generateTLSConfig node))

/-- generateListener: the protocol `switch` (early returns), then the
transport `switch`. -/
def generateListener (u : Unmarshal) (node : Node) : Obj :=
  let listener : Obj := []
  if node.Protocol = "sshd" then setKey listener "type" (Val.str "sshd")
  else if node.Protocol = "redirect" then setKey listener "type" (Val.str "redirect")
  else if node.Protocol = "tun" then setKey listener "type" (Val.str "tun")
  else if node.Transport = "tcp" ∨ node.Transport = "" ∨ node.Transport = "tcp+udp" then
    setKey listener "type" (Val.str "tcp")
  else if node.Transport = "tls" then tlsListener node "tls"
  else if node.Transport = "mtls" then tlsListener node "mtls"
  else if node.Transport = "ws" then wsMetadata node (setKey listener "type" (Val.str "ws"))
  else if node.Transport = "wss" then wsMetadata node (tlsListener node "wss")
  else if node.Transport = "h2" then tlsListener node "h2"
  else if node.Transport = "h2c" then setKey listener "type" (Val.str "h2c")
  else if node.Transport = "quic" then tlsListener node "quic"
  else if node.Transport = "kcp" then
    setKey (setKey listener "type" (Val.str "kcp")) "metadata"
      (Val.obj [("kcp", Val.obj (kcpConfig u node))])
  else if node.Transport = "grpc" then tlsListener node "grpc"
  else if node.Transport = "pht" then setKey listener "type" (Val.str "pht")
  else if node.Transport = "phts" then tlsListener node "phts"
  else if node.Transport = "ssh" then setKey listener "type" (Val.str "ssh")
  else if node.Transport = "sshd" then setKey listener "type" (Val.str "sshd")
  else if node.Transport = "mws" then wsMetadata node (setKey listener "type" (Val.str "mws"))
  else if node.Transport = "mwss" then wsMetadata node (tlsListener node "mwss")
  else if node.Transport = "http3" then tlsListener node "http3"
  else if node.Transport = "dtls" then tlsListener node "dtls"
  else if node.Transport = "ohttp" then setKey listener "type" (Val.str "ohttp")
  else if node.Transport = "otls" then setKey listener "type" (Val.str "otls")
  else if node.Transport = "redirect" then setKey listener "type" (Val.str "redirect")
  else if node.Transport = "tun" then setKey listener "type" (Val.str "tun")
  else listener

/-- generateMainService. -/
def generateMainService (u : Unmarshal) (node : Node) : Obj :=
  let service : Obj :=
    [("name", Val.str "main-service"),
     ("addr", Val.str (":" ++ toString node.Port)),
     ("observer", Val.str "stats-observer")]
  let service := setKey service "handler" (Val.obj (generateHandler node))
  let service := setKey service "listener" (Val.obj (generateListener u node))
  let service :=
    if node.SpeedLimit > 0 then setKey service "limiter" (Val.str "speed-limiter") else service
  let service :=
    if node.ConnRateLimit > 0 then setKey service "rlimiter" (Val.str "rate-limiter") else service
  service

/-- generateAuthers. -/
def generateAuthers (node : Node) : Val :=
  Val.list [Val.obj
    [("name", Val.str "main-auth"),
     ("auths", Val.list [Val.obj
        [("username", Val.str node.ProxyUser), ("password", Val.str node.ProxyPass)]])]]

/-- generateLimiters: nil when the speed limit is not positive. -/
def generateLimiters (node : Node) : Val :=
  if node.SpeedLimit ≤ 0 then Val.null
  else
    Val.list [Val.obj
      [("name", Val.str "speed-limiter"),
       ("limits", strList ["$ " ++ formatLimit node.SpeedLimit])]]

/-- generateRateLimiters: nil when the connection rate limit is not positive. -/
def generateRateLimiters (node : Node) : Val :=
  if node.ConnRateLimit ≤ 0 then Val.null
  else
    Val.list [Val.obj
      [("name", Val.str "rate-limiter"),
       ("limits", strList ["$ " ++ toString node.ConnRateLimit ++ "/s"])]]

/-- generateResolvers: nil when no DNS server is set. -/
def generateResolvers (node : Node) : Val :=
  if node.DNSServer = "" then Val.null
  else
    Val.list [Val.obj
      [("name", Val.str "custom-resolver"),
       ("nameservers", Val.list [Val.obj
          [("addr", Val.str node.DNSServer), ("prefer", Val.str "ipv4")]])]]

/-- The loop of generateBypassConfigs and generateAdmissionConfigs over the
records, as (whitelist flag, payload) pairs: the flag is raised before the
payload is decoded, and the matchers are appended only when decoding succeeds. -/
def mergeMatchers (u : Unmarshal) (records : List (Bool × String)) : List String × Bool :=
  records.foldl
    (fun acc r =>
      let whitelist := if r.1 then true else acc.2
      match u.strings r.2 with
      | some matchers => (acc.1 ++ matchers, whitelist)
      | none => (acc.1, whitelist))
    ([], false)

/-- generateBypassConfigs: nil when no matcher was collected. -/
def generateBypassConfigs (u : Unmarshal) (nodeID : Nat) (bypasses : List Bypass) : Val :=
  let merged := mergeMatchers u (bypasses.map (fun b => (b.Whitelist, b.Matchers)))
  if merged.1.length = 0 then Val.null
  else
    Val.list [Val.obj
      [("name", Val.str ("bypass-" ++ toString nodeID)),
       ("whitelist", Val.bool merged.2),
       ("matchers", strList merged.1)]]

/-- generateAdmissionConfigs: nil when no matcher was collected. -/
def generateAdmissionConfigs (u : Unmarshal) (nodeID : Nat) (admissions : List Admission) : Val :=
  let merged := mergeMatchers u (admissions.map (fun a => (a.Whitelist, a.Matchers)))
  if merged.1.length = 0 then Val.null
  else
    Val.list [Val.obj
      [("name", Val.str ("admission-" ++ toString nodeID)),
       ("whitelist", Val.bool merged.2),
       ("matchers", strList merged.1)]]

/-- The mapping built for one decoded entry in generateHostsConfigs. -/
def hostMappingOf (e : hostEntry) : Val :=
  let mapping : Obj := [("ip", Val.str e.IP), ("hostname", Val.str e.Hostname)]
  Val.obj (if e.Prefer ≠ "" then setKey mapping "prefer" (Val.str e.Prefer) else mapping)

/-- generateHostsConfigs: nil when no mapping was collected. -/
def generateHostsConfigs (u : Unmarshal) (nodeID : Nat) (hostMappings : List HostMapping) : Val :=
  let allMappings : List Val :=
    hostMappings.foldl
      (fun acc hm =>
        match u.hostEntries hm.Mappings with
        | some entries => entries.foldl (fun acc e => acc ++ [hostMappingOf e]) acc
        | none => acc)
      []
  if allMappings.length = 0 then Val.null
  else
    Val.list [Val.obj
      [("name", Val.str ("hosts-" ++ toString nodeID)),
       ("mappings", Val.list allMappings)]]

/-- The rule built for one decoded entry in generateIngressConfigs. -/
def ingressRuleOf (r : ingressRule) : Val :=
  Val.obj [("hostname", Val.str r.Hostname), ("endpoint", Val.str r.Endpoint)]

/-- generateIngressConfigs: nil when no rule was collected. -/
def generateIngressConfigs (u : Unmarshal) (nodeID : Nat) (ingresses : List Ingress) : Val :=
  let allRules : List Val :=
    ingresses.foldl
      (fun acc ing =>
        match u.ingressRules ing.Rules with
        | some rules => rules.foldl (fun acc r => acc ++ [ingressRuleOf r]) acc
        | none => acc)
      []
  if allRules.length = 0 then Val.null
  else
    Val.list [Val.obj
      [("name", Val.str ("ingress-" ++ toString nodeID)),
       ("rules", Val.list allRules)]]

/-- The statement `if handler, ok := mainService["handler"].(map...); ok
{ handler[key] = name }`: the handler map is shared with the service, so the
assignment is visible through the service. -/
def setHandlerRef (mainService : Obj) (key name : String) : Obj :=
  match getKey mainService "handler" with
  | some (Val.obj handler) =>
    setKey mainService "handler" (Val.obj (setKey handler key (Val.str name)))
  | _ => mainService

/-- The main service of GenerateNodeConfigWithRules with the rule references
attached (lines 38-60). -/
def mainServiceWithRules (u : Unmarshal) (node : Node) (bypasses : List Bypass)
    (admissions : List Admission) (hostMappings : List HostMapping) : Obj :=
  let mainService := generateMainService u node
  let mainService :=
    if bypasses.length > 0 then
      setHandlerRef mainService "bypass" ("bypass-" ++ toString node.ID)
    else mainService
  let mainService :=
    if admissions.length > 0 then
      setKey mainService "admission" (Val.str ("admission-" ++ toString node.ID))
    else mainService
  let mainService :=
    if hostMappings.length > 0 then
      setHandlerRef mainService "hosts" ("hosts-" ++ toString node.ID)
    else mainService
  mainService

/-- GenerateNodeConfigWithRules; the variadic `ingresses` is the list of the
arguments passed for it. -/
def GenerateNodeConfigWithRules (u : Unmarshal) (node : Node) (bypasses : List Bypass)
    (admissions : List Admission) (hostMappings : List HostMapping)
    (ingresses : List (List Ingress)) : Obj :=
  let config : Obj := []
  let config := setKey config "api" (Val.obj (generateAPIConfig node))
  let config := setKey config "metrics" (Val.obj [("addr", Val.str ":9000")])
  let config := setKey config "observers" (generateObservers node)
  let mainService := mainServiceWithRules u node bypasses admissions hostMappings
  let config := setKey config "services" (Val.list [Val.obj mainService])
  let config :=
    if node.ProxyUser ≠ "" then setKey config "authers" (generateAuthers node) else config
  let config :=
    if node.SpeedLimit > 0 ∨ node.ConnRateLimit > 0 then
      setKey (setKey config "limiters" (generateLimiters node))
        "rlimiters" (generateRateLimiters node)
    else config
  let config :=
    if node.DNSServer ≠ "" then setKey config "resolvers" (generateResolvers node) else config
  let config :=
    if bypasses.length > 0 then
      setKey config "bypasses" (generateBypassConfigs u node.ID bypasses)
    else config
  let config :=
    if admissions.length > 0 then
      setKey config "admissions" (generateAdmissionConfigs u node.ID admissions)
    else config
  let config :=
    if hostMappings.length > 0 then
      setKey config "hosts" (generateHostsConfigs u node.ID hostMappings)
    else config
  let config :=
    match ingresses with
    | first :: _ =>
      if first.length > 0 then
        setKey config "ingresses" (generateIngressConfigs u node.ID first)
      else config
    | [] => config
  config

/-- GenerateNodeConfig. -/
def GenerateNodeConfig (u : Unmarshal) (node : Node) : Obj :=
  GenerateNodeConfigWithRules u node [] [] [] []

/-- parseProtocols. -/
def parseProtocols (protocol : String) : List String :=
  if protocol = "tcp+udp" ∨ protocol = "udp+tcp" then ["tcp", "udp"]
  else if protocol = "udp" then ["udp"]
  else if protocol = "tcp" ∨ protocol = "" then ["tcp"]
  else ["tcp"]

/-- normalizeTransport. -/
def normalizeTransport (transport : String) : String :=
  if transport = "tcp+udp" ∨ transport = "udp+tcp" then "tcp"
  else if transport = "" then "tcp"
  else transport

/-- The body of the loop `for _, proto := range protocols` of
GenerateTunnelEntryConfig: the service built for one protocol. -/
def tunnelService (tunnel : Tunnel) (chainName proto : String) : Obj :=
  let service : Obj :=
    [("name", Val.str ("tunnel-" ++ toString tunnel.ID ++ "-" ++ proto)),
     ("addr", Val.str (":" ++ toString tunnel.EntryPort)),
     ("handler", Val.obj [("type", Val.str proto), ("chain", Val.str chainName)]),
     ("listener", Val.obj [("type", Val.str proto)])]
  let service :=
    if tunnel.TargetAddr ≠ "" then
      setKey service "forwarder"
        (Val.obj [("nodes", Val.list [Val.obj
          [("name", Val.str "target"), ("addr", Val.str tunnel.TargetAddr)]])])
    else service
  let service :=
    if tunnel.SpeedLimit > 0 then setKey service "limiter" (Val.str "tunnel-limiter")
    else service
  service

/-- The forwarding chain of GenerateTunnelEntryConfig (lines 718-753): one
hop with one node, the exit node. -/
def tunnelChain (tunnel : Tunnel) (exitNode : Node) : Obj :=
  let chainName := "tunnel-chain-" ++ toString tunnel.ID
  let connector : Obj := [("type", Val.str exitNode.Protocol)]
  let connector :=
    if exitNode.ProxyUser ≠ "" then
      setKey connector "auth"
        (Val.obj [("username", Val.str exitNode.ProxyUser),
                  ("password", Val.str exitNode.ProxyPass)])
    else connector
  let dialer : Obj := [("type", Val.str (normalizeTransport exitNode.Transport))]
  let dialer :=
    if exitNode.TLSEnabled then setKey dialer "tls" (Val.obj (generateTLSConfig exitNode))
    else dialer
  [("name", Val.str chainName),
   ("hops", Val.list [Val.obj
      [("name", Val.str "hop-0"),
       ("nodes", Val.list [Val.obj
          [("name", Val.str ("exit-" ++ toString exitNode.ID)),
           ("addr", Val.str (exitNode.Host ++ ":" ++ toString exitNode.Port)),
           ("connector", Val.obj connector),
           ("dialer", Val.obj dialer)]])]])]

/-- The limiter block of GenerateTunnelEntryConfig (lines 796-809). -/
def tunnelLimiters (tunnel : Tunnel) : Val :=
  Val.list [Val.obj
    [("name", Val.str "tunnel-limiter"),
     ("limits", strList ["$ " ++ formatLimit tunnel.SpeedLimit])]]

/-- GenerateTunnelEntryConfig: nil when the tunnel has no exit node. -/
def GenerateTunnelEntryConfig (tunnel : Tunnel) : Option Obj :=
  match tunnel.ExitNode with
  | none => none
  | some exitNode =>
    let chainName := "tunnel-chain-" ++ toString tunnel.ID
    let chain := tunnelChain tunnel exitNode
    let services : List Val :=
      (parseProtocols tunnel.Protocol).foldl
        (fun services proto => services ++ [Val.obj (tunnelService tunnel chainName proto)]) []
    let config : Obj := [("services", Val.list services), ("chains", Val.list [Val.obj chain])]
    let config :=
      if tunnel.SpeedLimit > 0 then setKey config "limiters" (tunnelLimiters tunnel)
      else config
    some config

/-- GenerateTunnelExitConfig: nil when the tunnel has no exit node, else the
standard node configuration of the exit node. -/
def GenerateTunnelExitConfig (u : Unmarshal) (tunnel : Tunnel) : Option Obj :=
  match tunnel.ExitNode with
  | none => none
  | some exitNode => some (GenerateNodeConfig u exitNode)

/-! ## Chains (`generator.go`, lines 545-666) -/

/-- The fields of `model.NodeGroup` read by GenerateChainConfig. -/
structure NodeGroup where
  ID : Nat
  Strategy : String
  FailTimeout : Int
  MaxFails : Int
  deriving Repr, DecidableEq

/-- The fields of `model.NodeGroupMember` read by GenerateChainConfig. -/
structure NodeGroupMember where
  Weight : Int
  Enabled : Bool
  deriving Repr, DecidableEq

/-- NodeMemberWithNode. The node pointer is dereferenced without a check by
GenerateChainConfig, and `GetNodeGroupMembersWithNodes`, which builds these
values, skips a member whose node cannot be loaded: the node is always present. -/
structure NodeMemberWithNode where
  Member : NodeGroupMember
  Node : Node
  deriving Repr, DecidableEq

/-- The field of `model.ProxyChain` read by GenerateProxyChainConfig. -/
structure ProxyChain where
  ID : Nat
  deriving Repr, DecidableEq

/-- The fields of `model.ProxyChainHop` read by GenerateProxyChainConfig; the
node pointer is nil when the hop's node was not loaded. -/
structure ProxyChainHop where
  Node : Option Node
  Enabled : Bool
  deriving Repr, DecidableEq

/-- The chain node built by the loop body of GenerateChainConfig for one
enabled member (lines 554-586). -/
def chainMemberNode (m : NodeMemberWithNode) : Obj :=
  let node := m.Node
  let nodeConfig : Obj :=
    [("name", Val.str ("node-" ++ toString node.ID)),
     ("addr", Val.str (node.Host ++ ":" ++ toString node.Port))]
  let connector : Obj := [("type", Val.str node.Protocol)]
  let connector :=
    if node.ProxyUser ≠ "" then
      setKey connector "auth"
        (Val.obj [("username", Val.str node.ProxyUser), ("password", Val.str node.ProxyPass)])
    else connector
  let nodeConfig := setKey nodeConfig "connector" (Val.obj connector)
  let dialer : Obj := [("type", Val.str (normalizeTransport node.Transport))]
  let dialer :=
    if node.TLSEnabled then setKey dialer "tls" (Val.obj (generateTLSConfig node)) else dialer
  let nodeConfig := setKey nodeConfig "dialer" (Val.obj dialer)
  let nodeConfig :=
    if m.Member.Weight > 0 then
      setKey nodeConfig "metadata" (Val.obj [("weight", Val.int m.Member.Weight)])
    else nodeConfig
  nodeConfig

/-- GenerateChainConfig: one hop holding the nodes of the enabled members. -/
def GenerateChainConfig (group : NodeGroup) (members : List NodeMemberWithNode) : Obj :=
  let nodes : List Val :=
    members.foldl
      (fun nodes m =>
        if !m.Member.Enabled then nodes else nodes ++ [Val.obj (chainMemberNode m)])
      []
  [("name", Val.str ("chain-" ++ toString group.ID)),
   ("hops", Val.list [Val.obj
      [("name", Val.str "hop-0"),
       ("nodes", Val.list nodes),
       ("selector", Val.obj
          [("strategy", Val.str group.Strategy),
           ("maxFails", Val.int group.MaxFails),
           ("failTimeout", Val.str (toString group.FailTimeout ++ "s"))])]])]

/-- The hop built by the loop body of GenerateProxyChainConfig for the hop at
index `i` with node `node` (lines 625-655). -/
def proxyChainHop (i : Nat) (node : Node) : Obj :=
  let nodeConfig : Obj :=
    [("name", Val.str ("node-" ++ toString node.ID)),
     ("addr", Val.str (node.Host ++ ":" ++ toString node.Port))]
  let connector : Obj := [("type", Val.str node.Protocol)]
  let connector :=
    if node.ProxyUser ≠ "" then
      setKey connector "auth"
        (Val.obj [("username", Val.str node.ProxyUser), ("password", Val.str node.ProxyPass)])
    else connector
  let nodeConfig := setKey nodeConfig "connector" (Val.obj connector)
  let dialer : Obj := [("type", Val.str node.Transport)]
  let dialer :=
    if node.TLSEnabled then setKey dialer "tls" (Val.obj (generateTLSConfig node)) else dialer
  let nodeConfig := setKey nodeConfig "dialer" (Val.obj dialer)
  [("name", Val.str ("hop-" ++ toString i)),
   ("nodes", Val.list [Val.obj nodeConfig])]

/-- The loop `for i, hop := range hops` of GenerateProxyChainConfig, from index
`i` on, with the hops collected so far. -/
def proxyChainLoop : Nat → List ProxyChainHop → List Val → List Val
  | _, [], hopConfigs => hopConfigs
  | i, hop :: rest, hopConfigs =>
    match hop.Node with
    | none => proxyChainLoop (i + 1) rest hopConfigs
    | some node =>
      if !hop.Enabled then proxyChainLoop (i + 1) rest hopConfigs
      else proxyChainLoop (i + 1) rest (hopConfigs ++ [Val.obj (proxyChainHop i node)])

/-- GenerateProxyChainConfig: one hop per enabled input hop that has a node. -/
def GenerateProxyChainConfig (chain : ProxyChain) (hops : List ProxyChainHop) : Obj :=
  let hopConfigs := proxyChainLoop 0 hops []
  [("name", Val.str ("tunnel-" ++ toString chain.ID)),
   ("hops", Val.list hopConfigs)]

/-! ## Node groups in the API layer (`internal/api/handlers.go`) -/

/-- The fields of `CreateNodeGroupRequest` that reach the stored fields read by
GenerateChainConfig. -/
structure CreateNodeGroupRequest where
  Strategy : String
  FailTimeout : Int
  MaxFails : Int
  deriving Repr, DecidableEq

/-- The group record createNodeGroup hands to the store (lines 2554-2590),
restricted to the fields above; `id` is the key the store assigns. -/
def createNodeGroup (id : Nat) (req : CreateNodeGroupRequest) : NodeGroup :=
  let strategy := req.Strategy
  let strategy := if strategy = "round_robin" then "round" else strategy
  let strategy := if strategy = "" then "round" else strategy
  let group : NodeGroup :=
    { ID := id, Strategy := strategy, FailTimeout := req.FailTimeout, MaxFails := req.MaxFails }
  let group := if group.FailTimeout = 0 then { group with FailTimeout := 30 } else group
  let group := if group.MaxFails = 0 then { group with MaxFails := 3 } else group
  group

/-- The member record addNodeGroupMember hands to the store (lines 2692-2702)
for a request weight. -/
def addNodeGroupMember (reqWeight : Int) : NodeGroupMember :=
  let member : NodeGroupMember := { Weight := reqWeight, Enabled := true }
  if member.Weight = 0 then { member with Weight := 1 } else member

/-! ## Text encodings (`net/url`, `encoding/base64`) -/

/-- The UTF-8 encoding of a character, as byte values. -/
def utf8Bytes (c : Char) : List Nat :=
  let n := c.toNat
  if n < 128 then [n]
  else if n < 2048 then [192 + n / 64, 128 + n % 64]
  else if n < 65536 then [224 + n / 4096, 128 + n / 64 % 64, 128 + n % 64]
  else [240 + n / 262144, 128 + n / 4096 % 64, 128 + n / 64 % 64, 128 + n % 64]

/-- The bytes of a Go string holding the given text. -/
def stringBytes (s : String) : List Nat := s.data.flatMap utf8Bytes

/-- Go's `len(s)`: the number of bytes of the string. -/
def byteLen (s : String) : Nat := (stringBytes s).length

/-- The upper-case hexadecimal digit of a value below 16. -/
def upperHex (d : Nat) : Char := "0123456789ABCDEF".data.getD d '0'

/-- The bytes `url.QueryEscape` leaves as they are: letters, digits and the marks
"-", "_", ".", "~". -/
def unreservedByte (b : Nat) : Bool :=
  (97 ≤ b && b ≤ 122) || (65 ≤ b && b ≤ 90) || (48 ≤ b && b ≤ 57) ||
    b = 45 || b = 95 || b = 46 || b = 126

/-- The text `url.QueryEscape` writes for one byte: the byte itself when it is
unreserved, "+" for a space, else "%" and two upper-case hexadecimal digits. -/
def escapeByte (b : Nat) : List Char :=
  if unreservedByte b then [Char.ofNat b]
  else if b = 32 then ['+']
  else ['%', upperHex (b / 16), upperHex (b % 16)]

/-- The function `url.QueryEscape`, byte by byte. -/
def queryEscape (s : String) : String :=
  String.mk ((stringBytes s).flatMap escapeByte)

/-- The alphabet of `base64.URLEncoding`. -/
def base64URLChar (d : Nat) : Char :=
  "ABCDEFGHIJKLMNOPQRSTUVWXYZabcdefghijklmnopqrstuvwxyz0123456789-_".data.getD d 'A'

/-- The padded base64 text of a byte sequence, three bytes at a time. -/
def base64Chars : List Nat → List Char
  | a :: b :: c :: rest =>
    base64URLChar (a / 4) :: base64URLChar (a % 4 * 16 + b / 16) ::
      base64URLChar (b % 16 * 4 + c / 64) :: base64URLChar (c % 64) :: base64Chars rest
  | [a, b] =>
    [base64URLChar (a / 4), base64URLChar (a % 4 * 16 + b / 16),
     base64URLChar (b % 16 * 4), '=']
  | [a] => [base64URLChar (a / 4), base64URLChar (a % 4 * 16), '=', '=']
  | [] => []

/-- The function `base64.URLEncoding.EncodeToString([]byte(s))`. -/
def base64URLEncode (s : String) : String := String.mk (base64Chars (stringBytes s))

/-! ## `uri.go` -/

/-- generateSocks5URI. -/
def generateSocks5URI (node : Node) : String :=
  let uri := "socks5://"
  let uri :=
    if node.ProxyUser ≠ "" ∧ node.ProxyPass ≠ "" then
      uri ++ (queryEscape node.ProxyUser ++ ":" ++ queryEscape node.ProxyPass ++ "@")
    else uri
  uri ++ (node.Host ++ ":" ++ toString node.Port)

/-- generateSocks4URI. -/
def generateSocks4URI (node : Node) : String :=
  "socks4://" ++ node.Host ++ ":" ++ toString node.Port

/-- generateHTTPURI. -/
def generateHTTPURI (node : Node) : String :=
  let uri := "http://"
  let uri :=
    if node.ProxyUser ≠ "" ∧ node.ProxyPass ≠ "" then
      uri ++ (queryEscape node.ProxyUser ++ ":" ++ queryEscape node.ProxyPass ++ "@")
    else uri
  uri ++ (node.Host ++ ":" ++ toString node.Port)

/-- generateShadowsocksURI. -/
def generateShadowsocksURI (node : Node) : String :=
  let method := node.SSMethod
  let method := if method = "" then "aes-256-gcm" else method
  let userinfo := method ++ ":" ++ node.SSPassword
  let encoded := base64URLEncode userinfo
  "ss://" ++ encoded ++ "@" ++ node.Host ++ ":" ++ toString node.Port ++ "#"
    ++ queryEscape node.Name

/-- GenerateProxyURI. -/
def GenerateProxyURI (node : Node) : String :=
  if node.Protocol = "socks5" then generateSocks5URI node
  else if node.Protocol = "socks4" then generateSocks4URI node
  else if node.Protocol = "http" then generateHTTPURI node
  else if node.Protocol = "ss" then generateShadowsocksURI node
  else generateSocks5URI node

/-! ## Password strength (`internal/model/model.go`) -/

/-- The four validation errors of `model.go`; a nil error is `none`. -/
inductive PasswordError where
  | PasswordTooShortError : PasswordError
  | PasswordTooWeakError : PasswordError
  | PasswordNeedsSpecialError : PasswordError
  | PasswordTooCommonError : PasswordError
  deriving Repr, DecidableEq

/-- The text `specialChars` of isSpecialChar. -/
def specialChars : List Char := "!@#$%^&*()_+-=[]\x7b\x7d|;\x27:\",./<>?\x60~".data

/-- isSpecialChar. -/
def isSpecialChar (c : Char) : Bool := specialChars.any (fun sc => c = sc)

/-- toLowerSimple: every byte from "A" to "Z" is replaced by its lower-case
letter. The bytes of a multi-byte character are all above "Z", so the byte loop
acts on the characters one by one. -/
def toLowerSimple (s : String) : String :=
  String.mk (s.data.map (fun c => if 'A' ≤ c ∧ c ≤ 'Z' then Char.ofNat (c.toNat + 32) else c))

/-- The list `commonPasswords` of isCommonPassword. -/
def commonPasswords : List String :=
  ["password", "12345678", "123456789", "1234567890",
   "qwerty123", "abc12345", "password1", "password123",
   "admin123", "admin1234", "letmein123", "welcome1",
   "monkey123", "dragon123", "master123", "qwertyui",
   "iloveyou1", "sunshine1", "princess1", "football1",
   "baseball1", "trustno1", "batman123", "shadow123"]

/-- isCommonPassword. -/
def isCommonPassword (password : String) : Bool :=
  let lowerPass := toLowerSimple password
  commonPasswords.any (fun cp => lowerPass = cp)

/-- The four flags of ValidatePasswordStrength. -/
structure CharFlags where
  hasUpper : Bool
  hasLower : Bool
  hasDigit : Bool
  hasSpecial : Bool
  deriving Repr, DecidableEq

/-- The `switch` of the loop `for _, c := range password`. -/
def flagChar (f : CharFlags) (c : Char) : CharFlags :=
  if 'A' ≤ c ∧ c ≤ 'Z' then { f with hasUpper := true }
  else if 'a' ≤ c ∧ c ≤ 'z' then { f with hasLower := true }
  else if '0' ≤ c ∧ c ≤ '9' then { f with hasDigit := true }
  else if isSpecialChar c then { f with hasSpecial := true }
  else f

/-- ValidatePasswordStrength: `none` is the nil error. -/
def ValidatePasswordStrength (password : String) : Option PasswordError :=
  if byteLen password < 8 then some PasswordError.PasswordTooShortError
  else if isCommonPassword password then some PasswordError.PasswordTooCommonError
  else
    let f := password.data.foldl flagChar
      { hasUpper := false, hasLower := false, hasDigit := false, hasSpecial := false }
    if !f.hasUpper || !f.hasLower || !f.hasDigit then
      some PasswordError.PasswordTooWeakError
    else if byteLen password < 12 && !f.hasSpecial then
      some PasswordError.PasswordNeedsSpecialError
    else none

/-! ## Sort order (`internal/service/service.go`) -/

/-- The fields of PaginationParams. -/
structure PaginationParams where
  Page : Int
  PageSize : Int
  Search : String
  SortBy : String
  SortDesc : Bool
  deriving Repr, DecidableEq

/-- The table allowedSortFields. -/
def allowedSortFields : List (String × List (String × Bool)) :=
  [("nodes",
     [("id", true), ("name", true), ("host", true), ("status", true),
      ("traffic_in", true), ("traffic_out", true), ("connections", true),
      ("created_at", true), ("updated_at", true), ("last_seen", true)]),
   ("clients",
     [("id", true), ("name", true), ("status", true),
      ("traffic_in", true), ("traffic_out", true),
      ("created_at", true), ("updated_at", true), ("last_seen", true)]),
   ("users",
     [("id", true), ("username", true), ("email", true), ("role", true),
      ("enabled", true), ("created_at", true), ("last_login_at", true),
      ("traffic_quota", true), ("quota_used", true), ("quota_exceeded", true)]),
   ("port_forwards",
     [("id", true), ("name", true), ("type", true), ("enabled", true),
      ("created_at", true), ("updated_at", true)]),
   ("node_groups",
     [("id", true), ("name", true), ("strategy", true),
      ("created_at", true), ("updated_at", true)])]

/-- validateSortField; a field missing from the inner map reads as false. -/
def validateSortField (table field : String) : Bool :=
  if field = "" then false
  else
    match allowedSortFields.lookup table with
    | none => false
    | some fields => (fields.lookup field).getD false

/-- getSafeOrderBy. -/
def getSafeOrderBy (table : String) (params : PaginationParams) (defaultOrder : String) :
    String :=
  if params.SortBy = "" ∨ !validateSortField table params.SortBy then defaultOrder
  else
    let order := "asc"
    let order := if params.SortDesc then "desc" else order
    params.SortBy ++ " " ++ order

/-! ## Tunnel ids in service names (`internal/api/handlers.go`, `fmt.Sscanf`) -/

/-- The function `isSpace` of package fmt, on the code point of a rune. -/
def isSpaceRune (c : Char) : Bool :=
  decide ((9 ≤ c.toNat ∧ c.toNat ≤ 13) ∨ c.toNat = 32 ∨ c.toNat = 133 ∨ c.toNat = 160 ∨
    c.toNat = 5760 ∨ (8192 ≤ c.toNat ∧ c.toNat ≤ 8202) ∨ c.toNat = 8232 ∨ c.toNat = 8233 ∨
    c.toNat = 8239 ∨ c.toNat = 8287 ∨ c.toNat = 12288)

/-- The method `SkipSpace` of a scan state for which a newline is no space (as in
`Sscanf`): spaces are dropped, a newline (code 10) is the error "unexpected
newline", here `none`. -/
def skipSpace : List Char → Option (List Char)
  | [] => some []
  | c :: rest =>
    if c.toNat = 10 then none
    else if isSpaceRune c then skipSpace rest
    else some (c :: rest)

/-- The runes accepted into the token of the verb `%d`: the decimal digits "0"
to "9" (codes 48 to 57), the digit string `getBase` returns for that verb. -/
def isNumberRune (c : Char) : Bool :=
  decide (48 ≤ c.toNat ∧ c.toNat ≤ 57)

/-- The longest run of number runes at the head of the input, and what follows. -/
def takeNumber : List Char → List Char × List Char
  | [] => ([], [])
  | c :: rest =>
    if isNumberRune c then ((c :: (takeNumber rest).1), (takeNumber rest).2)
    else ([], c :: rest)

/-- The value of a run of decimal digits. -/
def digitsValue (tok : List Char) : Nat :=
  tok.foldl (fun acc c => acc * 10 + (c.toNat - 48)) 0

/-- The scan of the verb `%d` into an `int` of 64 bits: spaces are skipped, a
sign "+" (code 43) or "-" (code 45) is accepted, then a non-empty run of decimal
digits, the token ending before the first rune that is no digit; the value must
be within the range of int64 for `strconv.ParseInt(tok, 10, 64)` to accept it.
`none` is a scan error: nothing is stored. -/
def scanInt (input : List Char) : Option Int :=
  match skipSpace input with
  | none => none
  | some [] => none
  | some (c :: rest) =>
    let body := if c.toNat = 43 ∨ c.toNat = 45 then rest else c :: rest
    let tok := (takeNumber body).1
    if tok = [] then none
    else
      let v : Int := if c.toNat = 45 then - (digitsValue tok : Int) else (digitsValue tok : Int)
      if v < -9223372036854775808 ∨ 9223372036854775808 ≤ v then none else some v

/-- The literal text of a format is matched rune by rune against the input:
what is left of the input, or `none` on a mismatch or at the end of the input. -/
def matchLiteral : List Char → List Char → Option (List Char)
  | [], input => some input
  | _ :: _, [] => none
  | f :: fs, c :: cs => if f = c then matchLiteral fs cs else none

/-- The call `fmt.Sscanf(input, format, &id)` for a format made of a literal
text, the verb `%d` and more literal text: `some id` when the call returns
n == 1, `none` when it returns n == 0 and leaves `id` as it was. The text after
`%d` is matched only after the integer is stored and counted: a mismatch there
sets the error, not n. -/
def sscanfInt (input format : String) : Option Int :=
  let literal := format.data.takeWhile (fun c => c.toNat ≠ 37)
  (matchLiteral literal input.data).bind scanInt

/-- parseTunnelID. -/
def parseTunnelID (serviceName : String) : Int :=
  match sscanfInt serviceName "tunnel-%d-tcp" with
  | some id => id
  | none =>
    match sscanfInt serviceName "tunnel-%d-udp" with
    | some id => id
    | none =>
      match sscanfInt serviceName "tunnel-%d" with
      | some id => id
      | none => 0

/-! ## Reading a generated document -/

/-- The string stored under the field `k` of a map value. -/
def Val.strField (v : Val) (k : String) : Option String :=
  match v.field k with
  | some (Val.str s) => some s
  | _ => none

/-- The listener type of a service entry. -/
def listenerType (service : Val) : Option String :=
  (service.field "listener").bind (fun l => l.strField "type")

/-- The chain name referenced by the handler of a service entry. -/
def handlerChain (service : Val) : Option String :=
  (service.field "handler").bind (fun h => h.strField "chain")

/-- The main service of a node document: the single entry of "services". -/
def mainService (doc : Obj) : Option Val :=
  match getKey doc "services" with
  | some (Val.list [s]) => some s
  | _ => none

/-- The name the handler of the main service references under `key`. -/
def handlerRef (doc : Obj) (key : String) : Option String :=
  (mainService doc).bind (fun s => (s.field "handler").bind (fun h => h.strField key))

/-- The name the main service itself references under `key`. -/
def serviceRef (doc : Obj) (key : String) : Option String :=
  (mainService doc).bind (fun s => s.strField key)

/-- The names of the blocks emitted under a top-level key of the document. -/
def blockNames (doc : Obj) (key : String) : List String :=
  match getKey doc key with
  | some v => v.elems.filterMap (fun b => b.strField "name")
  | none => []

/-- The name and the matchers of each block of a generated bypass or admission list. -/
def nameAndMatchers (blocks : Val) : List (Option Val × Option Val) :=
  blocks.elems.map (fun b => (b.field "name", b.field "matchers"))

/-- The handler of the main service once GenerateNodeConfigWithRules has made
its two assignments `handler["bypass"]` and `handler["hosts"]` (lines 41-46, 55-60). -/
def handlerWithRules (node : Node) (bypasses : List Bypass)
    (hostMappings : List HostMapping) : Obj :=
  let handler := generateHandler node
  let handler :=
    if bypasses.length > 0 then
      setKey handler "bypass" (Val.str ("bypass-" ++ toString node.ID))
    else handler
  if hostMappings.length > 0 then
    setKey handler "hosts" (Val.str ("hosts-" ++ toString node.ID))
  else handler

/-! ## Decoded payloads -/

/-- The matchers a payload contributes: those it decodes to, none when decoding fails. -/
def decodedMatchers (u : Unmarshal) (payload : String) : List String :=
  (u.strings payload).getD []

/-- The host entries a payload contributes. -/
def decodedHostEntries (u : Unmarshal) (payload : String) : List hostEntry :=
  (u.hostEntries payload).getD []

/-- The ingress rules a payload contributes. -/
def decodedIngressRules (u : Unmarshal) (payload : String) : List ingressRule :=
  (u.ingressRules payload).getD []

/-! ## Sample records -/

/-- A socks5 node with credentials, a speed limit and a DNS server. -/
def sampleNode : Node :=
  { ID := 7, Name := "exit", Host := "h", Port := 1080, APIPort := 18080,
    APIUser := "", APIPass := "", ProxyUser := "a", ProxyPass := "b",
    Protocol := "socks5", Transport := "tcp", TransportOpts := "",
    SSMethod := "", SSPassword := "", TrojanPassword := "", VMessUUID := "",
    VMessAlterID := 0, TLSEnabled := false, TLSCertFile := "", TLSKeyFile := "",
    TLSSNI := "", WSPath := "", WSHost := "", SpeedLimit := 1536,
    ConnRateLimit := 0, DNSServer := "" }

/-- A tunnel serving TCP and UDP on port 10000 through `sampleNode`. -/
def sampleTunnel : Tunnel :=
  { ID := 3, EntryPort := 10000, Protocol := "tcp+udp", ExitNode := some sampleNode,
    TargetAddr := "example.com:443", SpeedLimit := 1536 }

/-- A decoder for the sample payloads: it agrees with `encoding/json` on the
payloads listed here and reports every other text as malformed. -/
def sampleUnmarshal : Unmarshal :=
  { strings := fun s =>
      if s = "[]" then some []
      else if s = "[\"a\"]" then some ["a"]
      else if s = "[\"b\",\"a\"]" then some ["b", "a"]
      else none
    hostEntries := fun s =>
      if s = "[]" then some []
      else if s = "[\x7b\"hostname\":\"example.com\",\"ip\":\"1.2.3.4\"\x7d]" then
        some [{ Hostname := "example.com", IP := "1.2.3.4", Prefer := "" }]
      else none
    ingressRules := fun s =>
      if s = "[]" then some []
      else if s = "[\x7b\"hostname\":\"example.com\",\"endpoint\":\"10.0.0.1:80\"\x7d]" then
        some [{ Hostname := "example.com", Endpoint := "10.0.0.1:80" }]
      else none
    object := fun s =>
      if s = "\x7b\"kcp\":\x7b\"mtu\":1400\x7d\x7d" then
        some [("kcp", Val.obj [("mtu", Val.float 1400 0)])]
      else none }

/-- Two bypass records, one whitelist and one blacklist, sharing the matcher "a". -/
def sampleBypasses : List Bypass :=
  [{ Whitelist := true, Matchers := "[\"a\"]" },
   { Whitelist := false, Matchers := "[\"b\",\"a\"]" }]

/-- Two admission records, one blacklist and one whitelist. -/
def sampleAdmissions : List Admission :=
  [{ Whitelist := false, Matchers := "[\"b\",\"a\"]" },
   { Whitelist := true, Matchers := "[\"a\"]" }]

/-- The document of `sampleNode` with one bypass, one admission and one
host-mapping record, each holding the empty JSON array. -/
def emptyRulesDoc : Obj :=
  GenerateNodeConfigWithRules sampleUnmarshal sampleNode
    [{ Whitelist := false, Matchers := "[]" }]
    [{ Whitelist := false, Matchers := "[]" }]
    [{ Mappings := "[]" }] [[{ Rules := "[]" }]]

/-- A bypass record whose payload is not JSON, in whitelist mode. -/
def malformedBypass : Bypass := { Whitelist := true, Matchers := "not json" }

/-- An admission record whose payload is not JSON, in whitelist mode. -/
def malformedAdmission : Admission := { Whitelist := true, Matchers := "not json" }

/-- A blacklist admission record with the matcher "a". -/
def blacklistAdmission : Admission := { Whitelist := false, Matchers := "[\"a\"]" }

/-- A node whose speed limit, 2^53 + 37580963, is no `float64`: the conversion
rounds it to the next even integer. -/
def roundedLimitNode : Node := { sampleNode with SpeedLimit := 9007199292321955 }

/-- A blacklist bypass record with the matcher "a". -/
def blacklistBypass : Bypass := { Whitelist := false, Matchers := "[\"a\"]" }

/-- A whitelist bypass record with the matcher "a". -/
def whitelistBypass : Bypass := { Whitelist := true, Matchers := "[\"a\"]" }

/-- A host-mapping record whose payload is not JSON. -/
def malformedHostMapping : HostMapping := { Mappings := "not json" }

/-- A host-mapping record with one entry. -/
def sampleHostMapping : HostMapping :=
  { Mappings := "[\x7b\"hostname\":\"example.com\",\"ip\":\"1.2.3.4\"\x7d]" }

/-- A node as created from the panel template "socks4-basic". -/
def socks4Node : Node := { sampleNode with Protocol := "socks4", ProxyUser := "", ProxyPass := "" }

/-- A node as created from the panel template "auto-detect". -/
def autoNode : Node := { sampleNode with Protocol := "auto" }

/-- A node with a protocol value that no part of the panel knows. -/
def unknownProtocolNode : Node := { sampleNode with Protocol := "gopher", DNSServer := "1.1.1.1" }

/-- A shadowsocks node that also has a proxy username. -/
def ssNode : Node :=
  { sampleNode with Protocol := "ss", SSMethod := "aes-256-gcm", SSPassword := "secret" }

/-- An sshd node whose transport asks for TLS and WebSocket options. -/
def sshdNode : Node :=
  { sampleNode with Protocol := "sshd", Transport := "wss", TLSCertFile := "cert.pem",
                    WSPath := "/ws", TransportOpts := "\x7b\"kcp\":\x7b\"mtu\":1400\x7d\x7d" }

/-- The protocols whose listener type is fixed by the first `switch` of
generateListener. -/
def listenerProtocols : List String := ["sshd", "redirect", "tun"]

/-- The case labels of the `switch node.Transport` of generateListener. -/
def listenerTransports : List String :=
  ["tcp", "", "tcp+udp", "tls", "mtls", "ws", "wss", "h2", "h2c", "quic", "kcp", "grpc",
   "pht", "phts", "ssh", "sshd", "mws", "mwss", "http3", "dtls", "ohttp", "otls",
   "redirect", "tun"]

/-- The transports whose case calls generateTLSConfig. -/
def tlsTransports : List String :=
  ["tls", "mtls", "wss", "h2", "quic", "grpc", "phts", "mwss", "http3", "dtls"]

/-- A socks5 node whose transport is no case label of generateListener. -/
def bogusTransportNode : Node := { sampleNode with Transport := "bogus" }

/-- A socks5 node with an empty transport. -/
def emptyTransportNode : Node := { sampleNode with Transport := "" }

/-- A socks5 node over wss with a certificate and an SNI but no key file. -/
def wssNode : Node :=
  { sampleNode with Transport := "wss", TLSCertFile := "cert.pem", TLSSNI := "example.com",
                    WSPath := "/ws" }

/-- A socks5 node over kcp whose transport options override the MTU. -/
def kcpNode : Node :=
  { sampleNode with Transport := "kcp",
                    TransportOpts := "\x7b\"kcp\":\x7b\"mtu\":1400\x7d\x7d" }

/-- A socks5 node over kcp whose transport options are not JSON. -/
def kcpMalformedNode : Node :=
  { sampleNode with Transport := "kcp", TransportOpts := "not json" }

/-- A node with a connection rate limit and no speed limit. -/
def rateLimitedNode : Node := { sampleNode with SpeedLimit := 0, ConnRateLimit := 5 }

/-- The connector type of a chain node. -/
def connectorType (chainNode : Val) : Option String :=
  (chainNode.field "connector").bind (fun c => c.strField "type")

/-- The dialer type of a chain node. -/
def dialerType (chainNode : Val) : Option String :=
  (chainNode.field "dialer").bind (fun d => d.strField "type")

/-- The selector of the single hop of a group chain. -/
def chainSelector (chain : Obj) : Option Val :=
  match getKey chain "hops" with
  | some (Val.list [hop]) => hop.field "selector"
  | _ => none

/-- The strategy placed in the selector of a group chain. -/
def selectorStrategy (chain : Obj) : Option String :=
  (chainSelector chain).bind (fun sel => sel.strField "strategy")

/-- The nodes of the single hop of a group chain. -/
def chainNodes (chain : Obj) : List Val :=
  match getKey chain "hops" with
  | some (Val.list [hop]) =>
    match hop.field "nodes" with
    | some nodes => nodes.elems
    | none => []
  | _ => []

/-- A group stored with the strategy "round_robin". -/
def roundRobinGroup : NodeGroup :=
  { ID := 4, Strategy := "round_robin", FailTimeout := 30, MaxFails := 3 }

/-- An enabled member of weight 0 bound to `sampleNode`. -/
def zeroWeightMember : NodeMemberWithNode :=
  { Member := { Weight := 0, Enabled := true }, Node := sampleNode }

/-- An enabled member of weight 5 whose node has the composite transport. -/
def weightedMember : NodeMemberWithNode :=
  { Member := { Weight := 5, Enabled := true },
    Node := { sampleNode with ID := 8, Transport := "tcp+udp" } }

/-- A disabled member. -/
def disabledMember : NodeMemberWithNode :=
  { Member := { Weight := 2, Enabled := false }, Node := { sampleNode with ID := 9 } }

/-- A create request carrying the strategy alias of the front end. -/
def roundRobinRequest : CreateNodeGroupRequest :=
  { Strategy := "round_robin", FailTimeout := 0, MaxFails := 0 }

/-- The hop GenerateProxyChainConfig emits for the input hop at an index, if any:
the hop must be enabled and have a node. -/
def emitHop (p : Nat × ProxyChainHop) : Option Val :=
  if p.2.Enabled then p.2.Node.map (fun node => Val.obj (proxyChainHop p.1 node)) else none

/-- The hops listed in a proxy chain document. -/
def chainHops (chain : Obj) : List Val :=
  match getKey chain "hops" with
  | some hops => hops.elems
  | none => []

/-- A proxy chain. -/
def sampleChain : ProxyChain := { ID := 2 }

/-- An enabled hop whose node was not loaded. -/
def hopWithoutNode : ProxyChainHop := { Node := none, Enabled := true }

/-- An enabled hop through `sampleNode`. -/
def enabledHop : ProxyChainHop := { Node := some sampleNode, Enabled := true }

/-- A disabled hop through `sampleNode`. -/
def disabledHop : ProxyChainHop := { Node := some sampleNode, Enabled := false }

/-- The dialer types of the nodes listed in a hop. -/
def hopNodeDialers (hop : Val) : List (Option String) :=
  match hop.field "nodes" with
  | some nodes => nodes.elems.map dialerType
  | none => []

/-- A node with the composite transport. -/
def compositeNode : Node := { sampleNode with ID := 8, Transport := "tcp+udp" }

/-- An enabled hop through the node with the composite transport. -/
def compositeHop : ProxyChainHop := { Node := some compositeNode, Enabled := true }

/-- A tunnel without target address and without speed limit. -/
def plainTunnel : Tunnel :=
  { ID := 5, EntryPort := 10001, Protocol := "tcp", ExitNode := some sampleNode,
    TargetAddr := "", SpeedLimit := 0 }

/-- The socks5 node of the URI example: user "a", password "b", host "h", port 1. -/
def uriNode : Node := { sampleNode with Host := "h", Port := 1 }

/-- The same node without credentials. -/
def uriNodeNoCredentials : Node := { uriNode with ProxyUser := "", ProxyPass := "" }

/-- The same node with a username and an empty password. -/
def uriNodeNoPassword : Node := { uriNode with ProxyPass := "" }

/-- A shadowsocks node without method. -/
def ssUriNode : Node :=
  { sampleNode with Protocol := "ss", SSMethod := "", SSPassword := "pw", Name := "my node" }

/-- A shadowsocks node named "my node" whose password ends in a question mark. -/
def ssQuestionNode : Node := { ssUriNode with SSPassword := "ab?" }

/-- The protocol values GenerateProxyURI has a case for. -/
def uriProtocols : List String := ["socks5", "socks4", "http", "ss"]

/-- A request to sort the nodes by name, descending. -/
def sortByName : PaginationParams :=
  { Page := 1, PageSize := 10, Search := "", SortBy := "name", SortDesc := true }

/-- A request whose sort field is not a column of the whitelist. -/
def sortByInjection : PaginationParams :=
  { Page := 1, PageSize := 10, Search := "", SortBy := "name; drop table nodes",
    SortDesc := false }

/-- A decimal digit, by code point. -/
def isDecimal (c : Char) : Prop := 48 ≤ c.toNat ∧ c.toNat ≤ 57

/-- The tunnel ids that parseTunnelID reads from the service names of a document. -/
def parsedServiceIDs (doc : Option Obj) : List (Option Int) :=
  match doc with
  | none => []
  | some d =>
    match getKey d "services" with
    | some v => v.elems.map (fun s => (s.strField "name").map parseTunnelID)
    | none => []

/-- The names the main service and its handler reference under `key`. -/
def referencedNames (doc : Obj) (key : String) : List String :=
  (serviceRef doc key).toList ++ (handlerRef doc key).toList

/-- The protocols whose handler references the auther when a proxy username is set. -/
def autherProtocols : List String := ["http", "socks5", "", "sshd"]

/-! ## Maps -/

theorem getKey_setKey (m : Obj) (k k' : String) (v : Val) :
    getKey (setKey m k v) k' = if k = k' then some v else getKey m k' := by
  induction m with
  | nil => simp [setKey, getKey]
  | cons p rest ih =>
    obtain ⟨a, b⟩ := p
    by_cases h1 : a = k
    · subst h1
      by_cases h2 : a = k' <;> simp [setKey, getKey, h2]
    · by_cases h2 : a = k'
      · subst h2
        have h3 : ¬ k = a := fun h => h1 h.symm
        simp [setKey, getKey, h1, h3]
      · simp [setKey, getKey, h1, h2, ih]

theorem getKey_setKey_same (m : Obj) (k : String) (v : Val) :
    getKey (setKey m k v) k = some v := by
  simp [getKey_setKey]

theorem getKey_setKey_ne (m : Obj) (k k' : String) (v : Val) (h : k ≠ k') :
    getKey (setKey m k v) k' = getKey m k' := by
  simp [getKey_setKey, h]

theorem foldl_append_singleton {α β : Type} (f : α → β) (l : List α) (acc : List β) :
    l.foldl (fun s a => s ++ [f a]) acc = acc ++ l.map f := by
  induction l generalizing acc with
  | nil => simp
  | cons a rest ih => simp [ih]

/-! ## Tunnel entry and exit documents -/

theorem tunnelService_addr (t : Tunnel) (c p : String) :
    getKey (tunnelService t c p) "addr" = some (Val.str (":" ++ toString t.EntryPort)) := by
  unfold tunnelService
  split_ifs <;> simp [getKey_setKey, getKey]

theorem tunnelService_handler (t : Tunnel) (c p : String) :
    getKey (tunnelService t c p) "handler"
      = some (Val.obj [("type", Val.str p), ("chain", Val.str c)]) := by
  unfold tunnelService
  split_ifs <;> simp [getKey_setKey, getKey]

theorem tunnelService_listener (t : Tunnel) (c p : String) :
    getKey (tunnelService t c p) "listener" = some (Val.obj [("type", Val.str p)]) := by
  unfold tunnelService
  split_ifs <;> simp [getKey_setKey, getKey]

theorem tunnelService_name (t : Tunnel) (c p : String) :
    getKey (tunnelService t c p) "name"
      = some (Val.str ("tunnel-" ++ toString t.ID ++ "-" ++ p)) := by
  unfold tunnelService
  split_ifs <;> simp [getKey_setKey, getKey]

/-- The entry document of a tunnel with an exit node, key by key. -/
theorem entry_config_keys (t : Tunnel) (n : Node) (h : t.ExitNode = some n) :
    ∃ doc, GenerateTunnelEntryConfig t = some doc ∧
      getKey doc "services" = some (Val.list ((parseProtocols t.Protocol).map
        (fun p => Val.obj (tunnelService t ("tunnel-chain-" ++ toString t.ID) p)))) ∧
      getKey doc "chains" = some (Val.list [Val.obj (tunnelChain t n)]) ∧
      getKey doc "limiters" = (if t.SpeedLimit > 0 then some (tunnelLimiters t) else none) := by
  simp only [GenerateTunnelEntryConfig, h, foldl_append_singleton, List.nil_append]
  refine ⟨_, rfl, ?_, ?_, ?_⟩ <;> split_ifs <;> simp [getKey_setKey, getKey]

/-- C1: a tunnel without exit node gives nil from GenerateTunnelEntryConfig and from
GenerateTunnelExitConfig, and a tunnel with an exit node gives a non-nil document
from both. -/
theorem tunnel_configs_nil_iff_no_exit (u : Unmarshal) (t : Tunnel) :
    (t.ExitNode = none →
      GenerateTunnelEntryConfig t = none ∧ GenerateTunnelExitConfig u t = none) ∧
    (∀ n, t.ExitNode = some n →
      (∃ doc, GenerateTunnelEntryConfig t = some doc) ∧
      (∃ doc, GenerateTunnelExitConfig u t = some doc)) := by
  constructor
  · intro h
    simp [GenerateTunnelEntryConfig, GenerateTunnelExitConfig, h]
  · intro n h
    simp [GenerateTunnelEntryConfig, GenerateTunnelExitConfig, h]

theorem tunnel_configs_nil_iff_no_exit_witness :
    GenerateTunnelEntryConfig { sampleTunnel with ExitNode := none } = none ∧
    GenerateTunnelExitConfig sampleUnmarshal { sampleTunnel with ExitNode := none } = none ∧
    (∃ doc, GenerateTunnelEntryConfig sampleTunnel = some doc) ∧
    (∃ doc, GenerateTunnelExitConfig sampleUnmarshal sampleTunnel = some doc) :=
  have h0 := (tunnel_configs_nil_iff_no_exit sampleUnmarshal
    { sampleTunnel with ExitNode := none }).1 rfl
  have h1 := (tunnel_configs_nil_iff_no_exit sampleUnmarshal sampleTunnel).2 sampleNode rfl
  ⟨h0.1, h0.2, h1.1, h1.2⟩

/-- C2: for a tunnel with an exit node the services of the entry document follow
the protocol selector: "tcp+udp" and "udp+tcp" give two services with listener
types "tcp" and "udp", "udp" gives one "udp" service, "tcp" and the empty
selector give one "tcp" service; every service has the addr ":EntryPort" and its
handler references the name of the single chain of the document. -/
theorem tunnel_entry_services_by_protocol (t : Tunnel) (n : Node)
    (h : t.ExitNode = some n) :
    ∃ doc services chain,
      GenerateTunnelEntryConfig t = some doc ∧
      getKey doc "services" = some (Val.list services) ∧
      getKey doc "chains" = some (Val.list [chain]) ∧
      ((t.Protocol = "tcp+udp" ∨ t.Protocol = "udp+tcp") →
        services.map listenerType = [some "tcp", some "udp"]) ∧
      (t.Protocol = "udp" → services.map listenerType = [some "udp"]) ∧
      ((t.Protocol = "tcp" ∨ t.Protocol = "") →
        services.map listenerType = [some "tcp"]) ∧
      (∀ s ∈ services,
        s.strField "addr" = some (":" ++ toString t.EntryPort) ∧
        ∃ name, handlerChain s = some name ∧ chain.strField "name" = some name) := by
  obtain ⟨doc, hdoc, hsvc, hch, _⟩ := entry_config_keys t n h
  refine ⟨doc, _, Val.obj (tunnelChain t n), hdoc, hsvc, hch, ?_, ?_, ?_, ?_⟩
  · intro hp
    rcases hp with hp | hp <;>
      simp [parseProtocols, hp, listenerType, Val.field, Val.strField,
        tunnelService_listener, getKey]
  · intro hp
    simp [parseProtocols, hp, listenerType, Val.field, Val.strField,
      tunnelService_listener, getKey]
  · intro hp
    rcases hp with hp | hp <;>
      simp [parseProtocols, hp, listenerType, Val.field, Val.strField,
        tunnelService_listener, getKey]
  · intro s hs
    obtain ⟨p, _, rfl⟩ := List.mem_map.mp hs
    refine ⟨?_, "tunnel-chain-" ++ toString t.ID, ?_, ?_⟩
    · simp [Val.strField, Val.field, tunnelService_addr]
    · simp [handlerChain, Val.strField, Val.field, tunnelService_handler, getKey]
    · simp [Val.strField, Val.field, tunnelChain, getKey]

theorem tunnel_entry_services_by_protocol_witness :
    ∃ doc services chain,
      GenerateTunnelEntryConfig sampleTunnel = some doc ∧
      getKey doc "services" = some (Val.list services) ∧
      getKey doc "chains" = some (Val.list [chain]) ∧
      ((sampleTunnel.Protocol = "tcp+udp" ∨ sampleTunnel.Protocol = "udp+tcp") →
        services.map listenerType = [some "tcp", some "udp"]) ∧
      (sampleTunnel.Protocol = "udp" → services.map listenerType = [some "udp"]) ∧
      ((sampleTunnel.Protocol = "tcp" ∨ sampleTunnel.Protocol = "") →
        services.map listenerType = [some "tcp"]) ∧
      (∀ s ∈ services,
        s.strField "addr" = some (":" ++ toString sampleTunnel.EntryPort) ∧
        ∃ name, handlerChain s = some name ∧ chain.strField "name" = some name) :=
  tunnel_entry_services_by_protocol sampleTunnel sampleNode rfl

/-! ## Speed-limit text -/

theorem float64OfNat_exact (m : Nat) (h : m < 2 ^ 53) : float64OfNat m = m := by
  have hs : float64Shift 64 m = 0 := by
    rw [float64Shift]
    exact if_pos h
  simp [float64OfNat, hs, Nat.mod_one]

theorem round_half_even_nearest (x d : Nat) (hd : 0 < d) :
    2 * ((if 2 * (x % d) > d ∨ (2 * (x % d) = d ∧ x / d % 2 = 1) then x / d + 1 else x / d) * d)
        ≤ 2 * x + d ∧
    2 * x ≤
      2 * ((if 2 * (x % d) > d ∨ (2 * (x % d) = d ∧ x / d % 2 = 1) then x / d + 1 else x / d) * d)
        + d := by
  have hdiv := Nat.div_add_mod x d
  have hlt := Nat.mod_lt x hd
  generalize x / d = q at *
  generalize x % d = r at *
  have e1 : (q + 1) * d = d * q + d := by ring
  have e2 : q * d = d * q := by ring
  split_ifs with hc
  · rw [e1]
    rcases hc with hc | ⟨hc, _⟩ <;> omega
  · rw [e2]
    have : ¬ 2 * r > d := fun h => hc (Or.inl h)
    omega

/-- The hundredths printed for `m / 2 ^ k` are within half a hundredth of it. -/
theorem hundredths_nearest (m k : Nat) :
    2 * (hundredths m k * 2 ^ k) ≤ 2 * (m * 100) + 2 ^ k ∧
    2 * (m * 100) ≤ 2 * (hundredths m k * 2 ^ k) + 2 ^ k :=
  round_half_even_nearest (m * 100) (2 ^ k) (Nat.pos_pow_of_pos k (by decide))

/-- C3, as stated, fails: for the speed limit 9007199292321955, above 2^53, the
limiter value is "$ 8388608.04GB", while n/1073741824 lies between 8388608.03 and
8388608.035 and has the two-decimal text "8388608.03": the code divides
float64(n), which is 9007199292321956. -/
theorem rounded_limit_text :
    float64OfNat 9007199292321955 = 9007199292321956 ∧
    formatLimit 9007199292321955 = "8388608.04GB" ∧
    sprintf2f 9007199292321955 30 = "8388608.03" ∧
    838860803 * 2 ^ 30 ≤ 9007199292321955 * 100 ∧
    2 * (9007199292321955 * 100) < (2 * 838860803 + 1) * 2 ^ 30 ∧
    generateLimiters roundedLimitNode = Val.list [Val.obj
      [("name", Val.str "speed-limiter"),
       ("limits", Val.list [Val.str "$ 8388608.04GB"])]] := by
  have h : formatLimit 9007199292321955 = "8388608.04GB" := by decide
  refine ⟨by decide, h, by decide, by decide, by decide, ?_⟩
  simp only [generateLimiters, roundedLimitNode, strList, List.map, h]
  rfl

/-- C3, amended: for a positive speed limit n the limiter value of the tunnel
entry document and of generateLimiters is "$ " followed by the limit text, which
is the decimal n and "B" below 1024, the quotient n/1024 with two decimals and
"KB" from 1024 to below 1048576, n/1048576 with two decimals and "MB" from 1048576
to below 1073741824, and n/1073741824 with two decimals and "GB" from 1073741824
to below 2^53; from 2^53 on the "GB" text is the two-decimal text of
float64(n)/1073741824, float64(n) being n rounded to 53 significant bits. The
two-decimal text is the nearest hundredth of the exact quotient. The four boundary
values are as listed. -/
theorem speed_limit_text :
    (∀ n : Nat, 0 < n → n < 2 ^ 63 →
      (∀ t e, t.SpeedLimit = (n : Int) → t.ExitNode = some e →
        ∃ doc, GenerateTunnelEntryConfig t = some doc ∧
          getKey doc "limiters" = some (Val.list [Val.obj
            [("name", Val.str "tunnel-limiter"),
             ("limits", Val.list [Val.str ("$ " ++ formatLimit n)])]])) ∧
      (∀ node : Node, node.SpeedLimit = (n : Int) →
        generateLimiters node = Val.list [Val.obj
          [("name", Val.str "speed-limiter"),
           ("limits", Val.list [Val.str ("$ " ++ formatLimit n)])]]) ∧
      (n < 1024 → formatLimit n = toString n ++ "B") ∧
      (1024 ≤ n → n < 1048576 → formatLimit n = sprintf2f n 10 ++ "KB") ∧
      (1048576 ≤ n → n < 1073741824 → formatLimit n = sprintf2f n 20 ++ "MB") ∧
      (1073741824 ≤ n →
        formatLimit n = sprintf2f (float64OfNat n) 30 ++ "GB" ∧
        (n < 2 ^ 53 → formatLimit n = sprintf2f n 30 ++ "GB"))) ∧
    formatLimit 1023 = "1023B" ∧ formatLimit 1024 = "1.00KB" ∧
    formatLimit 1048576 = "1.00MB" ∧ formatLimit 1073741824 = "1.00GB" ∧
    (∀ m k : Nat,
      2 * (hundredths m k * 2 ^ k) ≤ 2 * (m * 100) + 2 ^ k ∧
      2 * (m * 100) ≤ 2 * (hundredths m k * 2 ^ k) + 2 ^ k) := by
  refine ⟨?_, by decide, by decide, by decide, by decide, hundredths_nearest⟩
  intro n hpos _
  refine ⟨?_, ?_, ?_, ?_, ?_, ?_⟩
  · intro t e ht he
    obtain ⟨doc, hdoc, _, _, hlim⟩ := entry_config_keys t e he
    have hp : t.SpeedLimit > 0 := by omega
    refine ⟨doc, hdoc, ?_⟩
    rw [hlim, if_pos hp]
    simp only [tunnelLimiters, strList, List.map, ht]
  · intro node hn
    have hp : ¬ (n : Int) ≤ 0 := by omega
    simp only [generateLimiters, hn, hp, if_false, strList, List.map]
  · intro h
    have h1 : ¬ ((n : Int) ≥ 1024 * 1024 * 1024) := by omega
    have h2 : ¬ ((n : Int) ≥ 1024 * 1024) := by omega
    have h3 : ¬ ((n : Int) ≥ 1024) := by omega
    simp only [formatLimit, h1, h2, h3, if_false]
    rfl
  · intro hlo hhi
    have h1 : ¬ ((n : Int) ≥ 1024 * 1024 * 1024) := by omega
    have h2 : ¬ ((n : Int) ≥ 1024 * 1024) := by omega
    have h3 : (n : Int) ≥ 1024 := by omega
    have hx : float64OfNat n = n := float64OfNat_exact n (by norm_num; omega)
    simp only [formatLimit, h1, h2, h3, if_false, if_true, Int.toNat_ofNat, hx]
  · intro hlo hhi
    have h1 : ¬ ((n : Int) ≥ 1024 * 1024 * 1024) := by omega
    have h2 : (n : Int) ≥ 1024 * 1024 := by omega
    have hx : float64OfNat n = n := float64OfNat_exact n (by norm_num; omega)
    simp only [formatLimit, h1, h2, if_false, if_true, Int.toNat_ofNat, hx]
  · intro hlo
    have h1 : (n : Int) ≥ 1024 * 1024 * 1024 := by omega
    refine ⟨?_, fun h => ?_⟩
    · simp only [formatLimit, h1, if_true, Int.toNat_ofNat]
    · simp only [formatLimit, h1, if_true, Int.toNat_ofNat, float64OfNat_exact n h]

theorem speed_limit_text_witness :
    generateLimiters sampleNode = Val.list [Val.obj
      [("name", Val.str "speed-limiter"),
       ("limits", Val.list [Val.str "$ 1.50KB"])]] :=
  (speed_limit_text.1 1536 (by decide) (by decide)).2.1 sampleNode rfl

/-! ## Rule blocks -/

theorem mergeMatchers_foldl (u : Unmarshal) (records : List (Bool × String))
    (acc : List String × Bool) :
    records.foldl
      (fun acc r =>
        let whitelist := if r.1 then true else acc.2
        match u.strings r.2 with
        | some matchers => (acc.1 ++ matchers, whitelist)
        | none => (acc.1, whitelist))
      acc
    = (acc.1 ++ records.flatMap (fun r => decodedMatchers u r.2),
       acc.2 || records.any (fun r => r.1)) := by
  induction records generalizing acc with
  | nil => simp
  | cons r rest ih =>
    simp only [List.foldl_cons, ih, List.flatMap_cons, List.any_cons, decodedMatchers]
    cases h : u.strings r.2 <;> cases hr : r.1 <;> simp

theorem mergeMatchers_eq (u : Unmarshal) (records : List (Bool × String)) :
    mergeMatchers u records
      = (records.flatMap (fun r => decodedMatchers u r.2), records.any (fun r => r.1)) := by
  exact (mergeMatchers_foldl u records ([], false)).trans (by simp)

theorem hostMappings_foldl (u : Unmarshal) (hostMappings : List HostMapping) (acc : List Val) :
    hostMappings.foldl
      (fun acc hm =>
        match u.hostEntries hm.Mappings with
        | some entries => entries.foldl (fun acc e => acc ++ [hostMappingOf e]) acc
        | none => acc)
      acc
    = acc ++ hostMappings.flatMap
        (fun hm => (decodedHostEntries u hm.Mappings).map hostMappingOf) := by
  induction hostMappings generalizing acc with
  | nil => simp
  | cons hm rest ih =>
    simp only [List.foldl_cons, ih, List.flatMap_cons, decodedHostEntries]
    cases h : u.hostEntries hm.Mappings <;> simp [foldl_append_singleton]

theorem ingressRules_foldl (u : Unmarshal) (ingresses : List Ingress) (acc : List Val) :
    ingresses.foldl
      (fun acc ing =>
        match u.ingressRules ing.Rules with
        | some rules => rules.foldl (fun acc r => acc ++ [ingressRuleOf r]) acc
        | none => acc)
      acc
    = acc ++ ingresses.flatMap
        (fun ing => (decodedIngressRules u ing.Rules).map ingressRuleOf) := by
  induction ingresses generalizing acc with
  | nil => simp
  | cons ing rest ih =>
    simp only [List.foldl_cons, ih, List.flatMap_cons, decodedIngressRules]
    cases h : u.ingressRules ing.Rules <;> simp [foldl_append_singleton]

theorem flatMap_map_eq {α β γ : Type} (f : α → β) (g : β → List γ) (l : List α) :
    (l.map f).flatMap g = l.flatMap (fun a => g (f a)) := by
  induction l with
  | nil => rfl
  | cons a rest ih => simp [ih]

theorem any_map_eq {α β : Type} (f : α → β) (g : β → Bool) (l : List α) :
    (l.map f).any g = l.any (fun a => g (f a)) := by
  induction l with
  | nil => rfl
  | cons a rest ih => simp [ih]

theorem map_flatMap_eq {α β γ : Type} (f : α → List β) (g : β → γ) (l : List α) :
    l.flatMap (fun a => (f a).map g) = (l.flatMap f).map g := by
  induction l with
  | nil => rfl
  | cons a rest ih => simp [ih]

/-- The result of generateBypassConfigs in closed form. -/
theorem generateBypassConfigs_eq (u : Unmarshal) (nodeID : Nat) (bypasses : List Bypass) :
    generateBypassConfigs u nodeID bypasses =
      if bypasses.flatMap (fun b => decodedMatchers u b.Matchers) = [] then Val.null
      else Val.list [Val.obj
        [("name", Val.str ("bypass-" ++ toString nodeID)),
         ("whitelist", Val.bool (bypasses.any (fun b => b.Whitelist))),
         ("matchers", strList (bypasses.flatMap (fun b => decodedMatchers u b.Matchers)))]] := by
  simp only [generateBypassConfigs, mergeMatchers_eq, flatMap_map_eq, any_map_eq,
    List.length_eq_zero]

/-- The result of generateAdmissionConfigs in closed form. -/
theorem generateAdmissionConfigs_eq (u : Unmarshal) (nodeID : Nat)
    (admissions : List Admission) :
    generateAdmissionConfigs u nodeID admissions =
      if admissions.flatMap (fun a => decodedMatchers u a.Matchers) = [] then Val.null
      else Val.list [Val.obj
        [("name", Val.str ("admission-" ++ toString nodeID)),
         ("whitelist", Val.bool (admissions.any (fun a => a.Whitelist))),
         ("matchers", strList (admissions.flatMap (fun a => decodedMatchers u a.Matchers)))]] := by
  simp only [generateAdmissionConfigs, mergeMatchers_eq, flatMap_map_eq, any_map_eq,
    List.length_eq_zero]

/-- The result of generateHostsConfigs in closed form. -/
theorem generateHostsConfigs_eq (u : Unmarshal) (nodeID : Nat)
    (hostMappings : List HostMapping) :
    generateHostsConfigs u nodeID hostMappings =
      if hostMappings.flatMap (fun hm => decodedHostEntries u hm.Mappings) = [] then Val.null
      else Val.list [Val.obj
        [("name", Val.str ("hosts-" ++ toString nodeID)),
         ("mappings", Val.list ((hostMappings.flatMap
            (fun hm => decodedHostEntries u hm.Mappings)).map hostMappingOf))]] := by
  simp only [generateHostsConfigs, hostMappings_foldl, List.nil_append, List.length_eq_zero,
    map_flatMap_eq, List.map_eq_nil_iff]

/-- The result of generateIngressConfigs in closed form. -/
theorem generateIngressConfigs_eq (u : Unmarshal) (nodeID : Nat) (ingresses : List Ingress) :
    generateIngressConfigs u nodeID ingresses =
      if ingresses.flatMap (fun ing => decodedIngressRules u ing.Rules) = [] then Val.null
      else Val.list [Val.obj
        [("name", Val.str ("ingress-" ++ toString nodeID)),
         ("rules", Val.list ((ingresses.flatMap
            (fun ing => decodedIngressRules u ing.Rules)).map ingressRuleOf))]] := by
  simp only [generateIngressConfigs, ingressRules_foldl, List.nil_append, List.length_eq_zero,
    map_flatMap_eq, List.map_eq_nil_iff]

/-- C4, as stated, fails: of the two bypass (admission) records the only one
that contributes a matcher is a blacklist record, the whitelist record carries a
payload that does not decode, and the merged block has whitelist=true. -/
theorem whitelist_from_undecodable_record :
    (∀ b ∈ [malformedBypass, blacklistBypass],
      decodedMatchers sampleUnmarshal b.Matchers ≠ [] → b.Whitelist = false) ∧
    [malformedBypass, blacklistBypass].flatMap
      (fun b => decodedMatchers sampleUnmarshal b.Matchers) = ["a"] ∧
    generateBypassConfigs sampleUnmarshal 7 [malformedBypass, blacklistBypass]
      = Val.list [Val.obj [("name", Val.str "bypass-7"), ("whitelist", Val.bool true),
          ("matchers", Val.list [Val.str "a"])]] ∧
    (∀ a ∈ [blacklistAdmission, malformedAdmission],
      decodedMatchers sampleUnmarshal a.Matchers ≠ [] → a.Whitelist = false) ∧
    [blacklistAdmission, malformedAdmission].flatMap
      (fun a => decodedMatchers sampleUnmarshal a.Matchers) = ["a"] ∧
    generateAdmissionConfigs sampleUnmarshal 7 [blacklistAdmission, malformedAdmission]
      = Val.list [Val.obj [("name", Val.str "admission-7"), ("whitelist", Val.bool true),
          ("matchers", Val.list [Val.str "a"])]] := by
  refine ⟨by decide, by decide, rfl, by decide, by decide, rfl⟩

/-- C4, amended: when the decoded matcher lists of the bypass (admission) records
are not all empty, generateBypassConfigs (generateAdmissionConfigs) returns a
single block; its whitelist flag is true exactly when some record of the list has
whitelist=true, whether or not the payload of that record decodes or holds a
matcher, and its matchers are the decoded matcher lists of the records
concatenated in record order, duplicates kept. -/
theorem merged_rule_block (u : Unmarshal) (nodeID : Nat) (bypasses : List Bypass)
    (admissions : List Admission) :
    (bypasses.flatMap (fun b => decodedMatchers u b.Matchers) ≠ [] →
      ∃ w, generateBypassConfigs u nodeID bypasses = Val.list [Val.obj
          [("name", Val.str ("bypass-" ++ toString nodeID)),
           ("whitelist", Val.bool w),
           ("matchers", strList (bypasses.flatMap (fun b => decodedMatchers u b.Matchers)))]] ∧
        (w = true ↔ ∃ b ∈ bypasses, b.Whitelist = true)) ∧
    (admissions.flatMap (fun a => decodedMatchers u a.Matchers) ≠ [] →
      ∃ w, generateAdmissionConfigs u nodeID admissions = Val.list [Val.obj
          [("name", Val.str ("admission-" ++ toString nodeID)),
           ("whitelist", Val.bool w),
           ("matchers",
              strList (admissions.flatMap (fun a => decodedMatchers u a.Matchers)))]] ∧
        (w = true ↔ ∃ a ∈ admissions, a.Whitelist = true)) := by
  constructor
  · intro h
    refine ⟨bypasses.any (fun b => b.Whitelist), ?_, ?_⟩
    · rw [generateBypassConfigs_eq, if_neg h]
    · simp [List.any_eq_true]
  · intro h
    refine ⟨admissions.any (fun a => a.Whitelist), ?_, ?_⟩
    · rw [generateAdmissionConfigs_eq, if_neg h]
    · simp [List.any_eq_true]

theorem merged_rule_block_witness :
    generateBypassConfigs sampleUnmarshal 7 sampleBypasses = Val.list [Val.obj
      [("name", Val.str "bypass-7"), ("whitelist", Val.bool true),
       ("matchers", strList ["a", "b", "a"])]] ∧
    generateAdmissionConfigs sampleUnmarshal 7 sampleAdmissions = Val.list [Val.obj
      [("name", Val.str "admission-7"), ("whitelist", Val.bool true),
       ("matchers", strList ["b", "a", "a"])]] := by
  obtain ⟨hb, ha⟩ := merged_rule_block sampleUnmarshal 7 sampleBypasses sampleAdmissions
  obtain ⟨w, h, hw⟩ := hb (by decide)
  obtain ⟨w', h', hw'⟩ := ha (by decide)
  have e : w = true := hw.mpr ⟨⟨true, "[\"a\"]"⟩, by simp [sampleBypasses], rfl⟩
  have e' : w' = true := hw'.mpr ⟨⟨true, "[\"a\"]"⟩, by simp [sampleAdmissions], rfl⟩
  subst e
  subst e'
  exact ⟨h, h'⟩

/-! ## Node documents -/

theorem getKey_ite (c : Prop) [Decidable c] (a b : Obj) (k : String) :
    getKey (if c then a else b) k = if c then getKey a k else getKey b k := by
  split_ifs <;> rfl

theorem node_config_services (u : Unmarshal) (node : Node) (bypasses : List Bypass)
    (admissions : List Admission) (hostMappings : List HostMapping)
    (ingresses : List (List Ingress)) :
    getKey (GenerateNodeConfigWithRules u node bypasses admissions hostMappings ingresses)
        "services"
      = some (Val.list
          [Val.obj (mainServiceWithRules u node bypasses admissions hostMappings)]) := by
  rcases ingresses with _ | ⟨first, rest⟩ <;>
    simp [GenerateNodeConfigWithRules, getKey_ite, getKey_setKey, getKey]

theorem node_config_bypasses (u : Unmarshal) (node : Node) (bypasses : List Bypass)
    (admissions : List Admission) (hostMappings : List HostMapping)
    (ingresses : List (List Ingress)) :
    getKey (GenerateNodeConfigWithRules u node bypasses admissions hostMappings ingresses)
        "bypasses"
      = if bypasses.length > 0 then some (generateBypassConfigs u node.ID bypasses)
        else none := by
  rcases ingresses with _ | ⟨first, rest⟩ <;>
    simp [GenerateNodeConfigWithRules, getKey_ite, getKey_setKey, getKey]

theorem node_config_admissions (u : Unmarshal) (node : Node) (bypasses : List Bypass)
    (admissions : List Admission) (hostMappings : List HostMapping)
    (ingresses : List (List Ingress)) :
    getKey (GenerateNodeConfigWithRules u node bypasses admissions hostMappings ingresses)
        "admissions"
      = if admissions.length > 0 then some (generateAdmissionConfigs u node.ID admissions)
        else none := by
  rcases ingresses with _ | ⟨first, rest⟩ <;>
    simp [GenerateNodeConfigWithRules, getKey_ite, getKey_setKey, getKey]

theorem node_config_hosts (u : Unmarshal) (node : Node) (bypasses : List Bypass)
    (admissions : List Admission) (hostMappings : List HostMapping)
    (ingresses : List (List Ingress)) :
    getKey (GenerateNodeConfigWithRules u node bypasses admissions hostMappings ingresses)
        "hosts"
      = if hostMappings.length > 0 then some (generateHostsConfigs u node.ID hostMappings)
        else none := by
  rcases ingresses with _ | ⟨first, rest⟩ <;>
    simp [GenerateNodeConfigWithRules, getKey_ite, getKey_setKey, getKey]

theorem node_config_ingresses (u : Unmarshal) (node : Node) (bypasses : List Bypass)
    (admissions : List Admission) (hostMappings : List HostMapping)
    (first : List Ingress) (rest : List (List Ingress)) :
    getKey (GenerateNodeConfigWithRules u node bypasses admissions hostMappings
        (first :: rest)) "ingresses"
      = if first.length > 0 then some (generateIngressConfigs u node.ID first)
        else none := by
  simp [GenerateNodeConfigWithRules, getKey_ite, getKey_setKey, getKey]

theorem generateMainService_handler (u : Unmarshal) (node : Node) :
    getKey (generateMainService u node) "handler" = some (Val.obj (generateHandler node)) := by
  unfold generateMainService
  split_ifs <;> simp [getKey_setKey, getKey]

theorem setHandlerRef_handler (service handler : Obj) (key name : String)
    (h : getKey service "handler" = some (Val.obj handler)) :
    getKey (setHandlerRef service key name) "handler"
      = some (Val.obj (setKey handler key (Val.str name))) := by
  simp [setHandlerRef, h, getKey_setKey]

theorem mainServiceWithRules_handler (u : Unmarshal) (node : Node) (bypasses : List Bypass)
    (admissions : List Admission) (hostMappings : List HostMapping) :
    getKey (mainServiceWithRules u node bypasses admissions hostMappings) "handler"
      = some (Val.obj (handlerWithRules node bypasses hostMappings)) := by
  have h0 := generateMainService_handler u node
  unfold mainServiceWithRules handlerWithRules
  split_ifs <;>
    simp [getKey_setKey, h0, setHandlerRef_handler]

theorem mainServiceWithRules_admission (u : Unmarshal) (node : Node) (bypasses : List Bypass)
    (admissions : List Admission) (hostMappings : List HostMapping)
    (h : admissions.length > 0) :
    getKey (mainServiceWithRules u node bypasses admissions hostMappings) "admission"
      = some (Val.str ("admission-" ++ toString node.ID)) := by
  have h0 := generateMainService_handler u node
  unfold mainServiceWithRules
  simp only [h, if_true]
  split_ifs <;> simp [setHandlerRef, getKey_setKey, h0]

/-- C5: whenever the bypass (admission, host-mapping) list is not empty but its
merged result is, the main service of the document of GenerateNodeConfigWithRules
references the block name while the document emits no block under "bypasses"
("admissions", "hosts"); so it is for `sampleNode` with one record of each kind
holding the empty JSON array. -/
theorem rule_references_without_block :
    (handlerRef emptyRulesDoc "bypass" = some "bypass-7" ∧
      blockNames emptyRulesDoc "bypasses" = [] ∧
      serviceRef emptyRulesDoc "admission" = some "admission-7" ∧
      blockNames emptyRulesDoc "admissions" = [] ∧
      handlerRef emptyRulesDoc "hosts" = some "hosts-7" ∧
      blockNames emptyRulesDoc "hosts" = []) ∧
    (∀ (u : Unmarshal) (node : Node) (bypasses : List Bypass) (admissions : List Admission)
        (hostMappings : List HostMapping) (ingresses : List (List Ingress)),
      (bypasses ≠ [] → bypasses.flatMap (fun b => decodedMatchers u b.Matchers) = [] →
        handlerRef
            (GenerateNodeConfigWithRules u node bypasses admissions hostMappings ingresses)
            "bypass" = some ("bypass-" ++ toString node.ID) ∧
        blockNames
            (GenerateNodeConfigWithRules u node bypasses admissions hostMappings ingresses)
            "bypasses" = []) ∧
      (admissions ≠ [] → admissions.flatMap (fun a => decodedMatchers u a.Matchers) = [] →
        serviceRef
            (GenerateNodeConfigWithRules u node bypasses admissions hostMappings ingresses)
            "admission" = some ("admission-" ++ toString node.ID) ∧
        blockNames
            (GenerateNodeConfigWithRules u node bypasses admissions hostMappings ingresses)
            "admissions" = []) ∧
      (hostMappings ≠ [] →
        hostMappings.flatMap (fun hm => decodedHostEntries u hm.Mappings) = [] →
        handlerRef
            (GenerateNodeConfigWithRules u node bypasses admissions hostMappings ingresses)
            "hosts" = some ("hosts-" ++ toString node.ID) ∧
        blockNames
            (GenerateNodeConfigWithRules u node bypasses admissions hostMappings ingresses)
            "hosts" = [])) := by
  refine ⟨by decide, ?_⟩
  intro u node bypasses admissions hostMappings ingresses
  have hs := node_config_services u node bypasses admissions hostMappings ingresses
  have hh := mainServiceWithRules_handler u node bypasses admissions hostMappings
  refine ⟨?_, ?_, ?_⟩
  · intro hne hm
    have hl : bypasses.length > 0 := List.length_pos.mpr hne
    constructor
    · simp only [handlerRef, mainService, hs, Option.bind, Val.field, hh, Val.strField,
        handlerWithRules, hl, if_true]
      split_ifs <;> simp [getKey_setKey]
    · simp [blockNames, node_config_bypasses, hl, generateBypassConfigs_eq, hm, Val.elems]
  · intro hne hm
    have hl : admissions.length > 0 := List.length_pos.mpr hne
    constructor
    · simp [serviceRef, mainService, hs, Val.strField, Val.field,
        mainServiceWithRules_admission u node bypasses admissions hostMappings hl]
    · simp [blockNames, node_config_admissions, hl, generateAdmissionConfigs_eq, hm, Val.elems]
  · intro hne hm
    have hl : hostMappings.length > 0 := List.length_pos.mpr hne
    constructor
    · simp only [handlerRef, mainService, hs, Option.bind, Val.field, hh, Val.strField,
        handlerWithRules, hl, if_true]
      simp [getKey_setKey]
    · simp [blockNames, node_config_hosts, hl, generateHostsConfigs_eq, hm, Val.elems]

/-- C6, as stated, fails: the document of `sampleNode` with one bypass record (and
one admission, host-mapping and ingress record) holding the empty JSON array has
an empty merged result for each, yet has the keys "bypasses", "admissions",
"hosts" and "ingresses". -/
theorem empty_merge_key_present :
    decodedMatchers sampleUnmarshal "[]" = [] ∧
    decodedHostEntries sampleUnmarshal "[]" = [] ∧
    decodedIngressRules sampleUnmarshal "[]" = [] ∧
    hasKey emptyRulesDoc "bypasses" = true ∧
    hasKey emptyRulesDoc "admissions" = true ∧
    hasKey emptyRulesDoc "hosts" = true ∧
    hasKey emptyRulesDoc "ingresses" = true := by
  decide

/-- C6, amended: for a non-empty list of bypass records whose merged matcher list
is empty, the document of GenerateNodeConfigWithRules emits no bypass block: the
key "bypasses" is present and holds nil. The same holds for "admissions", for
"hosts" and, for a non-empty first ingress argument, for "ingresses". -/
theorem empty_merge_nil_block (u : Unmarshal) (node : Node) (bypasses : List Bypass)
    (admissions : List Admission) (hostMappings : List HostMapping)
    (ingresses : List (List Ingress)) :
    (bypasses ≠ [] → bypasses.flatMap (fun b => decodedMatchers u b.Matchers) = [] →
      getKey (GenerateNodeConfigWithRules u node bypasses admissions hostMappings ingresses)
        "bypasses" = some Val.null) ∧
    (admissions ≠ [] → admissions.flatMap (fun a => decodedMatchers u a.Matchers) = [] →
      getKey (GenerateNodeConfigWithRules u node bypasses admissions hostMappings ingresses)
        "admissions" = some Val.null) ∧
    (hostMappings ≠ [] →
      hostMappings.flatMap (fun hm => decodedHostEntries u hm.Mappings) = [] →
      getKey (GenerateNodeConfigWithRules u node bypasses admissions hostMappings ingresses)
        "hosts" = some Val.null) ∧
    (∀ first rest, ingresses = first :: rest → first ≠ [] →
      first.flatMap (fun ing => decodedIngressRules u ing.Rules) = [] →
      getKey (GenerateNodeConfigWithRules u node bypasses admissions hostMappings ingresses)
        "ingresses" = some Val.null) := by
  refine ⟨?_, ?_, ?_, ?_⟩
  · intro hne hm
    have hl : bypasses.length > 0 := List.length_pos.mpr hne
    rw [node_config_bypasses, if_pos hl, generateBypassConfigs_eq, if_pos hm]
  · intro hne hm
    have hl : admissions.length > 0 := List.length_pos.mpr hne
    rw [node_config_admissions, if_pos hl, generateAdmissionConfigs_eq, if_pos hm]
  · intro hne hm
    have hl : hostMappings.length > 0 := List.length_pos.mpr hne
    rw [node_config_hosts, if_pos hl, generateHostsConfigs_eq, if_pos hm]
  · intro first rest hi hne hm
    have hl : first.length > 0 := List.length_pos.mpr hne
    rw [hi, node_config_ingresses, if_pos hl, generateIngressConfigs_eq, if_pos hm]

theorem empty_merge_nil_block_witness :
    getKey emptyRulesDoc "bypasses" = some Val.null ∧
    getKey emptyRulesDoc "admissions" = some Val.null ∧
    getKey emptyRulesDoc "hosts" = some Val.null ∧
    getKey emptyRulesDoc "ingresses" = some Val.null :=
  have h := empty_merge_nil_block sampleUnmarshal sampleNode
    [{ Whitelist := false, Matchers := "[]" }] [{ Whitelist := false, Matchers := "[]" }]
    [{ Mappings := "[]" }] [[{ Rules := "[]" }]]
  ⟨h.1 (by decide) (by decide), h.2.1 (by decide) (by decide),
   h.2.2.1 (by decide) (by decide), h.2.2.2 _ _ rfl (by decide) (by decide)⟩

/-- C7, as stated, fails: the payload "not json" does not decode, yet removing
the whitelist record that carries it changes the generated bypass block from
whitelist=true to whitelist=false. -/
theorem malformed_record_changes_whitelist :
    sampleUnmarshal.strings malformedBypass.Matchers = none ∧
    generateBypassConfigs sampleUnmarshal 7 [malformedBypass, blacklistBypass]
      = Val.list [Val.obj [("name", Val.str "bypass-7"), ("whitelist", Val.bool true),
          ("matchers", Val.list [Val.str "a"])]] ∧
    generateBypassConfigs sampleUnmarshal 7 [blacklistBypass]
      = Val.list [Val.obj [("name", Val.str "bypass-7"), ("whitelist", Val.bool false),
          ("matchers", Val.list [Val.str "a"])]] := by
  refine ⟨by decide, rfl, rfl⟩

theorem decodedMatchers_of_none (u : Unmarshal) (payload : String)
    (h : u.strings payload = none) : decodedMatchers u payload = [] := by
  simp [decodedMatchers, h]

theorem nameAndMatchers_block (name : String) (w w' : Bool) (ms : Val) :
    nameAndMatchers (Val.list [Val.obj
        [("name", Val.str name), ("whitelist", Val.bool w), ("matchers", ms)]])
      = nameAndMatchers (Val.list [Val.obj
        [("name", Val.str name), ("whitelist", Val.bool w'), ("matchers", ms)]]) := by
  simp [nameAndMatchers, Val.elems, Val.field, getKey]

/-- C7, amended: a record whose payload fails to decode contributes no matcher,
mapping or rule. Removing it leaves the generated host-mapping and ingress blocks
unchanged and leaves the name and the matchers of the generated bypass
(admission) block unchanged; the whole bypass (admission) block is unchanged when
the removed record has whitelist=false or another record has whitelist=true. -/
theorem malformed_record_removed (u : Unmarshal) (nodeID : Nat) :
    (∀ (l1 l2 : List Bypass) (r : Bypass), u.strings r.Matchers = none →
      nameAndMatchers (generateBypassConfigs u nodeID (l1 ++ r :: l2))
        = nameAndMatchers (generateBypassConfigs u nodeID (l1 ++ l2)) ∧
      ((r.Whitelist = false ∨ ∃ b ∈ l1 ++ l2, b.Whitelist = true) →
        generateBypassConfigs u nodeID (l1 ++ r :: l2)
          = generateBypassConfigs u nodeID (l1 ++ l2))) ∧
    (∀ (l1 l2 : List Admission) (r : Admission), u.strings r.Matchers = none →
      nameAndMatchers (generateAdmissionConfigs u nodeID (l1 ++ r :: l2))
        = nameAndMatchers (generateAdmissionConfigs u nodeID (l1 ++ l2)) ∧
      ((r.Whitelist = false ∨ ∃ a ∈ l1 ++ l2, a.Whitelist = true) →
        generateAdmissionConfigs u nodeID (l1 ++ r :: l2)
          = generateAdmissionConfigs u nodeID (l1 ++ l2))) ∧
    (∀ (l1 l2 : List HostMapping) (r : HostMapping), u.hostEntries r.Mappings = none →
      generateHostsConfigs u nodeID (l1 ++ r :: l2)
        = generateHostsConfigs u nodeID (l1 ++ l2)) ∧
    (∀ (l1 l2 : List Ingress) (r : Ingress), u.ingressRules r.Rules = none →
      generateIngressConfigs u nodeID (l1 ++ r :: l2)
        = generateIngressConfigs u nodeID (l1 ++ l2)) := by
  refine ⟨?_, ?_, ?_, ?_⟩
  · intro l1 l2 r hr
    have hm : (l1 ++ r :: l2).flatMap (fun b => decodedMatchers u b.Matchers)
        = (l1 ++ l2).flatMap (fun b => decodedMatchers u b.Matchers) := by
      simp [List.flatMap_append, decodedMatchers_of_none u _ hr]
    rw [generateBypassConfigs_eq, generateBypassConfigs_eq, hm]
    constructor
    · split_ifs
      · rfl
      · exact nameAndMatchers_block _ _ _ _
    · intro hw
      have ha : (l1 ++ r :: l2).any (fun b => b.Whitelist)
          = (l1 ++ l2).any (fun b => b.Whitelist) := by
        rcases hw with hw | ⟨b, hb, hbw⟩
        · simp [List.any_append, hw]
        · have h1 : (l1 ++ l2).any (fun b => b.Whitelist) = true :=
            List.any_eq_true.mpr ⟨b, hb, hbw⟩
          have hb' : b ∈ l1 ++ r :: l2 := by
            rcases List.mem_append.mp hb with h | h
            · exact List.mem_append.mpr (Or.inl h)
            · exact List.mem_append.mpr (Or.inr (List.mem_cons_of_mem _ h))
          rw [h1]
          exact List.any_eq_true.mpr ⟨b, hb', hbw⟩
      rw [ha]
  · intro l1 l2 r hr
    have hm : (l1 ++ r :: l2).flatMap (fun a => decodedMatchers u a.Matchers)
        = (l1 ++ l2).flatMap (fun a => decodedMatchers u a.Matchers) := by
      simp [List.flatMap_append, decodedMatchers_of_none u _ hr]
    rw [generateAdmissionConfigs_eq, generateAdmissionConfigs_eq, hm]
    constructor
    · split_ifs
      · rfl
      · exact nameAndMatchers_block _ _ _ _
    · intro hw
      have ha : (l1 ++ r :: l2).any (fun a => a.Whitelist)
          = (l1 ++ l2).any (fun a => a.Whitelist) := by
        rcases hw with hw | ⟨b, hb, hbw⟩
        · simp [List.any_append, hw]
        · have h1 : (l1 ++ l2).any (fun a => a.Whitelist) = true :=
            List.any_eq_true.mpr ⟨b, hb, hbw⟩
          have hb' : b ∈ l1 ++ r :: l2 := by
            rcases List.mem_append.mp hb with h | h
            · exact List.mem_append.mpr (Or.inl h)
            · exact List.mem_append.mpr (Or.inr (List.mem_cons_of_mem _ h))
          rw [h1]
          exact List.any_eq_true.mpr ⟨b, hb', hbw⟩
      rw [ha]
  · intro l1 l2 r hr
    have hm : (l1 ++ r :: l2).flatMap (fun hm => decodedHostEntries u hm.Mappings)
        = (l1 ++ l2).flatMap (fun hm => decodedHostEntries u hm.Mappings) := by
      simp [List.flatMap_append, decodedHostEntries, hr]
    rw [generateHostsConfigs_eq, generateHostsConfigs_eq, hm]
  · intro l1 l2 r hr
    have hm : (l1 ++ r :: l2).flatMap (fun ing => decodedIngressRules u ing.Rules)
        = (l1 ++ l2).flatMap (fun ing => decodedIngressRules u ing.Rules) := by
      simp [List.flatMap_append, decodedIngressRules, hr]
    rw [generateIngressConfigs_eq, generateIngressConfigs_eq, hm]

theorem malformed_record_removed_witness :
    generateBypassConfigs sampleUnmarshal 7 [malformedBypass, whitelistBypass]
      = generateBypassConfigs sampleUnmarshal 7 [whitelistBypass] ∧
    nameAndMatchers (generateBypassConfigs sampleUnmarshal 7 [malformedBypass, blacklistBypass])
      = nameAndMatchers (generateBypassConfigs sampleUnmarshal 7 [blacklistBypass]) ∧
    generateHostsConfigs sampleUnmarshal 7 [malformedHostMapping, sampleHostMapping]
      = generateHostsConfigs sampleUnmarshal 7 [sampleHostMapping] :=
  have h := malformed_record_removed sampleUnmarshal 7
  ⟨(h.1 [] [whitelistBypass] malformedBypass (by decide)).2
      (Or.inr ⟨whitelistBypass, by simp, rfl⟩),
   (h.1 [] [blacklistBypass] malformedBypass (by decide)).1,
   h.2.2.1 [] [sampleHostMapping] malformedHostMapping (by decide)⟩

/-! ## Handlers -/

/-- The handler of a protocol outside the case labels of generateHandler. -/
theorem generateHandler_unhandled (node : Node) (h : node.Protocol ∉ handledProtocols) :
    generateHandler node =
      if node.DNSServer ≠ "" then [("resolver", Val.str "custom-resolver")] else [] := by
  simp only [handledProtocols, List.mem_cons, List.mem_singleton, List.not_mem_nil,
    or_false, not_or] at h
  obtain ⟨h1, h2, h3, h4, h5, h6, h7, h8, h9, h10, h11, h12, h13, h14⟩ := h
  simp [generateHandler, h1, h2, h3, h4, h5, h6, h7, h8, h9, h10, h11, h12, h13, h14, setKey]

/-- The handler type for the case labels of generateHandler. -/
theorem generateHandler_type_handled (node : Node) (h : node.Protocol ∈ handledProtocols) :
    getKey (generateHandler node) "type"
      = some (Val.str (if node.Protocol = "" then "socks5" else node.Protocol)) := by
  simp only [handledProtocols, List.mem_cons, List.mem_singleton, List.not_mem_nil,
    or_false] at h
  rcases h with h | h | h | h | h | h | h | h | h | h | h | h | h | h <;>
    by_cases hu : node.ProxyUser = "" <;> by_cases hd : node.DNSServer = "" <;>
    simp [generateHandler, h, hu, hd, getKey_setKey, getKey]

/-- C8: for the protocol values "socks4" and "auto" of the enumerated set the
handler built by generateHandler has no type at all, where the claim gives it the
type "socks4" and "auto"; for every case label of the switch the type is the
protocol value, the empty protocol giving "socks5". -/
theorem handler_type_missing_for_socks4_and_auto :
    getKey (generateHandler socks4Node) "type" = none ∧
    generateHandler socks4Node = [] ∧
    getKey (generateHandler autoNode) "type" = none ∧
    (∀ node : Node, node.Protocol ∈ handledProtocols →
      getKey (generateHandler node) "type"
        = some (Val.str (if node.Protocol = "" then "socks5" else node.Protocol))) := by
  exact ⟨rfl, rfl, rfl, generateHandler_type_handled⟩

/-- C9: for a protocol that is not a case label of generateHandler the handler
has no type and can carry no key but the resolver reference, and
GenerateNodeConfigWithRules still returns a document with exactly one service,
whose handler is that handler with the rule references added. -/
theorem unrecognised_protocol_handler (u : Unmarshal) (node : Node) (bypasses : List Bypass)
    (admissions : List Admission) (hostMappings : List HostMapping)
    (ingresses : List (List Ingress)) (h : node.Protocol ∉ handledProtocols) :
    getKey (generateHandler node) "type" = none ∧
    (generateHandler node = [] ∨
      generateHandler node = [("resolver", Val.str "custom-resolver")]) ∧
    (∀ k, hasKey (generateHandler node) k = true → k = "resolver") ∧
    (∃ service,
      getKey (GenerateNodeConfigWithRules u node bypasses admissions hostMappings ingresses)
        "services" = some (Val.list [service])) := by
  have hh := generateHandler_unhandled node h
  refine ⟨?_, ?_, ?_, _, node_config_services u node bypasses admissions hostMappings ingresses⟩
  · rw [hh]
    split_ifs <;> simp [getKey]
  · rw [hh]
    split_ifs
    · exact Or.inr rfl
    · exact Or.inl rfl
  · intro k
    rw [hh]
    split_ifs <;> simp [hasKey, getKey]
    intro hk
    exact hk.symm

theorem unrecognised_protocol_handler_witness :
    getKey (generateHandler unknownProtocolNode) "type" = none ∧
    (generateHandler unknownProtocolNode = [] ∨
      generateHandler unknownProtocolNode = [("resolver", Val.str "custom-resolver")]) ∧
    (∀ k, hasKey (generateHandler unknownProtocolNode) k = true → k = "resolver") ∧
    (∃ service,
      getKey (GenerateNodeConfigWithRules sampleUnmarshal unknownProtocolNode sampleBypasses
        sampleAdmissions [] []) "services" = some (Val.list [service])) :=
  unrecognised_protocol_handler sampleUnmarshal unknownProtocolNode sampleBypasses
    sampleAdmissions [] [] (by decide)

/-- C10: for the protocol "socks5" or the empty protocol generateHandler gives
the type "socks5" and the metadata bind=true, udp=true, udpBufferSize=4096, and
the handler has the auther reference "main-auth" exactly when the proxy username
is not empty (no auther key at all otherwise). -/
theorem socks5_handler (node : Node) (h : node.Protocol = "socks5" ∨ node.Protocol = "") :
    getKey (generateHandler node) "type" = some (Val.str "socks5") ∧
    getKey (generateHandler node) "metadata"
      = some (Val.obj [("bind", Val.bool true), ("udp", Val.bool true),
          ("udpBufferSize", Val.int 4096)]) ∧
    (getKey (generateHandler node) "auther" = some (Val.str "main-auth")
      ↔ node.ProxyUser ≠ "") ∧
    (hasKey (generateHandler node) "auther" = true ↔ node.ProxyUser ≠ "") := by
  rcases h with h | h <;>
    by_cases hu : node.ProxyUser = "" <;> by_cases hd : node.DNSServer = "" <;>
    simp [generateHandler, h, hu, hd, getKey_setKey, getKey, hasKey]

theorem socks5_handler_witness :
    getKey (generateHandler sampleNode) "type" = some (Val.str "socks5") ∧
    getKey (generateHandler sampleNode) "metadata"
      = some (Val.obj [("bind", Val.bool true), ("udp", Val.bool true),
          ("udpBufferSize", Val.int 4096)]) ∧
    (getKey (generateHandler sampleNode) "auther" = some (Val.str "main-auth")
      ↔ sampleNode.ProxyUser ≠ "") ∧
    (hasKey (generateHandler sampleNode) "auther" = true ↔ sampleNode.ProxyUser ≠ "") :=
  socks5_handler sampleNode (Or.inl rfl)

/-- C11: the handler of an "ss" node has auth {username: SSMethod, password:
SSPassword}, that of a "trojan" node has an auth holding the password only, that
of a "vmess" node has auth {username: VMessUUID} and metadata {alterID:
VMessAlterID}; none of the three has an "auther" key, whatever the proxy
username is. -/
theorem credential_handlers (node : Node) :
    (node.Protocol = "ss" →
      getKey (generateHandler node) "type" = some (Val.str "ss") ∧
      getKey (generateHandler node) "auth"
        = some (Val.obj [("username", Val.str node.SSMethod),
            ("password", Val.str node.SSPassword)]) ∧
      hasKey (generateHandler node) "auther" = false) ∧
    (node.Protocol = "trojan" →
      getKey (generateHandler node) "type" = some (Val.str "trojan") ∧
      getKey (generateHandler node) "auth"
        = some (Val.obj [("password", Val.str node.TrojanPassword)]) ∧
      hasKey (generateHandler node) "auther" = false) ∧
    (node.Protocol = "vmess" →
      getKey (generateHandler node) "type" = some (Val.str "vmess") ∧
      getKey (generateHandler node) "auth"
        = some (Val.obj [("username", Val.str node.VMessUUID)]) ∧
      getKey (generateHandler node) "metadata"
        = some (Val.obj [("alterID", Val.int node.VMessAlterID)]) ∧
      hasKey (generateHandler node) "auther" = false) := by
  refine ⟨?_, ?_, ?_⟩ <;> intro h <;> by_cases hd : node.DNSServer = "" <;>
    simp [generateHandler, h, hd, getKey_setKey, getKey, hasKey]

theorem credential_handlers_witness :
    getKey (generateHandler ssNode) "auth"
      = some (Val.obj [("username", Val.str "aes-256-gcm"), ("password", Val.str "secret")]) ∧
    ssNode.ProxyUser = "a" ∧
    hasKey (generateHandler ssNode) "auther" = false :=
  have h := (credential_handlers ssNode).1 rfl
  ⟨h.2.1, rfl, h.2.2⟩

/-! ## Listeners -/

/-- C12: for the protocols sshd, redirect and tun generateListener returns the
listener holding only the type, equal to the protocol, whatever the transport,
the TLS and WebSocket fields and the transport options are: it has no "tls" and
no "metadata" key. -/
theorem protocol_listener (u : Unmarshal) (node : Node)
    (h : node.Protocol = "sshd" ∨ node.Protocol = "redirect" ∨ node.Protocol = "tun") :
    generateListener u node = [("type", Val.str node.Protocol)] ∧
    getKey (generateListener u node) "type" = some (Val.str node.Protocol) ∧
    hasKey (generateListener u node) "tls" = false ∧
    hasKey (generateListener u node) "metadata" = false := by
  rcases h with h | h | h <;> simp [generateListener, h, setKey, getKey, hasKey]

theorem protocol_listener_witness :
    generateListener sampleUnmarshal sshdNode = [("type", Val.str "sshd")] ∧
    getKey (generateListener sampleUnmarshal sshdNode) "type" = some (Val.str "sshd") ∧
    hasKey (generateListener sampleUnmarshal sshdNode) "tls" = false ∧
    hasKey (generateListener sampleUnmarshal sshdNode) "metadata" = false :=
  protocol_listener sampleUnmarshal sshdNode (Or.inl rfl)

/-- The listener of a transport outside the case labels of generateListener. -/
theorem generateListener_unrecognised (u : Unmarshal) (node : Node)
    (hp : node.Protocol ∉ listenerProtocols) (ht : node.Transport ∉ listenerTransports) :
    generateListener u node = [] := by
  simp only [listenerProtocols, listenerTransports, List.mem_cons, List.mem_singleton,
    List.not_mem_nil, or_false, not_or] at hp ht
  obtain ⟨p1, p2, p3⟩ := hp
  obtain ⟨t1, t2, t3, t4, t5, t6, t7, t8, t9, t10, t11, t12, t13, t14, t15, t16, t17, t18,
    t19, t20, t21, t22, t23, t24⟩ := ht
  simp [generateListener, p1, p2, p3, t1, t2, t3, t4, t5, t6, t7, t8, t9, t10, t11, t12, t13,
    t14, t15, t16, t17, t18, t19, t20, t21, t22, t23, t24]

/-- The listener of the transports "tcp", "" and "tcp+udp". -/
theorem generateListener_tcp (u : Unmarshal) (node : Node)
    (hp : node.Protocol ∉ listenerProtocols)
    (ht : node.Transport = "tcp" ∨ node.Transport = "" ∨ node.Transport = "tcp+udp") :
    generateListener u node = [("type", Val.str "tcp")] := by
  simp only [listenerProtocols, List.mem_cons, List.mem_singleton, List.not_mem_nil,
    or_false, not_or] at hp
  obtain ⟨p1, p2, p3⟩ := hp
  simp [generateListener, p1, p2, p3, ht, setKey]

/-- The "tls" key of a listener whose type is chosen by the transport. -/
theorem generateListener_tls (u : Unmarshal) (node : Node)
    (hp : node.Protocol ∉ listenerProtocols) :
    getKey (generateListener u node) "tls"
      = if node.Transport ∈ tlsTransports then some (Val.obj (generateTLSConfig node))
        else none := by
  by_cases ht : node.Transport ∈ listenerTransports
  · simp only [listenerProtocols, List.mem_cons, List.mem_singleton, List.not_mem_nil,
      or_false, not_or] at hp
    obtain ⟨p1, p2, p3⟩ := hp
    simp only [listenerTransports, List.mem_cons, List.mem_singleton, List.not_mem_nil,
      or_false] at ht
    rcases ht with h | h | h | h | h | h | h | h | h | h | h | h | h | h | h | h | h | h | h
      | h | h | h | h | h <;>
      simp [generateListener, p1, p2, p3, h, tlsTransports, tlsListener, wsMetadata,
        getKey_ite, getKey_setKey, getKey]
  · rw [generateListener_unrecognised u node hp ht]
    have hn : node.Transport ∉ tlsTransports := by
      intro hc
      apply ht
      simp only [tlsTransports, List.mem_cons, List.mem_singleton, List.not_mem_nil,
        or_false] at hc
      rcases hc with h | h | h | h | h | h | h | h | h | h <;> simp [listenerTransports, h]
    simp [hn, getKey]

/-- The keys of the TLS sub-document. -/
theorem generateTLSConfig_keys (node : Node) (k : String) :
    getKey (generateTLSConfig node) k =
      if k = "certFile" then (if node.TLSCertFile ≠ "" then some (Val.str node.TLSCertFile) else none)
      else if k = "keyFile" then
        (if node.TLSKeyFile ≠ "" then some (Val.str node.TLSKeyFile) else none)
      else if k = "serverName" then
        (if node.TLSSNI ≠ "" then some (Val.str node.TLSSNI) else none)
      else none := by
  by_cases h1 : k = "certFile"
  · subst h1
    by_cases c1 : node.TLSCertFile = "" <;> by_cases c2 : node.TLSKeyFile = "" <;>
      by_cases c3 : node.TLSSNI = "" <;>
      simp [generateTLSConfig, c1, c2, c3, getKey_setKey, getKey]
  · by_cases h2 : k = "keyFile"
    · subst h2
      by_cases c1 : node.TLSCertFile = "" <;> by_cases c2 : node.TLSKeyFile = "" <;>
        by_cases c3 : node.TLSSNI = "" <;>
        simp [generateTLSConfig, c1, c2, c3, getKey_setKey, getKey]
    · by_cases h3 : k = "serverName"
      · subst h3
        by_cases c1 : node.TLSCertFile = "" <;> by_cases c2 : node.TLSKeyFile = "" <;>
          by_cases c3 : node.TLSSNI = "" <;>
          simp [generateTLSConfig, c1, c2, c3, getKey_setKey, getKey]
      · have n1 : ¬ "certFile" = k := fun h => h1 h.symm
        have n2 : ¬ "keyFile" = k := fun h => h2 h.symm
        have n3 : ¬ "serverName" = k := fun h => h3 h.symm
        by_cases c1 : node.TLSCertFile = "" <;> by_cases c2 : node.TLSKeyFile = "" <;>
          by_cases c3 : node.TLSSNI = "" <;>
          simp [generateTLSConfig, c1, c2, c3, getKey_setKey, getKey, h1, h2, h3, n1, n2, n3]

/-- C13, as stated, fails: a socks5 node whose transport "bogus" is none of the
recognised values gets a listener without any type, not a listener of type "tcp". -/
theorem unrecognised_transport_no_type :
    bogusTransportNode.Protocol ∉ listenerProtocols ∧
    bogusTransportNode.Transport ∉ listenerTransports ∧
    generateListener sampleUnmarshal bogusTransportNode = [] ∧
    getKey (generateListener sampleUnmarshal bogusTransportNode) "type" = none :=
  ⟨by decide, by decide, rfl, rfl⟩

/-- C13, amended: for a protocol other than sshd, redirect and tun, an empty
transport gives a listener of type "tcp", and a transport that is no case label of
generateListener gives a listener with no type (an empty map). -/
theorem transport_fallback_listener (u : Unmarshal) (node : Node)
    (hp : node.Protocol ∉ listenerProtocols) :
    (node.Transport = "" →
      generateListener u node = [("type", Val.str "tcp")] ∧
      getKey (generateListener u node) "type" = some (Val.str "tcp")) ∧
    (node.Transport ∉ listenerTransports →
      generateListener u node = [] ∧
      getKey (generateListener u node) "type" = none) := by
  constructor
  · intro h
    rw [generateListener_tcp u node hp (Or.inr (Or.inl h))]
    exact ⟨rfl, by simp [getKey]⟩
  · intro h
    rw [generateListener_unrecognised u node hp h]
    exact ⟨rfl, rfl⟩

theorem transport_fallback_listener_witness :
    generateListener sampleUnmarshal emptyTransportNode = [("type", Val.str "tcp")] ∧
    generateListener sampleUnmarshal bogusTransportNode = [] :=
  ⟨((transport_fallback_listener sampleUnmarshal emptyTransportNode (by decide)).1 rfl).1,
   ((transport_fallback_listener sampleUnmarshal bogusTransportNode (by decide)).2
      (by decide)).1⟩

/-- C14: for a protocol other than sshd, redirect and tun the listener has a
"tls" sub-document exactly when the transport is one of tls, mtls, wss, h2, quic,
grpc, phts, mwss, http3, dtls; that sub-document is generateTLSConfig of the
node, which holds certFile, keyFile, serverName exactly when the node's
certificate file, key file, SNI is not empty, with that value, and no other key. -/
theorem tls_subdocument (u : Unmarshal) (node : Node)
    (hp : node.Protocol ∉ listenerProtocols) :
    (hasKey (generateListener u node) "tls" = true ↔ node.Transport ∈ tlsTransports) ∧
    (node.Transport ∈ tlsTransports →
      getKey (generateListener u node) "tls" = some (Val.obj (generateTLSConfig node))) ∧
    getKey (generateTLSConfig node) "certFile"
      = (if node.TLSCertFile ≠ "" then some (Val.str node.TLSCertFile) else none) ∧
    getKey (generateTLSConfig node) "keyFile"
      = (if node.TLSKeyFile ≠ "" then some (Val.str node.TLSKeyFile) else none) ∧
    getKey (generateTLSConfig node) "serverName"
      = (if node.TLSSNI ≠ "" then some (Val.str node.TLSSNI) else none) ∧
    (∀ k, hasKey (generateTLSConfig node) k = true →
      k = "certFile" ∨ k = "keyFile" ∨ k = "serverName") := by
  have hl := generateListener_tls u node hp
  refine ⟨?_, ?_, ?_, ?_, ?_, ?_⟩
  · rw [hasKey, hl]
    split_ifs with h <;> simp [h]
  · intro h
    rw [hl, if_pos h]
  · rw [generateTLSConfig_keys]
    simp
  · rw [generateTLSConfig_keys]
    simp
  · rw [generateTLSConfig_keys]
    simp
  · intro k hk
    rw [hasKey, generateTLSConfig_keys] at hk
    by_contra hne
    simp only [not_or] at hne
    obtain ⟨n1, n2, n3⟩ := hne
    simp [n1, n2, n3] at hk

theorem tls_subdocument_witness :
    hasKey (generateListener sampleUnmarshal wssNode) "tls" = true ∧
    getKey (generateListener sampleUnmarshal wssNode) "tls"
      = some (Val.obj [("certFile", Val.str "cert.pem"), ("serverName", Val.str "example.com")]) ∧
    hasKey (generateListener sampleUnmarshal sampleNode) "tls" = false := by
  have h := tls_subdocument sampleUnmarshal wssNode (by decide)
  have h' := tls_subdocument sampleUnmarshal sampleNode (by decide)
  refine ⟨h.1.mpr (by decide), h.2.1 (by decide), ?_⟩
  have hn : ¬ hasKey (generateListener sampleUnmarshal sampleNode) "tls" = true :=
    fun hc => absurd (h'.1.mp hc) (by decide)
  simpa using hn

/-! ## KCP options -/

theorem foldl_setKey_not_mem (kcp base : Obj) (k : String)
    (h : k ∉ kcp.map Prod.fst) :
    getKey (kcp.foldl (fun acc kv => setKey acc kv.1 kv.2) base) k = getKey base k := by
  induction kcp generalizing base with
  | nil => rfl
  | cons kv rest ih =>
    simp only [List.map_cons, List.mem_cons, not_or] at h
    rw [List.foldl_cons, ih _ h.2, getKey_setKey, if_neg (fun e => h.1 e.symm)]

theorem foldl_setKey_mem (kcp base : Obj) (k : String) (v : Val)
    (hn : (kcp.map Prod.fst).Nodup) (h : (k, v) ∈ kcp) :
    getKey (kcp.foldl (fun acc kv => setKey acc kv.1 kv.2) base) k = some v := by
  induction kcp generalizing base with
  | nil => cases h
  | cons kv rest ih =>
    simp only [List.map_cons, List.nodup_cons] at hn
    rw [List.foldl_cons]
    rcases List.mem_cons.mp h with e | e
    · subst e
      rw [foldl_setKey_not_mem rest _ _ hn.1, getKey_setKey_same]
    · exact ih _ hn.2 e

/-- The listener of the transport "kcp". -/
theorem generateListener_kcp (u : Unmarshal) (node : Node)
    (hp : node.Protocol ∉ listenerProtocols) (ht : node.Transport = "kcp") :
    generateListener u node
      = [("type", Val.str "kcp"), ("metadata", Val.obj [("kcp", Val.obj (kcpConfig u node))])] := by
  simp only [listenerProtocols, List.mem_cons, List.mem_singleton, List.not_mem_nil,
    or_false, not_or] at hp
  obtain ⟨p1, p2, p3⟩ := hp
  simp [generateListener, p1, p2, p3, ht, setKey]

/-- C15: for the transport kcp (protocol other than sshd, redirect, tun) the
listener's metadata holds one table under "kcp". The table is the built-in
baseline when the transport options are empty, do not decode, or hold no object
under "kcp"; otherwise it maps every key of the options' kcp object (a map, so
its keys are distinct) to the option's value, and every key not in that object
to its baseline value. -/
theorem kcp_options (u : Unmarshal) (node : Node)
    (hp : node.Protocol ∉ listenerProtocols) (ht : node.Transport = "kcp") :
    getKey (generateListener u node) "metadata"
      = some (Val.obj [("kcp", Val.obj (kcpConfig u node))]) ∧
    ((node.TransportOpts = "" ∨ u.object node.TransportOpts = none ∨
        (∃ opts, u.object node.TransportOpts = some opts ∧
          ∀ kcp, getKey opts "kcp" ≠ some (Val.obj kcp))) →
      kcpConfig u node = kcpDefaults) ∧
    (∀ opts kcp, node.TransportOpts ≠ "" → u.object node.TransportOpts = some opts →
      getKey opts "kcp" = some (Val.obj kcp) →
      (∀ k v, (kcp.map Prod.fst).Nodup → (k, v) ∈ kcp →
        getKey (kcpConfig u node) k = some v) ∧
      (∀ k, k ∉ kcp.map Prod.fst → getKey (kcpConfig u node) k = getKey kcpDefaults k)) := by
  refine ⟨?_, ?_, ?_⟩
  · rw [generateListener_kcp u node hp ht]
    simp [getKey]
  · intro h
    rcases h with h | h | ⟨opts, h, hk⟩
    · simp [kcpConfig, parseTransportOpts, h]
    · by_cases he : node.TransportOpts = "" <;> simp [kcpConfig, parseTransportOpts, he, h]
    · by_cases he : node.TransportOpts = ""
      · simp [kcpConfig, parseTransportOpts, he]
      · simp only [kcpConfig, parseTransportOpts, he, if_false, h]
  · intro opts kcp he ho hk
    have hc : kcpConfig u node
        = kcp.foldl (fun acc kv => setKey acc kv.1 kv.2) kcpDefaults := by
      simp only [kcpConfig, parseTransportOpts, he, if_false, ho, hk]
    rw [hc]
    exact ⟨fun k v hn hm => foldl_setKey_mem kcp kcpDefaults k v hn hm,
      fun k hm => foldl_setKey_not_mem kcp kcpDefaults k hm⟩

theorem kcp_options_witness :
    getKey (kcpConfig sampleUnmarshal kcpNode) "mtu" = some (Val.float 1400 0) ∧
    getKey (kcpConfig sampleUnmarshal kcpNode) "sndwnd" = some (Val.int 1024) ∧
    kcpConfig sampleUnmarshal kcpMalformedNode = kcpDefaults ∧
    getKey (generateListener sampleUnmarshal kcpNode) "metadata"
      = some (Val.obj [("kcp", Val.obj (kcpConfig sampleUnmarshal kcpNode))]) := by
  have h := kcp_options sampleUnmarshal kcpNode (by decide) rfl
  have h' := kcp_options sampleUnmarshal kcpMalformedNode (by decide) rfl
  have hs := h.2.2 [("kcp", Val.obj [("mtu", Val.float 1400 0)])] [("mtu", Val.float 1400 0)]
    (by decide) rfl rfl
  refine ⟨hs.1 "mtu" _ (by decide) (by simp), ?_, h'.2.1 (Or.inr (Or.inl rfl)), h.1⟩
  rw [hs.2 "sndwnd" (by decide)]
  rfl

/-! ## Limiter, auther and resolver blocks -/

theorem node_config_limiters (u : Unmarshal) (node : Node) (bypasses : List Bypass)
    (admissions : List Admission) (hostMappings : List HostMapping)
    (ingresses : List (List Ingress)) :
    getKey (GenerateNodeConfigWithRules u node bypasses admissions hostMappings ingresses)
        "limiters"
      = if node.SpeedLimit > 0 ∨ node.ConnRateLimit > 0 then some (generateLimiters node)
        else none := by
  rcases ingresses with _ | ⟨first, rest⟩ <;>
    simp [GenerateNodeConfigWithRules, getKey_ite, getKey_setKey, getKey]

theorem node_config_rlimiters (u : Unmarshal) (node : Node) (bypasses : List Bypass)
    (admissions : List Admission) (hostMappings : List HostMapping)
    (ingresses : List (List Ingress)) :
    getKey (GenerateNodeConfigWithRules u node bypasses admissions hostMappings ingresses)
        "rlimiters"
      = if node.SpeedLimit > 0 ∨ node.ConnRateLimit > 0 then some (generateRateLimiters node)
        else none := by
  rcases ingresses with _ | ⟨first, rest⟩ <;>
    simp [GenerateNodeConfigWithRules, getKey_ite, getKey_setKey, getKey]

theorem node_config_authers (u : Unmarshal) (node : Node) (bypasses : List Bypass)
    (admissions : List Admission) (hostMappings : List HostMapping)
    (ingresses : List (List Ingress)) :
    getKey (GenerateNodeConfigWithRules u node bypasses admissions hostMappings ingresses)
        "authers"
      = if node.ProxyUser ≠ "" then some (generateAuthers node) else none := by
  rcases ingresses with _ | ⟨first, rest⟩ <;>
    simp [GenerateNodeConfigWithRules, getKey_ite, getKey_setKey, getKey]

theorem node_config_resolvers (u : Unmarshal) (node : Node) (bypasses : List Bypass)
    (admissions : List Admission) (hostMappings : List HostMapping)
    (ingresses : List (List Ingress)) :
    getKey (GenerateNodeConfigWithRules u node bypasses admissions hostMappings ingresses)
        "resolvers"
      = if node.DNSServer ≠ "" then some (generateResolvers node) else none := by
  rcases ingresses with _ | ⟨first, rest⟩ <;>
    simp [GenerateNodeConfigWithRules, getKey_ite, getKey_setKey, getKey]

/-- C16, as stated, fails: the document of a node with a connection rate limit
of 5 and no speed limit has the key "limiters" (holding nil), and the document of
`sampleNode`, which has a speed limit and no connection rate limit, has the key
"rlimiters" (holding nil). -/
theorem limiter_key_without_limit :
    rateLimitedNode.SpeedLimit = 0 ∧
    hasKey (GenerateNodeConfigWithRules sampleUnmarshal rateLimitedNode [] [] [] [])
      "limiters" = true ∧
    getKey (GenerateNodeConfigWithRules sampleUnmarshal rateLimitedNode [] [] [] [])
      "limiters" = some Val.null ∧
    sampleNode.ConnRateLimit = 0 ∧
    hasKey (GenerateNodeConfigWithRules sampleUnmarshal sampleNode [] [] [] [])
      "rlimiters" = true ∧
    getKey (GenerateNodeConfigWithRules sampleUnmarshal sampleNode [] [] [] [])
      "rlimiters" = some Val.null :=
  ⟨rfl, rfl, rfl, rfl, rfl, rfl⟩

/-- C16, amended: the document of GenerateNodeConfigWithRules emits a limiter
block exactly when the speed limit is > 0, a rate-limiter block exactly when the
connection rate limit is > 0, an auther block exactly when the proxy username is
not empty and a resolver block exactly when the DNS server is not empty. The keys
"authers" and "resolvers" are present under the same conditions; the keys
"limiters" and "rlimiters" are both present as soon as one of the two limits is
> 0, the one without a block holding nil. -/
theorem limiter_auther_resolver_blocks (u : Unmarshal) (node : Node) (bypasses : List Bypass)
    (admissions : List Admission) (hostMappings : List HostMapping)
    (ingresses : List (List Ingress)) :
    blockNames (GenerateNodeConfigWithRules u node bypasses admissions hostMappings ingresses)
        "limiters" = (if node.SpeedLimit > 0 then ["speed-limiter"] else []) ∧
    blockNames (GenerateNodeConfigWithRules u node bypasses admissions hostMappings ingresses)
        "rlimiters" = (if node.ConnRateLimit > 0 then ["rate-limiter"] else []) ∧
    blockNames (GenerateNodeConfigWithRules u node bypasses admissions hostMappings ingresses)
        "authers" = (if node.ProxyUser ≠ "" then ["main-auth"] else []) ∧
    blockNames (GenerateNodeConfigWithRules u node bypasses admissions hostMappings ingresses)
        "resolvers" = (if node.DNSServer ≠ "" then ["custom-resolver"] else []) ∧
    (hasKey (GenerateNodeConfigWithRules u node bypasses admissions hostMappings ingresses)
        "limiters" = true ↔ (node.SpeedLimit > 0 ∨ node.ConnRateLimit > 0)) ∧
    (hasKey (GenerateNodeConfigWithRules u node bypasses admissions hostMappings ingresses)
        "rlimiters" = true ↔ (node.SpeedLimit > 0 ∨ node.ConnRateLimit > 0)) ∧
    (hasKey (GenerateNodeConfigWithRules u node bypasses admissions hostMappings ingresses)
        "authers" = true ↔ node.ProxyUser ≠ "") ∧
    (hasKey (GenerateNodeConfigWithRules u node bypasses admissions hostMappings ingresses)
        "resolvers" = true ↔ node.DNSServer ≠ "") := by
  have h1 := node_config_limiters u node bypasses admissions hostMappings ingresses
  have h2 := node_config_rlimiters u node bypasses admissions hostMappings ingresses
  have h3 := node_config_authers u node bypasses admissions hostMappings ingresses
  have h4 := node_config_resolvers u node bypasses admissions hostMappings ingresses
  refine ⟨?_, ?_, ?_, ?_, ?_, ?_, ?_, ?_⟩
  · rw [blockNames, h1]
    by_cases a : node.SpeedLimit > 0 <;> by_cases b : node.ConnRateLimit > 0 <;>
      simp [a, b, generateLimiters, Val.elems, Val.strField, Val.field, getKey, strList,
        not_le.mpr, not_lt.mp]
  · rw [blockNames, h2]
    by_cases a : node.SpeedLimit > 0 <;> by_cases b : node.ConnRateLimit > 0 <;>
      simp [a, b, generateRateLimiters, Val.elems, Val.strField, Val.field, getKey, strList,
        not_le.mpr, not_lt.mp]
  · rw [blockNames, h3]
    by_cases a : node.ProxyUser = "" <;>
      simp [a, generateAuthers, Val.elems, Val.strField, Val.field, getKey]
  · rw [blockNames, h4]
    by_cases a : node.DNSServer = "" <;>
      simp [a, generateResolvers, Val.elems, Val.strField, Val.field, getKey]
  · rw [hasKey, h1]
    split_ifs with h <;> simp [h]
  · rw [hasKey, h2]
    split_ifs with h <;> simp [h]
  · rw [hasKey, h3]
    split_ifs with h <;> simp [h]
  · rw [hasKey, h4]
    split_ifs with h <;> simp [h]

/-! ## Group chains -/

theorem chain_nodes_foldl (members : List NodeMemberWithNode) (acc : List Val) :
    members.foldl
      (fun nodes m =>
        if !m.Member.Enabled then nodes else nodes ++ [Val.obj (chainMemberNode m)])
      acc
    = acc ++ (members.filter (fun m => m.Member.Enabled)).map
        (fun m => Val.obj (chainMemberNode m)) := by
  induction members generalizing acc with
  | nil => simp
  | cons m rest ih =>
    rw [List.foldl_cons, ih]
    cases h : m.Member.Enabled <;> simp [List.filter_cons, h]

/-- GenerateChainConfig in closed form. -/
theorem GenerateChainConfig_eq (group : NodeGroup) (members : List NodeMemberWithNode) :
    GenerateChainConfig group members =
      [("name", Val.str ("chain-" ++ toString group.ID)),
       ("hops", Val.list [Val.obj
          [("name", Val.str "hop-0"),
           ("nodes", Val.list ((members.filter (fun m => m.Member.Enabled)).map
              (fun m => Val.obj (chainMemberNode m)))),
           ("selector", Val.obj
              [("strategy", Val.str group.Strategy),
               ("maxFails", Val.int group.MaxFails),
               ("failTimeout", Val.str (toString group.FailTimeout ++ "s"))])]])] := by
  simp only [GenerateChainConfig, chain_nodes_foldl, List.nil_append]

theorem chainMemberNode_addr (m : NodeMemberWithNode) :
    getKey (chainMemberNode m) "addr"
      = some (Val.str (m.Node.Host ++ ":" ++ toString m.Node.Port)) := by
  unfold chainMemberNode
  split_ifs <;> simp [getKey_setKey, getKey]

theorem chainMemberNode_connector_type (m : NodeMemberWithNode) :
    connectorType (Val.obj (chainMemberNode m)) = some m.Node.Protocol := by
  by_cases h1 : m.Node.ProxyUser = "" <;> by_cases h2 : m.Node.TLSEnabled = true <;>
    by_cases h3 : m.Member.Weight > 0 <;>
    simp [chainMemberNode, h1, h2, h3, connectorType, Val.field, Val.strField,
      getKey_setKey, getKey]

theorem chainMemberNode_dialer_type (m : NodeMemberWithNode) :
    dialerType (Val.obj (chainMemberNode m)) = some (normalizeTransport m.Node.Transport) := by
  by_cases h1 : m.Node.ProxyUser = "" <;> by_cases h2 : m.Node.TLSEnabled = true <;>
    by_cases h3 : m.Member.Weight > 0 <;>
    simp [chainMemberNode, h1, h2, h3, dialerType, Val.field, Val.strField,
      getKey_setKey, getKey]

theorem chainMemberNode_metadata (m : NodeMemberWithNode) :
    getKey (chainMemberNode m) "metadata"
      = if m.Member.Weight > 0 then some (Val.obj [("weight", Val.int m.Member.Weight)])
        else none := by
  unfold chainMemberNode
  split_ifs <;> simp [getKey_setKey, getKey]

/-- C17: GenerateChainConfig returns a chain with exactly one hop; its nodes are
the chain nodes of the enabled members in input order; each chain node carries
the address host:port, a connector whose type is the node's protocol and a dialer
whose type is the node's transport with "tcp+udp", "udp+tcp" and the empty value
replaced by "tcp"; the selector of the hop holds the group's strategy, its
max-failure count and the fail timeout as decimal seconds followed by "s". -/
theorem group_chain_shape (group : NodeGroup) (members : List NodeMemberWithNode) :
    (∃ hop, getKey (GenerateChainConfig group members) "hops" = some (Val.list [hop]) ∧
      hop.field "nodes" = some (Val.list ((members.filter (fun m => m.Member.Enabled)).map
        (fun m => Val.obj (chainMemberNode m)))) ∧
      hop.field "selector" = some (Val.obj
        [("strategy", Val.str group.Strategy),
         ("maxFails", Val.int group.MaxFails),
         ("failTimeout", Val.str (toString group.FailTimeout ++ "s"))])) ∧
    (∀ m : NodeMemberWithNode,
      (Val.obj (chainMemberNode m)).strField "addr"
        = some (m.Node.Host ++ ":" ++ toString m.Node.Port) ∧
      connectorType (Val.obj (chainMemberNode m)) = some m.Node.Protocol ∧
      dialerType (Val.obj (chainMemberNode m))
        = some (if m.Node.Transport = "tcp+udp" ∨ m.Node.Transport = "udp+tcp" ∨
                  m.Node.Transport = "" then "tcp" else m.Node.Transport)) := by
  constructor
  · rw [GenerateChainConfig_eq]
    exact ⟨_, rfl, rfl, rfl⟩
  · intro m
    refine ⟨?_, chainMemberNode_connector_type m, ?_⟩
    · simp [Val.strField, Val.field, chainMemberNode_addr]
    · rw [chainMemberNode_dialer_type, normalizeTransport]
      by_cases h1 : m.Node.Transport = "tcp+udp" <;>
        by_cases h2 : m.Node.Transport = "udp+tcp" <;>
        by_cases h3 : m.Node.Transport = "" <;> simp [h1, h2, h3]

theorem group_chain_shape_witness :
    chainNodes (GenerateChainConfig roundRobinGroup
        [zeroWeightMember, disabledMember, weightedMember])
      = [Val.obj (chainMemberNode zeroWeightMember), Val.obj (chainMemberNode weightedMember)] ∧
    dialerType (Val.obj (chainMemberNode weightedMember)) = some "tcp" := by
  obtain ⟨⟨hop, h1, h2, _⟩, hm⟩ := group_chain_shape roundRobinGroup
    [zeroWeightMember, disabledMember, weightedMember]
  refine ⟨?_, (hm weightedMember).2.2⟩
  simp only [chainNodes, h1, h2]
  rfl

/-- C18, as stated, fails: the chain node GenerateChainConfig generates for an
enabled member of weight 0 has no metadata at all. -/
theorem zero_weight_no_metadata :
    zeroWeightMember.Member.Weight = 0 ∧ zeroWeightMember.Member.Enabled = true ∧
    chainNodes (GenerateChainConfig roundRobinGroup [zeroWeightMember])
      = [Val.obj (chainMemberNode zeroWeightMember)] ∧
    hasKey (chainMemberNode zeroWeightMember) "metadata" = false :=
  ⟨rfl, rfl, rfl, rfl⟩

/-- C18, amended: addNodeGroupMember stores the weight 1 for a request weight of
0, and the chain node generated for the member so stored has metadata weight 1.
GenerateChainConfig itself does not normalise: the chain node of a member of
stored weight w > 0 has metadata with weight w, that of a member of stored weight
0 has no metadata. -/
theorem member_weight_metadata :
    (addNodeGroupMember 0).Weight = 1 ∧ (addNodeGroupMember 0).Enabled = true ∧
    (∀ node : Node,
      getKey (chainMemberNode { Member := addNodeGroupMember 0, Node := node }) "metadata"
        = some (Val.obj [("weight", Val.int 1)])) ∧
    (∀ m : NodeMemberWithNode, m.Member.Weight > 0 →
      getKey (chainMemberNode m) "metadata"
        = some (Val.obj [("weight", Val.int m.Member.Weight)])) ∧
    (∀ m : NodeMemberWithNode, m.Member.Weight = 0 →
      hasKey (chainMemberNode m) "metadata" = false) := by
  refine ⟨rfl, rfl, ?_, ?_, ?_⟩
  · intro node
    rw [chainMemberNode_metadata]
    rfl
  · intro m h
    rw [chainMemberNode_metadata, if_pos h]
  · intro m h
    rw [hasKey, chainMemberNode_metadata]
    simp [h]

theorem member_weight_metadata_witness :
    getKey (chainMemberNode weightedMember) "metadata"
      = some (Val.obj [("weight", Val.int 5)]) ∧
    getKey (chainMemberNode { Member := addNodeGroupMember 0, Node := sampleNode }) "metadata"
      = some (Val.obj [("weight", Val.int 1)]) :=
  ⟨member_weight_metadata.2.2.2.1 weightedMember (by decide),
   member_weight_metadata.2.2.1 sampleNode⟩

/-- C19, as stated, fails: for a group stored with the strategy "round_robin"
the selector generated by GenerateChainConfig has the strategy "round_robin". -/
theorem round_robin_kept :
    roundRobinGroup.Strategy = "round_robin" ∧
    selectorStrategy (GenerateChainConfig roundRobinGroup [weightedMember])
      = some "round_robin" :=
  ⟨rfl, rfl⟩

/-- C19, amended: createNodeGroup stores the strategy "round" for the request
strategy "round_robin", so the selector of the chain generated for the group it
stores has the strategy "round"; GenerateChainConfig itself places the stored
strategy of the group in the selector unchanged. -/
theorem strategy_alias :
    (∀ (id : Nat) (req : CreateNodeGroupRequest), req.Strategy = "round_robin" →
      (createNodeGroup id req).Strategy = "round") ∧
    (∀ (id : Nat) (req : CreateNodeGroupRequest) (members : List NodeMemberWithNode),
      req.Strategy = "round_robin" →
      selectorStrategy (GenerateChainConfig (createNodeGroup id req) members) = some "round") ∧
    (∀ (group : NodeGroup) (members : List NodeMemberWithNode),
      selectorStrategy (GenerateChainConfig group members) = some group.Strategy) := by
  have hg : ∀ (group : NodeGroup) (members : List NodeMemberWithNode),
      selectorStrategy (GenerateChainConfig group members) = some group.Strategy := by
    intro group members
    rw [GenerateChainConfig_eq]
    simp [selectorStrategy, chainSelector, Val.field, Val.strField, getKey]
  have hc : ∀ (id : Nat) (req : CreateNodeGroupRequest), req.Strategy = "round_robin" →
      (createNodeGroup id req).Strategy = "round" := by
    intro id req h
    unfold createNodeGroup
    simp only [h]
    split_ifs <;> rfl
  exact ⟨hc, fun id req members h => by rw [hg, hc id req h], hg⟩

theorem strategy_alias_witness :
    (createNodeGroup 4 roundRobinRequest).Strategy = "round" ∧
    selectorStrategy (GenerateChainConfig (createNodeGroup 4 roundRobinRequest)
      [weightedMember]) = some "round" :=
  ⟨strategy_alias.1 4 roundRobinRequest rfl, strategy_alias.2.1 4 roundRobinRequest _ rfl⟩

/-! ## Proxy chains -/

theorem proxyChainLoop_eq (i : Nat) (hops : List ProxyChainHop) (acc : List Val) :
    proxyChainLoop i hops acc = acc ++ (hops.enumFrom i).filterMap emitHop := by
  induction hops generalizing i acc with
  | nil => simp [proxyChainLoop]
  | cons hop rest ih =>
    rw [proxyChainLoop, List.enumFrom_cons, List.filterMap_cons]
    cases hn : hop.Node with
    | none => cases he : hop.Enabled <;> simp [emitHop, hn, he, ih]
    | some node => cases he : hop.Enabled <;> simp [emitHop, hn, he, ih]

/-- The hops of GenerateProxyChainConfig in closed form. -/
theorem GenerateProxyChainConfig_hops (chain : ProxyChain) (hops : List ProxyChainHop) :
    chainHops (GenerateProxyChainConfig chain hops) = hops.enum.filterMap emitHop := by
  simp [chainHops, GenerateProxyChainConfig, proxyChainLoop_eq, getKey, Val.elems, List.enum]

theorem emitHop_eq_some (i : Nat) (hop : ProxyChainHop) (v : Val) :
    emitHop (i, hop) = some v ↔
      ∃ node, hop = { Node := some node, Enabled := true } ∧
        v = Val.obj (proxyChainHop i node) := by
  obtain ⟨n, e⟩ := hop
  cases e <;> cases n <;> simp [emitHop, eq_comm]

/-- C20, as stated, fails: of two enabled input hops, the first without a node,
GenerateProxyChainConfig emits a single hop. -/
theorem enabled_hop_without_node_dropped :
    hopWithoutNode.Enabled = true ∧ enabledHop.Enabled = true ∧
    chainHops (GenerateProxyChainConfig sampleChain [hopWithoutNode, enabledHop])
      = [Val.obj (proxyChainHop 1 sampleNode)] :=
  ⟨rfl, rfl, rfl⟩

/-- C20, amended: GenerateProxyChainConfig emits exactly one hop per input hop
that is enabled and has a node, in input order; a disabled hop and a hop without
node emit nothing. The hop emitted for the input hop at index i is named "hop-i"
and contains exactly one node, the hop's node: its name does not depend on the
other hops being enabled or disabled. -/
theorem proxy_chain_hops (chain : ProxyChain) (hops : List ProxyChainHop) :
    chainHops (GenerateProxyChainConfig chain hops) = hops.enum.filterMap emitHop ∧
    (∀ v, v ∈ chainHops (GenerateProxyChainConfig chain hops) ↔
      ∃ i node, hops[i]? = some { Node := some node, Enabled := true } ∧
        v = Val.obj (proxyChainHop i node)) ∧
    (∀ (i : Nat) (node : Node),
      getKey (proxyChainHop i node) "name" = some (Val.str ("hop-" ++ toString i)) ∧
      ∃ n, getKey (proxyChainHop i node) "nodes" = some (Val.list [n]) ∧
        n.strField "name" = some ("node-" ++ toString node.ID) ∧
        n.strField "addr" = some (node.Host ++ ":" ++ toString node.Port)) := by
  refine ⟨GenerateProxyChainConfig_hops chain hops, ?_, ?_⟩
  · intro v
    rw [GenerateProxyChainConfig_hops, List.mem_filterMap]
    constructor
    · rintro ⟨⟨i, hop⟩, hm, he⟩
      obtain ⟨node, rfl, rfl⟩ := (emitHop_eq_some i hop v).mp he
      exact ⟨i, node, List.mk_mem_enum_iff_getElem?.mp hm, rfl⟩
    · rintro ⟨i, node, hg, rfl⟩
      exact ⟨(i, _), List.mk_mem_enum_iff_getElem?.mpr hg,
        (emitHop_eq_some i _ _).mpr ⟨node, rfl, rfl⟩⟩
  · intro i node
    refine ⟨rfl, _, rfl, ?_, ?_⟩ <;>
      by_cases h1 : node.ProxyUser = "" <;> by_cases h2 : node.TLSEnabled = true <;>
      simp [h1, h2, Val.strField, Val.field, getKey_setKey, getKey]

theorem proxy_chain_hops_witness :
    chainHops (GenerateProxyChainConfig sampleChain [disabledHop, enabledHop])
      = [Val.obj (proxyChainHop 1 sampleNode)] ∧
    chainHops (GenerateProxyChainConfig sampleChain [enabledHop, enabledHop])
      = [Val.obj (proxyChainHop 0 sampleNode), Val.obj (proxyChainHop 1 sampleNode)] ∧
    getKey (proxyChainHop 1 sampleNode) "name" = some (Val.str "hop-1") :=
  ⟨(proxy_chain_hops sampleChain [disabledHop, enabledHop]).1,
   (proxy_chain_hops sampleChain [enabledHop, enabledHop]).1,
   ((proxy_chain_hops sampleChain []).2.2 1 sampleNode).1⟩

/-- C21: for an enabled hop whose node has the transport "tcp+udp"
GenerateProxyChainConfig emits a chain node whose dialer type is "tcp+udp", where
the claim, and the dialer GenerateChainConfig builds for the same node, have
"tcp". -/
theorem proxy_chain_dialer_not_normalised :
    compositeHop.Enabled = true ∧ compositeNode.Transport = "tcp+udp" ∧
    (chainHops (GenerateProxyChainConfig sampleChain [compositeHop])).map hopNodeDialers
      = [[some "tcp+udp"]] ∧
    dialerType (Val.obj (chainMemberNode
      { Member := { Weight := 1, Enabled := true }, Node := compositeNode })) = some "tcp" := by
  decide

/-- C22: GenerateChainConfig gives the same document for a member list and for
that list with the disabled members removed. -/
theorem disabled_members_excluded (group : NodeGroup) (members : List NodeMemberWithNode) :
    GenerateChainConfig group members
      = GenerateChainConfig group (members.filter (fun m => m.Member.Enabled)) := by
  rw [GenerateChainConfig_eq, GenerateChainConfig_eq, List.filter_filter]
  simp

/-! ## Tunnel services -/

theorem tunnelService_forwarder (t : Tunnel) (c p : String) :
    getKey (tunnelService t c p) "forwarder"
      = if t.TargetAddr ≠ "" then
          some (Val.obj [("nodes", Val.list [Val.obj
            [("name", Val.str "target"), ("addr", Val.str t.TargetAddr)]])])
        else none := by
  unfold tunnelService
  split_ifs <;> simp [getKey_setKey, getKey]

theorem tunnelService_limiter (t : Tunnel) (c p : String) :
    getKey (tunnelService t c p) "limiter"
      = if t.SpeedLimit > 0 then some (Val.str "tunnel-limiter") else none := by
  unfold tunnelService
  split_ifs <;> simp [getKey_setKey, getKey]

/-- C23: for a tunnel with an exit node, every service of the entry document has
a forwarder block, holding the single node "target" with the tunnel's target
address, exactly when the target address is not empty, and references the limiter
"tunnel-limiter" exactly when the speed limit is > 0, which is exactly when the
document has a limiters block with a limiter of that name. -/
theorem tunnel_forwarder_and_limiter (t : Tunnel) (n : Node) (h : t.ExitNode = some n) :
    ∃ doc services,
      GenerateTunnelEntryConfig t = some doc ∧
      getKey doc "services" = some (Val.list services) ∧
      (∀ s ∈ services,
        (s.field "forwarder" = (if t.TargetAddr ≠ "" then
            some (Val.obj [("nodes", Val.list [Val.obj
              [("name", Val.str "target"), ("addr", Val.str t.TargetAddr)]])])
          else none)) ∧
        (s.field "limiter"
          = (if t.SpeedLimit > 0 then some (Val.str "tunnel-limiter") else none))) ∧
      ("tunnel-limiter" ∈ blockNames doc "limiters" ↔ t.SpeedLimit > 0) ∧
      (hasKey doc "limiters" = true ↔ t.SpeedLimit > 0) := by
  obtain ⟨doc, hdoc, hsvc, _, hlim⟩ := entry_config_keys t n h
  refine ⟨doc, _, hdoc, hsvc, ?_, ?_, ?_⟩
  · intro s hs
    obtain ⟨p, _, rfl⟩ := List.mem_map.mp hs
    exact ⟨by simp only [Val.field, tunnelService_forwarder],
      by simp only [Val.field, tunnelService_limiter]⟩
  · rw [blockNames, hlim]
    by_cases hp : t.SpeedLimit > 0 <;>
      simp [hp, tunnelLimiters, Val.elems, Val.strField, Val.field, getKey]
  · rw [hasKey, hlim]
    by_cases hp : t.SpeedLimit > 0 <;> simp [hp]

theorem tunnel_forwarder_and_limiter_witness :
    (∃ doc services,
      GenerateTunnelEntryConfig sampleTunnel = some doc ∧
      getKey doc "services" = some (Val.list services) ∧
      (∀ s ∈ services,
        (s.field "forwarder" = (if sampleTunnel.TargetAddr ≠ "" then
            some (Val.obj [("nodes", Val.list [Val.obj
              [("name", Val.str "target"), ("addr", Val.str sampleTunnel.TargetAddr)]])])
          else none)) ∧
        (s.field "limiter"
          = (if sampleTunnel.SpeedLimit > 0 then some (Val.str "tunnel-limiter") else none))) ∧
      ("tunnel-limiter" ∈ blockNames doc "limiters" ↔ sampleTunnel.SpeedLimit > 0) ∧
      (hasKey doc "limiters" = true ↔ sampleTunnel.SpeedLimit > 0)) ∧
    sampleTunnel.TargetAddr ≠ "" ∧ sampleTunnel.SpeedLimit > 0 :=
  ⟨tunnel_forwarder_and_limiter sampleTunnel sampleNode rfl, by decide, by decide⟩

/-! ## Proxy URIs -/

/-- C24, as stated, fails: a socks5 node with the username "a" and an empty
password gets the URI "socks5://h:1", without userinfo segment. -/
theorem username_without_password_no_userinfo :
    uriNodeNoPassword.Protocol = "socks5" ∧ uriNodeNoPassword.ProxyUser = "a" ∧
    uriNodeNoPassword.ProxyPass = "" ∧
    GenerateProxyURI uriNodeNoPassword = "socks5://h:1" := by
  decide

/-- C24, amended: for a socks5 (http) node GenerateProxyURI returns
"socks5://h:p" ("http://h:p") without userinfo segment when the proxy username or
the proxy password is empty, and "socks5://U:P@h:p" ("http://U:P@h:p"), U and P
being the escaped username and password, when both are not empty. User "a",
password "b", host "h", port 1 give "socks5://a:b@h:1", and the same node without
credentials gives "socks5://h:1". -/
theorem socks5_http_uri :
    (∀ node : Node, node.Protocol = "socks5" →
      ((node.ProxyUser = "" ∨ node.ProxyPass = "") →
        GenerateProxyURI node = "socks5://" ++ (node.Host ++ ":" ++ toString node.Port)) ∧
      (node.ProxyUser ≠ "" → node.ProxyPass ≠ "" →
        GenerateProxyURI node
          = "socks5://" ++ (queryEscape node.ProxyUser ++ ":" ++ queryEscape node.ProxyPass
              ++ "@") ++ (node.Host ++ ":" ++ toString node.Port))) ∧
    (∀ node : Node, node.Protocol = "http" →
      ((node.ProxyUser = "" ∨ node.ProxyPass = "") →
        GenerateProxyURI node = "http://" ++ (node.Host ++ ":" ++ toString node.Port)) ∧
      (node.ProxyUser ≠ "" → node.ProxyPass ≠ "" →
        GenerateProxyURI node
          = "http://" ++ (queryEscape node.ProxyUser ++ ":" ++ queryEscape node.ProxyPass
              ++ "@") ++ (node.Host ++ ":" ++ toString node.Port))) ∧
    GenerateProxyURI uriNode = "socks5://a:b@h:1" ∧
    GenerateProxyURI uriNodeNoCredentials = "socks5://h:1" := by
  refine ⟨?_, ?_, by decide, by decide⟩
  · intro node hp
    constructor
    · intro h
      have hc : ¬ (node.ProxyUser ≠ "" ∧ node.ProxyPass ≠ "") := by
        rintro ⟨h1, h2⟩
        rcases h with h | h
        · exact h1 h
        · exact h2 h
      rw [GenerateProxyURI, if_pos hp, generateSocks5URI, if_neg hc]
    · intro h1 h2
      rw [GenerateProxyURI, if_pos hp, generateSocks5URI, if_pos ⟨h1, h2⟩]
  · intro node hp
    have n1 : ¬ node.Protocol = "socks5" := by rw [hp]; decide
    have n2 : ¬ node.Protocol = "socks4" := by rw [hp]; decide
    constructor
    · intro h
      have hc : ¬ (node.ProxyUser ≠ "" ∧ node.ProxyPass ≠ "") := by
        rintro ⟨h1, h2⟩
        rcases h with h | h
        · exact h1 h
        · exact h2 h
      rw [GenerateProxyURI, if_neg n1, if_neg n2, if_pos hp, generateHTTPURI, if_neg hc]
    · intro h1 h2
      rw [GenerateProxyURI, if_neg n1, if_neg n2, if_pos hp, generateHTTPURI, if_pos ⟨h1, h2⟩]

theorem socks5_http_uri_witness :
    GenerateProxyURI { uriNode with Protocol := "http" }
      = "http://" ++ (queryEscape "a" ++ ":" ++ queryEscape "b" ++ "@") ++ ("h" ++ ":" ++ "1") :=
  (socks5_http_uri.2.1 { uriNode with Protocol := "http" } rfl).2 (by decide) (by decide)

/-- C25, as stated, fails: for the "ss" node named "my node" with the password
"ab?" the URI ends in "#my+node", where the percent-encoded name is "my%20node",
and its base64 text ends in "_", the URL-safe alphabet, where the standard
alphabet has "/". -/
theorem shadowsocks_uri_not_percent_encoded :
    ssQuestionNode.Protocol = "ss" ∧ ssQuestionNode.Name = "my node" ∧
    ssQuestionNode.SSPassword = "ab?" ∧
    GenerateProxyURI ssQuestionNode = "ss://YWVzLTI1Ni1nY206YWI_@h:1080#my+node" ∧
    GenerateProxyURI ssQuestionNode ≠ "ss://YWVzLTI1Ni1nY206YWI_@h:1080#my%20node" ∧
    GenerateProxyURI ssQuestionNode ≠ "ss://YWVzLTI1Ni1nY206YWI/@h:1080#my+node" ∧
    GenerateProxyURI ssQuestionNode ≠ "ss://YWVzLTI1Ni1nY206YWI/@h:1080#my%20node" := by
  decide

/-- C25, amended: for an "ss" node GenerateProxyURI returns "ss://", the
URL-safe base64 text (alphabet with "-" and "_", padded with "=") of
"method:password", "@host:port", "#" and the query-escaped node name (a space
becomes "+"), the method being "aes-256-gcm" when the node has none; the URI of a
node with an empty method is the URI of the same node with the method
"aes-256-gcm". -/
theorem shadowsocks_uri (node : Node) (h : node.Protocol = "ss") :
    GenerateProxyURI node
      = "ss://"
        ++ base64URLEncode ((if node.SSMethod = "" then "aes-256-gcm" else node.SSMethod)
            ++ ":" ++ node.SSPassword)
        ++ "@" ++ node.Host ++ ":" ++ toString node.Port ++ "#" ++ queryEscape node.Name ∧
    GenerateProxyURI { node with SSMethod := "" }
      = GenerateProxyURI { node with SSMethod := "aes-256-gcm" } := by
  have n1 : ¬ node.Protocol = "socks5" := by rw [h]; decide
  have n2 : ¬ node.Protocol = "socks4" := by rw [h]; decide
  have n3 : ¬ node.Protocol = "http" := by rw [h]; decide
  constructor
  · rw [GenerateProxyURI, if_neg n1, if_neg n2, if_neg n3, if_pos h, generateShadowsocksURI]
  · simp [GenerateProxyURI, h, generateShadowsocksURI]

theorem shadowsocks_uri_witness :
    GenerateProxyURI ssUriNode = "ss://YWVzLTI1Ni1nY206cHc=@h:1080#my+node" :=
  ((shadowsocks_uri ssUriNode rfl).1).trans (by decide)

/-- C26: for a protocol that is none of socks5, socks4, http, ss (the empty
protocol included) GenerateProxyURI returns what it returns for the same node
with the protocol "socks5"; for a socks4 node it returns "socks4://host:port",
whatever the credentials are. -/
theorem uri_fallback (node : Node) :
    (node.Protocol ∉ uriProtocols →
      GenerateProxyURI node = GenerateProxyURI { node with Protocol := "socks5" }) ∧
    (node.Protocol = "socks4" →
      GenerateProxyURI node = "socks4://" ++ node.Host ++ ":" ++ toString node.Port) := by
  constructor
  · intro h
    simp only [uriProtocols, List.mem_cons, List.mem_singleton, List.not_mem_nil, or_false,
      not_or] at h
    obtain ⟨h1, h2, h3, h4⟩ := h
    simp [GenerateProxyURI, h1, h2, h3, h4, generateSocks5URI]
  · intro h
    have n1 : ¬ node.Protocol = "socks5" := by rw [h]; decide
    rw [GenerateProxyURI, if_neg n1, if_pos h, generateSocks4URI]

theorem uri_fallback_witness :
    GenerateProxyURI { uriNode with Protocol := "" } = "socks5://a:b@h:1" ∧
    GenerateProxyURI { uriNode with Protocol := "socks4" } = "socks4://h:1" :=
  ⟨((uri_fallback { uriNode with Protocol := "" }).1 (by decide)).trans (by decide),
   ((uri_fallback { uriNode with Protocol := "socks4" }).2 rfl).trans (by decide)⟩

/-! ## Password strength -/

theorem flagChar_foldl (l : List Char) (init : CharFlags) :
    ((l.foldl flagChar init).hasUpper = true →
      init.hasUpper = true ∨ ∃ c ∈ l, 'A' ≤ c ∧ c ≤ 'Z') ∧
    ((l.foldl flagChar init).hasLower = true →
      init.hasLower = true ∨ ∃ c ∈ l, 'a' ≤ c ∧ c ≤ 'z') ∧
    ((l.foldl flagChar init).hasDigit = true →
      init.hasDigit = true ∨ ∃ c ∈ l, '0' ≤ c ∧ c ≤ '9') ∧
    ((l.foldl flagChar init).hasSpecial = true →
      init.hasSpecial = true ∨ ∃ c ∈ l, isSpecialChar c = true) := by
  induction l generalizing init with
  | nil => simp
  | cons c rest ih =>
    obtain ⟨i1, i2, i3, i4⟩ := ih (flagChar init c)
    simp only [List.foldl_cons, List.mem_cons, exists_eq_or_imp]
    refine ⟨fun h => ?_, fun h => ?_, fun h => ?_, fun h => ?_⟩
    · rcases i1 h with h' | h'
      · by_cases hc : 'A' ≤ c ∧ c ≤ 'Z'
        · exact Or.inr (Or.inl hc)
        · left
          unfold flagChar at h'
          simp only [hc, if_false] at h'
          split_ifs at h' <;> exact h'
      · exact Or.inr (Or.inr h')
    · rcases i2 h with h' | h'
      · by_cases hc : 'a' ≤ c ∧ c ≤ 'z'
        · exact Or.inr (Or.inl hc)
        · left
          unfold flagChar at h'
          simp only [hc, if_false] at h'
          split_ifs at h' <;> exact h'
      · exact Or.inr (Or.inr h')
    · rcases i3 h with h' | h'
      · by_cases hc : '0' ≤ c ∧ c ≤ '9'
        · exact Or.inr (Or.inl hc)
        · left
          unfold flagChar at h'
          simp only [hc, if_false] at h'
          split_ifs at h' <;> exact h'
      · exact Or.inr (Or.inr h')
    · rcases i4 h with h' | h'
      · by_cases hc : isSpecialChar c = true
        · exact Or.inr (Or.inl hc)
        · left
          unfold flagChar at h'
          simp only [hc] at h'
          split_ifs at h' <;> first | exact h' | contradiction
      · exact Or.inr (Or.inr h')

theorem ascii_byteLen (l : List Char) (h : ∀ c ∈ l, c.toNat < 128) :
    (l.flatMap utf8Bytes).length = l.length := by
  induction l with
  | nil => rfl
  | cons c rest ih =>
    have hc : c.toNat < 128 := h c (List.mem_cons_self _ _)
    have hr := ih (fun d hd => h d (List.mem_cons_of_mem _ hd))
    simp [List.flatMap_cons, utf8Bytes, hc, hr]

/-- C27, as stated, fails: the password "Abcdefghij12" is accepted although it
contains no special character. -/
theorem long_password_without_special_accepted :
    ValidatePasswordStrength "Abcdefghij12" = none ∧
    ("Abcdefghij12".data.any isSpecialChar) = false := by
  decide

/-- C27, amended: ValidatePasswordStrength accepts a password only if it
contains an uppercase letter, a lowercase letter and a digit, and contains a
special character or is at least 12 long; an accepted password is at least 8
long. The length is `len`, the number of bytes: for an ASCII password, the number
of characters. -/
theorem accepted_password (password : String)
    (h : ValidatePasswordStrength password = none) :
    8 ≤ byteLen password ∧
    (∃ c ∈ password.data, 'A' ≤ c ∧ c ≤ 'Z') ∧
    (∃ c ∈ password.data, 'a' ≤ c ∧ c ≤ 'z') ∧
    (∃ c ∈ password.data, '0' ≤ c ∧ c ≤ '9') ∧
    ((∃ c ∈ password.data, isSpecialChar c = true) ∨ 12 ≤ byteLen password) ∧
    ((∀ c ∈ password.data, c.toNat < 128) → 8 ≤ password.length) := by
  obtain ⟨f1, f2, f3, f4⟩ := flagChar_foldl password.data
    { hasUpper := false, hasLower := false, hasDigit := false, hasSpecial := false }
  by_cases h1 : byteLen password < 8
  · simp [ValidatePasswordStrength, h1] at h
  by_cases h2 : isCommonPassword password = true
  · simp [ValidatePasswordStrength, h1, h2] at h
  simp only [ValidatePasswordStrength, h1, h2, if_false] at h
  generalize List.foldl flagChar
    { hasUpper := false, hasLower := false, hasDigit := false, hasSpecial := false }
    password.data = f at h f1 f2 f3 f4
  have hu : f.hasUpper = true := by
    cases hx : f.hasUpper
    · simp [hx] at h
    · rfl
  have hl : f.hasLower = true := by
    cases hx : f.hasLower
    · simp [hx] at h
    · rfl
  have hd : f.hasDigit = true := by
    cases hx : f.hasDigit
    · simp [hx] at h
    · rfl
  have hs : byteLen password < 12 → f.hasSpecial = true := by
    intro h12
    cases hx : f.hasSpecial
    · simp [hu, hl, hd, hx, h12] at h
    · rfl
  have h8 : 8 ≤ byteLen password := Nat.le_of_not_lt h1
  refine ⟨h8, ?_, ?_, ?_, ?_, ?_⟩
  · rcases f1 hu with e | e
    · cases e
    · exact e
  · rcases f2 hl with e | e
    · cases e
    · exact e
  · rcases f3 hd with e | e
    · cases e
    · exact e
  · by_cases h12 : byteLen password < 12
    · left
      rcases f4 (hs h12) with e | e
      · cases e
      · exact e
    · exact Or.inr (Nat.le_of_not_lt h12)
  · intro ha
    have := ascii_byteLen password.data ha
    unfold byteLen stringBytes at h8
    rw [this] at h8
    exact h8

theorem accepted_password_witness :
    8 ≤ byteLen "Abcdef1!" ∧
    (∃ c ∈ "Abcdef1!".data, 'A' ≤ c ∧ c ≤ 'Z') ∧
    (∃ c ∈ "Abcdef1!".data, 'a' ≤ c ∧ c ≤ 'z') ∧
    (∃ c ∈ "Abcdef1!".data, '0' ≤ c ∧ c ≤ '9') ∧
    ((∃ c ∈ "Abcdef1!".data, isSpecialChar c = true) ∨ 12 ≤ byteLen "Abcdef1!") ∧
    ((∀ c ∈ "Abcdef1!".data, c.toNat < 128) → 8 ≤ "Abcdef1!".length) :=
  accepted_password "Abcdef1!" (by decide)

/-! ## Sort order -/

/-- C28: getSafeOrderBy returns the default order, or the requested sort field
followed by " asc" or " desc" (" desc" exactly when SortDesc is set), and the
latter only for a non-empty field that allowedSortFields lists for the table; for
an empty field, an unknown table or a field the table does not list it returns
the default order. -/
theorem safe_order_by (table : String) (params : PaginationParams) (defaultOrder : String) :
    (getSafeOrderBy table params defaultOrder = defaultOrder ∨
      (params.SortBy ≠ "" ∧
        (∃ fields, allowedSortFields.lookup table = some fields ∧
          fields.lookup params.SortBy = some true) ∧
        getSafeOrderBy table params defaultOrder
          = params.SortBy ++ " " ++ (if params.SortDesc then "desc" else "asc"))) ∧
    ((params.SortBy = "" ∨ allowedSortFields.lookup table = none ∨
        (∀ fields, allowedSortFields.lookup table = some fields →
          fields.lookup params.SortBy ≠ some true)) →
      getSafeOrderBy table params defaultOrder = defaultOrder) := by
  constructor
  · by_cases he : params.SortBy = ""
    · left
      simp [getSafeOrderBy, he]
    · cases ht : allowedSortFields.lookup table with
      | none =>
        left
        simp [getSafeOrderBy, validateSortField, he, ht]
      | some fields =>
        cases hf : fields.lookup params.SortBy with
        | none =>
          left
          simp [getSafeOrderBy, validateSortField, he, ht, hf]
        | some b =>
          cases b with
          | false =>
            left
            simp [getSafeOrderBy, validateSortField, he, ht, hf]
          | true =>
            right
            refine ⟨he, ⟨fields, rfl, hf⟩, ?_⟩
            cases hd : params.SortDesc <;>
              simp [getSafeOrderBy, validateSortField, he, ht, hf, hd]
  · intro h
    rcases h with h | h | h
    · simp [getSafeOrderBy, h]
    · by_cases he : params.SortBy = ""
      · simp [getSafeOrderBy, he]
      · simp [getSafeOrderBy, validateSortField, he, h]
    · by_cases he : params.SortBy = ""
      · simp [getSafeOrderBy, he]
      · cases ht : allowedSortFields.lookup table with
        | none => simp [getSafeOrderBy, validateSortField, he, ht]
        | some fields =>
          have hn := h fields ht
          cases hf : fields.lookup params.SortBy with
          | none => simp [getSafeOrderBy, validateSortField, he, ht, hf]
          | some b =>
            cases b with
            | false => simp [getSafeOrderBy, validateSortField, he, ht, hf]
            | true => exact absurd hf hn

theorem safe_order_by_witness :
    getSafeOrderBy "nodes" sortByName "id desc" = "name desc" ∧
    getSafeOrderBy "nodes" sortByInjection "id desc" = "id desc" ∧
    getSafeOrderBy "tunnels" sortByName "id desc" = "id desc" := by
  refine ⟨?_, (safe_order_by "nodes" sortByInjection "id desc").2
      (Or.inr (Or.inr (by decide))),
    (safe_order_by "tunnels" sortByName "id desc").2 (Or.inr (Or.inl (by decide)))⟩
  rcases (safe_order_by "nodes" sortByName "id desc").1 with h | ⟨_, _, h⟩
  · exact absurd h (by decide)
  · exact h.trans (by decide)

/-! ## Tunnel ids in service names -/

theorem digitChar_toNat (d : Nat) (h : d < 10) : (Nat.digitChar d).toNat = 48 + d := by
  interval_cases d <;> rfl

theorem digitsValue_foldl (tok : List Char) (acc : Nat) :
    tok.foldl (fun acc c => acc * 10 + (c.toNat - 48)) acc
      = acc * 10 ^ tok.length + digitsValue tok := by
  unfold digitsValue
  induction tok generalizing acc with
  | nil => simp
  | cons c cs ih =>
    simp only [List.foldl_cons, List.length_cons]
    rw [ih (acc * 10 + (c.toNat - 48)), ih (0 * 10 + (c.toNat - 48))]
    ring

theorem digitsValue_cons (c : Char) (cs : List Char) :
    digitsValue (c :: cs) = (c.toNat - 48) * 10 ^ cs.length + digitsValue cs := by
  have h := digitsValue_foldl cs (0 * 10 + (c.toNat - 48))
  simp only [Nat.zero_mul, Nat.zero_add] at h
  simpa [digitsValue] using h

/-- The digits written by `Nat.toDigitsCore` in base ten: decimal digits only, at
least one, and their value is the number written. -/
theorem toDigitsCore_decimal (fuel : Nat) : ∀ (n : Nat) (ds : List Char), n < fuel →
    (∀ c ∈ ds, isDecimal c) →
    (∀ c ∈ Nat.toDigitsCore 10 fuel n ds, isDecimal c) ∧
    Nat.toDigitsCore 10 fuel n ds ≠ [] ∧
    digitsValue (Nat.toDigitsCore 10 fuel n ds) = n * 10 ^ ds.length + digitsValue ds := by
  induction fuel with
  | zero => intro n ds h; omega
  | succ fuel ih =>
    intro n ds hn hds
    have hd : isDecimal (Nat.digitChar (n % 10)) := by
      have := digitChar_toNat (n % 10) (Nat.mod_lt _ (by decide))
      unfold isDecimal
      omega
    have hcons : ∀ c ∈ Nat.digitChar (n % 10) :: ds, isDecimal c := by
      intro c hc
      rcases List.mem_cons.mp hc with rfl | hc
      · exact hd
      · exact hds c hc
    have hval : digitsValue (Nat.digitChar (n % 10) :: ds)
        = (n % 10) * 10 ^ ds.length + digitsValue ds := by
      rw [digitsValue_cons, digitChar_toNat (n % 10) (Nat.mod_lt _ (by decide))]
      simp
    by_cases h0 : n / 10 = 0
    · have hr : Nat.toDigitsCore 10 (fuel + 1) n ds = Nat.digitChar (n % 10) :: ds := by
        simp [Nat.toDigitsCore, h0]
      rw [hr]
      refine ⟨hcons, by simp, ?_⟩
      rw [hval]
      have : n % 10 = n := Nat.mod_eq_of_lt (by omega)
      rw [this]
    · have hr : Nat.toDigitsCore 10 (fuel + 1) n ds
          = Nat.toDigitsCore 10 fuel (n / 10) (Nat.digitChar (n % 10) :: ds) := by
        simp [Nat.toDigitsCore, h0]
      rw [hr]
      obtain ⟨a, b, c⟩ := ih (n / 10) (Nat.digitChar (n % 10) :: ds) (by omega) hcons
      refine ⟨a, b, ?_⟩
      rw [c, hval, List.length_cons, pow_succ]
      have hn10 : n = n / 10 * 10 + n % 10 := by omega
      conv_rhs => rw [hn10]
      ring

/-- The decimal text of a number: decimal digits only, at least one, and their
value is the number. -/
theorem toString_decimal (n : Nat) :
    (∀ c ∈ (toString n).data, isDecimal c) ∧ (toString n).data ≠ [] ∧
      digitsValue (toString n).data = n := by
  have h := toDigitsCore_decimal (n + 1) n [] (by omega) (by simp)
  have e : (toString n).data = Nat.toDigitsCore 10 (n + 1) n [] := rfl
  rw [e]
  refine ⟨h.1, h.2.1, ?_⟩
  rw [h.2.2]
  simp [digitsValue]

theorem matchLiteral_append (l r : List Char) : matchLiteral l (l ++ r) = some r := by
  induction l with
  | nil => cases r <;> rfl
  | cons c cs ih => simp [matchLiteral, ih]

theorem isDecimal_number (c : Char) (h : isDecimal c) : isNumberRune c = true := by
  unfold isDecimal at h
  simp [isNumberRune]
  omega

theorem isDecimal_not_space (c : Char) (h : isDecimal c) : isSpaceRune c = false := by
  unfold isDecimal at h
  simp [isSpaceRune]
  omega

theorem takeNumber_decimal (ds : List Char) (c : Char) (rest : List Char)
    (hds : ∀ d ∈ ds, isDecimal d) (hc : isNumberRune c = false) :
    takeNumber (ds ++ c :: rest) = (ds, c :: rest) := by
  induction ds with
  | nil => simp [takeNumber, hc]
  | cons d ds ih =>
    have hd := isDecimal_number d (hds d (List.mem_cons_self _ _))
    have := ih (fun x hx => hds x (List.mem_cons_of_mem _ hx))
    simp [takeNumber, hd, this]

/-- The scan of `%d` on decimal digits followed by a rune that is no number
rune: the value of the digits, when it fits an int64. -/
theorem scanInt_decimal (ds : List Char) (c : Char) (rest : List Char)
    (hds : ∀ d ∈ ds, isDecimal d) (hne : ds ≠ []) (hc : isNumberRune c = false)
    (hmax : digitsValue ds < 9223372036854775808) :
    scanInt (ds ++ c :: rest) = some (digitsValue ds : Int) := by
  cases ds with
  | nil => exact absurd rfl hne
  | cons d ds =>
    have hd := hds d (List.mem_cons_self _ _)
    have hsp := isDecimal_not_space d hd
    have htake := takeNumber_decimal (d :: ds) c rest hds hc
    have h1 : ¬ d.toNat = 10 := by unfold isDecimal at hd; omega
    have h2 : ¬ (d.toNat = 43 ∨ d.toNat = 45) := by unfold isDecimal at hd; omega
    have h3 : ¬ d.toNat = 45 := by unfold isDecimal at hd; omega
    simp only [List.cons_append] at htake ⊢
    have hskip : skipSpace (d :: (ds ++ c :: rest)) = some (d :: (ds ++ c :: rest)) := by
      simp [skipSpace, h1, hsp]
    unfold scanInt
    rw [hskip]
    simp only [if_neg h2, if_neg h3, htake]
    simp
    omega

/-- The name given to a tunnel service parses back to the tunnel id, for every
protocol suffix, when the id fits an int64. -/
theorem parseTunnelID_service_name (n : Nat) (p : String) (h : n < 9223372036854775808) :
    parseTunnelID ("tunnel-" ++ toString n ++ "-" ++ p) = (n : Int) := by
  obtain ⟨hds, hne, hval⟩ := toString_decimal n
  have hdata : ("tunnel-" ++ toString n ++ "-" ++ p).data
      = "tunnel-".data ++ ((toString n).data ++ '-' :: p.data) := by
    simp [String.data_append]
  have hlit : ("tunnel-%d-tcp".data.takeWhile (fun c => decide (c.toNat ≠ 37))) = "tunnel-".data := by
    decide
  have hscan := scanInt_decimal (toString n).data '-' p.data hds hne (by decide)
    (by rw [hval]; exact h)
  have hs : sscanfInt ("tunnel-" ++ toString n ++ "-" ++ p) "tunnel-%d-tcp" = some (n : Int) := by
    show (matchLiteral ("tunnel-%d-tcp".data.takeWhile (fun c => decide (c.toNat ≠ 37)))
      ("tunnel-" ++ toString n ++ "-" ++ p).data).bind scanInt = some (n : Int)
    rw [hlit, hdata, matchLiteral_append, Option.some_bind, hscan, hval]
  rw [parseTunnelID, hs]

theorem parseTunnelID_chain_name (n : Nat) :
    parseTunnelID ("tunnel-chain-" ++ toString n) = 0 := by
  have hdata : ("tunnel-chain-" ++ toString n).data
      = ['t', 'u', 'n', 'n', 'e', 'l', '-', 'c', 'h', 'a', 'i', 'n', '-'] ++ (toString n).data := by
    simp [String.data_append]
  have hlit1 : ("tunnel-%d-tcp".data.takeWhile (fun c => decide (c.toNat ≠ 37)))
      = ['t', 'u', 'n', 'n', 'e', 'l', '-'] := by decide
  have hlit2 : ("tunnel-%d-udp".data.takeWhile (fun c => decide (c.toNat ≠ 37)))
      = ['t', 'u', 'n', 'n', 'e', 'l', '-'] := by decide
  have hlit3 : ("tunnel-%d".data.takeWhile (fun c => decide (c.toNat ≠ 37)))
      = ['t', 'u', 'n', 'n', 'e', 'l', '-'] := by decide
  have hsp : isSpaceRune 'c' = false := by decide
  have hnum : isNumberRune 'c' = false := by decide
  simp [parseTunnelID, sscanfInt, hlit1, hlit2, hlit3, hdata, matchLiteral, scanInt, skipSpace,
    takeNumber, hsp, hnum]

/-- C29: for every tunnel with an exit node and the id n, every service of the
entry document has a name for which parseTunnelID returns n; parseTunnelID returns
0 for "main-service" and for "tunnel-chain-k", for every k. The id is one that
fits the `int` parseTunnelID scans into (below 2^63), as is every id of a tunnel
handed to GenerateTunnelEntryConfig: its two callers load the tunnel by an id
parsed with bit size 32 (`handlers.go`, syncTunnel and getTunnelEntryConfig). -/
theorem tunnel_service_names_parse (t : Tunnel) (e : Node) (h : t.ExitNode = some e)
    (hmax : t.ID < 9223372036854775808) :
    (∃ doc services,
      GenerateTunnelEntryConfig t = some doc ∧
      getKey doc "services" = some (Val.list services) ∧
      ∀ s ∈ services, ∃ name, s.strField "name" = some name ∧
        parseTunnelID name = (t.ID : Int)) ∧
    parseTunnelID "main-service" = 0 ∧
    ∀ k : Nat, parseTunnelID ("tunnel-chain-" ++ toString k) = 0 := by
  obtain ⟨doc, hdoc, hsvc, _, _⟩ := entry_config_keys t e h
  refine ⟨⟨doc, _, hdoc, hsvc, ?_⟩, by decide, parseTunnelID_chain_name⟩
  intro s hs
  obtain ⟨p, _, rfl⟩ := List.mem_map.mp hs
  exact ⟨_, by simp only [Val.strField, Val.field, tunnelService_name],
    parseTunnelID_service_name t.ID p hmax⟩

theorem tunnel_service_names_parse_witness :
    ((∃ doc services,
      GenerateTunnelEntryConfig plainTunnel = some doc ∧
      getKey doc "services" = some (Val.list services) ∧
      ∀ s ∈ services, ∃ name, s.strField "name" = some name ∧
        parseTunnelID name = (plainTunnel.ID : Int)) ∧
    parseTunnelID "main-service" = 0 ∧
    ∀ k : Nat, parseTunnelID ("tunnel-chain-" ++ toString k) = 0) ∧
    parsedServiceIDs (GenerateTunnelEntryConfig plainTunnel) = [some 5] :=
  ⟨tunnel_service_names_parse plainTunnel sampleNode rfl (by decide), by decide⟩

/-! ## References to the non-rule blocks -/

theorem node_config_observers (u : Unmarshal) (node : Node) (bypasses : List Bypass)
    (admissions : List Admission) (hostMappings : List HostMapping)
    (ingresses : List (List Ingress)) :
    getKey (GenerateNodeConfigWithRules u node bypasses admissions hostMappings ingresses)
        "observers" = some (generateObservers node) := by
  rcases ingresses with _ | ⟨first, rest⟩ <;>
    simp [GenerateNodeConfigWithRules, getKey_ite, getKey_setKey, getKey]

/-- The references of the service built by generateMainService. -/
theorem generateMainService_refs (u : Unmarshal) (node : Node) :
    getKey (generateMainService u node) "observer" = some (Val.str "stats-observer") ∧
    getKey (generateMainService u node) "limiter"
      = (if node.SpeedLimit > 0 then some (Val.str "speed-limiter") else none) ∧
    getKey (generateMainService u node) "rlimiter"
      = (if node.ConnRateLimit > 0 then some (Val.str "rate-limiter") else none) ∧
    getKey (generateMainService u node) "auther" = none ∧
    getKey (generateMainService u node) "resolver" = none := by
  unfold generateMainService
  refine ⟨?_, ?_, ?_, ?_, ?_⟩ <;> split_ifs <;> simp [getKey_setKey, getKey]

theorem setHandlerRef_other (service : Obj) (key name k : String) (h : k ≠ "handler") :
    getKey (setHandlerRef service key name) k = getKey service k := by
  unfold setHandlerRef
  split
  · exact getKey_setKey_ne _ _ _ _ (Ne.symm h)
  · rfl

/-- The rule references leave every other key of the main service as it was. -/
theorem mainServiceWithRules_other (u : Unmarshal) (node : Node) (bypasses : List Bypass)
    (admissions : List Admission) (hostMappings : List HostMapping) (k : String)
    (h1 : k ≠ "handler") (h2 : k ≠ "admission") :
    getKey (mainServiceWithRules u node bypasses admissions hostMappings) k
      = getKey (generateMainService u node) k := by
  unfold mainServiceWithRules
  split_ifs <;>
    simp [setHandlerRef_other, getKey_setKey_ne, h1, Ne.symm h2]

/-- The rule references leave every other key of the handler as it was. -/
theorem handlerWithRules_other (node : Node) (bypasses : List Bypass)
    (hostMappings : List HostMapping) (k : String) (h1 : k ≠ "bypass") (h2 : k ≠ "hosts") :
    getKey (handlerWithRules node bypasses hostMappings) k = getKey (generateHandler node) k := by
  unfold handlerWithRules
  split_ifs <;> simp [getKey_setKey_ne, Ne.symm h1, Ne.symm h2]

/-- The references of the handler built by generateHandler. -/
theorem generateHandler_refs (node : Node) :
    getKey (generateHandler node) "auther"
      = (if node.ProxyUser ≠ "" ∧ node.Protocol ∈ autherProtocols then
          some (Val.str "main-auth") else none) ∧
    getKey (generateHandler node) "resolver"
      = (if node.DNSServer ≠ "" then some (Val.str "custom-resolver") else none) ∧
    getKey (generateHandler node) "observer" = none ∧
    getKey (generateHandler node) "limiter" = none ∧
    getKey (generateHandler node) "rlimiter" = none := by
  by_cases hm : node.Protocol ∈ handledProtocols
  · simp only [handledProtocols, List.mem_cons, List.mem_singleton, List.not_mem_nil,
      or_false] at hm
    rcases hm with h | h | h | h | h | h | h | h | h | h | h | h | h | h <;>
      by_cases hu : node.ProxyUser = "" <;> by_cases hd : node.DNSServer = "" <;>
      simp [generateHandler, autherProtocols, h, hu, hd, getKey_setKey, getKey]
  · rw [generateHandler_unhandled node hm]
    have ha : node.Protocol ∉ autherProtocols := by
      intro hmem
      apply hm
      simp only [autherProtocols, List.mem_cons, List.mem_singleton, List.not_mem_nil,
        or_false] at hmem
      simp only [handledProtocols, List.mem_cons, List.mem_singleton, List.not_mem_nil,
        or_false]
      tauto
    by_cases hd : node.DNSServer = "" <;> simp [ha, hd, getKey]

/-- The reference the main service of a node document makes under a key that
is not a rule key. -/
theorem node_config_serviceRef (u : Unmarshal) (node : Node) (bypasses : List Bypass)
    (admissions : List Admission) (hostMappings : List HostMapping)
    (ingresses : List (List Ingress)) (k : String) (h1 : k ≠ "handler")
    (h2 : k ≠ "admission") :
    serviceRef (GenerateNodeConfigWithRules u node bypasses admissions hostMappings ingresses) k
      = (Val.obj (generateMainService u node)).strField k := by
  simp only [serviceRef, mainService, node_config_services, Option.some_bind, Val.strField,
    Val.field, mainServiceWithRules_other u node bypasses admissions hostMappings k h1 h2]

/-- The reference the handler of the main service of a node document makes under
a key that is not a rule key. -/
theorem node_config_handlerRef (u : Unmarshal) (node : Node) (bypasses : List Bypass)
    (admissions : List Admission) (hostMappings : List HostMapping)
    (ingresses : List (List Ingress)) (k : String) (h1 : k ≠ "bypass") (h2 : k ≠ "hosts") :
    handlerRef (GenerateNodeConfigWithRules u node bypasses admissions hostMappings ingresses) k
      = (Val.obj (generateHandler node)).strField k := by
  simp only [handlerRef, mainService, node_config_services, Option.some_bind, Val.strField,
    Val.field, mainServiceWithRules_handler,
    handlerWithRules_other node bypasses hostMappings k h1 h2]

/-- The names referenced under the five keys that are not rule keys. -/
theorem node_config_referencedNames (u : Unmarshal) (node : Node) (bypasses : List Bypass)
    (admissions : List Admission) (hostMappings : List HostMapping)
    (ingresses : List (List Ingress)) :
    referencedNames (GenerateNodeConfigWithRules u node bypasses admissions hostMappings ingresses)
        "observer" = ["stats-observer"] ∧
    referencedNames (GenerateNodeConfigWithRules u node bypasses admissions hostMappings ingresses)
        "auther"
      = (if node.ProxyUser ≠ "" ∧ node.Protocol ∈ autherProtocols then ["main-auth"] else []) ∧
    referencedNames (GenerateNodeConfigWithRules u node bypasses admissions hostMappings ingresses)
        "limiter" = (if node.SpeedLimit > 0 then ["speed-limiter"] else []) ∧
    referencedNames (GenerateNodeConfigWithRules u node bypasses admissions hostMappings ingresses)
        "rlimiter" = (if node.ConnRateLimit > 0 then ["rate-limiter"] else []) ∧
    referencedNames (GenerateNodeConfigWithRules u node bypasses admissions hostMappings ingresses)
        "resolver" = (if node.DNSServer ≠ "" then ["custom-resolver"] else []) := by
  obtain ⟨s1, s2, s3, s4, s5⟩ := generateMainService_refs u node
  obtain ⟨g1, g2, g3, g4, g5⟩ := generateHandler_refs node
  refine ⟨?_, ?_, ?_, ?_, ?_⟩
  · rw [referencedNames, node_config_serviceRef _ _ _ _ _ _ _ (by decide) (by decide),
      node_config_handlerRef _ _ _ _ _ _ _ (by decide) (by decide)]
    simp [Val.strField, Val.field, s1, g3]
  · rw [referencedNames, node_config_serviceRef _ _ _ _ _ _ _ (by decide) (by decide),
      node_config_handlerRef _ _ _ _ _ _ _ (by decide) (by decide)]
    simp only [Val.strField, Val.field, s4, g1]
    split_ifs <;> simp
  · rw [referencedNames, node_config_serviceRef _ _ _ _ _ _ _ (by decide) (by decide),
      node_config_handlerRef _ _ _ _ _ _ _ (by decide) (by decide)]
    simp only [Val.strField, Val.field, s2, g4]
    split_ifs <;> simp
  · rw [referencedNames, node_config_serviceRef _ _ _ _ _ _ _ (by decide) (by decide),
      node_config_handlerRef _ _ _ _ _ _ _ (by decide) (by decide)]
    simp only [Val.strField, Val.field, s3, g5]
    split_ifs <;> simp
  · rw [referencedNames, node_config_serviceRef _ _ _ _ _ _ _ (by decide) (by decide),
      node_config_handlerRef _ _ _ _ _ _ _ (by decide) (by decide)]
    simp only [Val.strField, Val.field, s5, g2]
    split_ifs <;> simp

/-- The names of the blocks under the five keys that are not rule keys. -/
theorem node_config_blockNames (u : Unmarshal) (node : Node) (bypasses : List Bypass)
    (admissions : List Admission) (hostMappings : List HostMapping)
    (ingresses : List (List Ingress)) :
    blockNames (GenerateNodeConfigWithRules u node bypasses admissions hostMappings ingresses)
        "observers" = ["stats-observer"] ∧
    blockNames (GenerateNodeConfigWithRules u node bypasses admissions hostMappings ingresses)
        "authers" = (if node.ProxyUser ≠ "" then ["main-auth"] else []) ∧
    blockNames (GenerateNodeConfigWithRules u node bypasses admissions hostMappings ingresses)
        "limiters" = (if node.SpeedLimit > 0 then ["speed-limiter"] else []) ∧
    blockNames (GenerateNodeConfigWithRules u node bypasses admissions hostMappings ingresses)
        "rlimiters" = (if node.ConnRateLimit > 0 then ["rate-limiter"] else []) ∧
    blockNames (GenerateNodeConfigWithRules u node bypasses admissions hostMappings ingresses)
        "resolvers" = (if node.DNSServer ≠ "" then ["custom-resolver"] else []) := by
  refine ⟨?_, ?_, ?_, ?_, ?_⟩
  · rw [blockNames, node_config_observers]
    simp [generateObservers, Val.elems, Val.strField, Val.field, getKey]
  · rw [blockNames, node_config_authers]
    by_cases a : node.ProxyUser = "" <;>
      simp [a, generateAuthers, Val.elems, Val.strField, Val.field, getKey]
  · rw [blockNames, node_config_limiters]
    by_cases a : node.SpeedLimit > 0 <;> by_cases b : node.ConnRateLimit > 0 <;>
      simp [a, b, generateLimiters, Val.elems, Val.strField, Val.field, getKey, strList,
        not_le.mpr, not_lt.mp]
  · rw [blockNames, node_config_rlimiters]
    by_cases a : node.SpeedLimit > 0 <;> by_cases b : node.ConnRateLimit > 0 <;>
      simp [a, b, generateRateLimiters, Val.elems, Val.strField, Val.field, getKey, strList,
        not_le.mpr, not_lt.mp]
  · rw [blockNames, node_config_resolvers]
    by_cases a : node.DNSServer = "" <;>
      simp [a, generateResolvers, Val.elems, Val.strField, Val.field, getKey]

/-- C30: in the document of GenerateNodeConfigWithRules, for every node and all
rule inputs, every observer, auther, limiter, rlimiter and resolver name referenced
by the main service or by its handler is the name of a block under the key
"observers", "authers", "limiters", "rlimiters" and "resolvers" respectively. The
referenced names are "stats-observer" always, "main-auth" when the proxy username
is set and the protocol is http, socks5, empty or sshd, "speed-limiter" and
"rate-limiter" when the respective limit is > 0, and "custom-resolver" when a DNS
server is set. -/
theorem no_dangling_block_references (u : Unmarshal) (node : Node) (bypasses : List Bypass)
    (admissions : List Admission) (hostMappings : List HostMapping)
    (ingresses : List (List Ingress)) :
    ((∀ name ∈ referencedNames
        (GenerateNodeConfigWithRules u node bypasses admissions hostMappings ingresses) "observer",
      name ∈ blockNames
        (GenerateNodeConfigWithRules u node bypasses admissions hostMappings ingresses)
        "observers") ∧
    (∀ name ∈ referencedNames
        (GenerateNodeConfigWithRules u node bypasses admissions hostMappings ingresses) "auther",
      name ∈ blockNames
        (GenerateNodeConfigWithRules u node bypasses admissions hostMappings ingresses)
        "authers") ∧
    (∀ name ∈ referencedNames
        (GenerateNodeConfigWithRules u node bypasses admissions hostMappings ingresses) "limiter",
      name ∈ blockNames
        (GenerateNodeConfigWithRules u node bypasses admissions hostMappings ingresses)
        "limiters") ∧
    (∀ name ∈ referencedNames
        (GenerateNodeConfigWithRules u node bypasses admissions hostMappings ingresses) "rlimiter",
      name ∈ blockNames
        (GenerateNodeConfigWithRules u node bypasses admissions hostMappings ingresses)
        "rlimiters") ∧
    (∀ name ∈ referencedNames
        (GenerateNodeConfigWithRules u node bypasses admissions hostMappings ingresses) "resolver",
      name ∈ blockNames
        (GenerateNodeConfigWithRules u node bypasses admissions hostMappings ingresses)
        "resolvers")) ∧
    referencedNames (GenerateNodeConfigWithRules u node bypasses admissions hostMappings ingresses)
        "observer" = ["stats-observer"] ∧
    referencedNames (GenerateNodeConfigWithRules u node bypasses admissions hostMappings ingresses)
        "auther"
      = (if node.ProxyUser ≠ "" ∧ node.Protocol ∈ autherProtocols then ["main-auth"] else []) ∧
    referencedNames (GenerateNodeConfigWithRules u node bypasses admissions hostMappings ingresses)
        "limiter" = (if node.SpeedLimit > 0 then ["speed-limiter"] else []) ∧
    referencedNames (GenerateNodeConfigWithRules u node bypasses admissions hostMappings ingresses)
        "rlimiter" = (if node.ConnRateLimit > 0 then ["rate-limiter"] else []) ∧
    referencedNames (GenerateNodeConfigWithRules u node bypasses admissions hostMappings ingresses)
        "resolver" = (if node.DNSServer ≠ "" then ["custom-resolver"] else []) := by
  have hr := node_config_referencedNames u node bypasses admissions hostMappings ingresses
  obtain ⟨r1, r2, r3, r4, r5⟩ := hr
  obtain ⟨b1, b2, b3, b4, b5⟩ :=
    node_config_blockNames u node bypasses admissions hostMappings ingresses
  refine ⟨⟨?_, ?_, ?_, ?_, ?_⟩, r1, r2, r3, r4, r5⟩
  · rw [r1, b1]
    exact fun _ h => h
  · rw [r2, b2]
    intro name h
    by_cases a : node.ProxyUser = "" <;> by_cases b : node.Protocol ∈ autherProtocols <;>
      simp_all
  · rw [r3, b3]
    exact fun _ h => h
  · rw [r4, b4]
    exact fun _ h => h
  · rw [r5, b5]
    exact fun _ h => h

end GostPanel
